import Mathlib

/-!
# AP1302 ISP driver: register access, firmware download and boot retry

A shallow embedding of `src/driver/ap1302.c`.

* Machine integers are natural numbers (unsigned) or integers (`int` return
  codes); 32-bit wrap-around is written `% 2 ^ 32` where the C code can wrap.
* The device session `struct ap1302_dev` is a record that is passed through
  every operation.  The hardware the driver talks to (the I2C register maps,
  GPIO lines, clock, regulators, firmware store) is part of the same record:
  every hardware action is appended to `log`, and the outcome of the `n`-th
  bus transaction is read from the oracle `bus n`.
-/

namespace AP1302

/-! ## Error numbers -/

def EAGAIN : Int := 11
def EBUSY : Int := 16
def EINVAL : Int := 22
def ETIMEDOUT : Int := 110

/-! ## Constants and register-reference macros -/

def AP1302_FW_WINDOW_SIZE : Nat := 0x2000
def AP1302_FW_WINDOW_OFFSET : Nat := 0x8000
def AP1302_FW_BLOCK_LEN : Nat := 0x800

/-- The C macro `AP1302_REG_16BIT(n)`, that is `((2 << 24) | (n))`. -/
def AP1302_REG_16BIT (n : Nat) : Nat := (2 <<< 24) ||| n
/-- The C macro `AP1302_REG_32BIT(n)`, that is `((4 << 24) | (n))`. -/
def AP1302_REG_32BIT (n : Nat) : Nat := (4 <<< 24) ||| n
/-- The C macro `AP1302_REG_SIZE(n)`, that is `((n) >> 24)`. -/
def AP1302_REG_SIZE (n : Nat) : Nat := n >>> 24
/-- The C macro `AP1302_REG_ADDR(n)`, that is `((n) & 0x0000ffff)`. -/
def AP1302_REG_ADDR (n : Nat) : Nat := n &&& 0x0000ffff
/-- The C macro `AP1302_REG_PAGE(n)`, that is `((n) & 0x00ff0000)`. -/
def AP1302_REG_PAGE (n : Nat) : Nat := n &&& 0x00ff0000
def AP1302_REG_PAGE_MASK : Nat := 0x00ff0000

def AP1302_CHIP_VERSION : Nat := AP1302_REG_16BIT 0x0000
def AP1302_CHIP_ID : Nat := 0x0265
def AP1302_CHIP_REV : Nat := AP1302_REG_16BIT 0x0050
def AP1302_BOOTDATA_STAGE : Nat := AP1302_REG_16BIT 0x6002
def AP1302_REG_ADV_START : Nat := 0xe000
def AP1302_ADVANCED_BASE : Nat := AP1302_REG_32BIT 0xf038
def AP1302_SIP_CHECKSUM : Nat := AP1302_REG_16BIT 0x6134
def AP1302_ADV_HINF_MIPI_T3 : Nat := AP1302_REG_32BIT 0x840014
def AP1302_TCLK_POST_MASK : Nat := 0xFF
def AP1302_TCLK_POST_SHIFT : Nat := 0x0
def AP1302_TCLK_PRE_MASK : Nat := 0xFF00
def AP1302_TCLK_PRE_SHIFT : Nat := 0x8
def MAX_FW_LOAD_RETRIES : Nat := 3

/-- Size in bytes of `struct ap1302_firmware_header` (two packed `u16`). -/
def FW_HEADER_SIZE : Nat := 4

/-- Conversion of a value to `u32`. -/
def u32 (n : Nat) : Nat := n % 2 ^ 32

/-- Bitwise complement of a 32-bit value (`~x` on `u32`). -/
def not32 (x : Nat) : Nat := 0xffffffff ^^^ x

/-! ## Mode catalog and media-bus formats -/

/-- Enumerator of `enum ap1302_mode_id`. -/
def AP1302_MODE_QCIF_176_144 : Nat := 0
/-- Enumerator of `enum ap1302_mode_id`. -/
def AP1302_MODE_QVGA_320_240 : Nat := 1
/-- Enumerator of `enum ap1302_mode_id`. -/
def AP1302_MODE_VGA_640_480 : Nat := 2
/-- Enumerator of `enum ap1302_mode_id`. -/
def AP1302_MODE_NTSC_720_480 : Nat := 3
/-- Enumerator of `enum ap1302_mode_id`. -/
def AP1302_MODE_PAL_720_576 : Nat := 4
/-- Enumerator of `enum ap1302_mode_id`. -/
def AP1302_MODE_XGA_1024_768 : Nat := 5
/-- Enumerator of `enum ap1302_mode_id`. -/
def AP1302_MODE_720P_1280_720 : Nat := 6
/-- Enumerator of `enum ap1302_mode_id`. -/
def AP1302_MODE_1080P_1920_1080 : Nat := 7
/-- Enumerator of `enum ap1302_mode_id`. -/
def AP1302_MODE_QSXGA_2592_1944 : Nat := 8
/-- Enumerator of `enum ap1302_mode_id`. -/
def AP1302_MODE_4K_3840_2160 : Nat := 9
/-- Enumerator of `enum ap1302_mode_id`: the number of modes. -/
def AP1302_NUM_MODES : Nat := 10

/-- Enumerator of `enum ap1302_frame_rate`. -/
def AP1302_08_FPS : Nat := 0
/-- Enumerator of `enum ap1302_frame_rate`. -/
def AP1302_15_FPS : Nat := 1
/-- Enumerator of `enum ap1302_frame_rate`. -/
def AP1302_30_FPS : Nat := 2
/-- Enumerator of `enum ap1302_frame_rate`. -/
def AP1302_60_FPS : Nat := 3
/-- Enumerator of `enum ap1302_frame_rate`: the number of classes. -/
def AP1302_NUM_FRAMERATES : Nat := 4

/-- Enumerator of `enum ap1302_downsize_mode`. -/
def SUBSAMPLING : Nat := 0
/-- Enumerator of `enum ap1302_downsize_mode`. -/
def SCALING : Nat := 1

/-- The table `ap1302_framerates`: frames per second of each class. -/
def ap1302_framerates : List Int := [8, 15, 30, 60]

/-- The C `struct reg_value`. -/
structure reg_value where
  reg_addr : Nat
  val : Nat
  mask : Nat
  delay_ms : Nat
  deriving DecidableEq, Repr

/-- The C `struct ap1302_mode_info`.  `reg_data` is `none` for a NULL pointer
and otherwise holds the register table it points to. -/
structure ap1302_mode_info where
  id : Nat
  dn_mode : Nat
  hact : Nat
  htot : Nat
  vact : Nat
  vtot : Nat
  reg_data : Option (List reg_value)
  reg_data_size : Nat
  max_fps : Nat
  deriving DecidableEq, Repr

/-- The entry `ap1302_mode_init_data`. -/
def ap1302_mode_init_data : ap1302_mode_info :=
  ⟨AP1302_MODE_4K_3840_2160, SCALING, 3840, 3840, 2160, 2160, some [], 0, AP1302_30_FPS⟩

/-- The catalog `ap1302_mode_data`, in the order of the array.  The register
tables `ap1302_setting_*` are all empty arrays.  A pointer to an entry of the
catalog is represented by the entry: the entries are pairwise different, so
two pointers into the catalog are equal exactly when the entries are. -/
def ap1302_mode_data : List ap1302_mode_info :=
  [⟨AP1302_MODE_QCIF_176_144, SUBSAMPLING, 176, 1896, 144, 984, some [], 0, AP1302_30_FPS⟩,
   ⟨AP1302_MODE_QVGA_320_240, SUBSAMPLING, 320, 1896, 240, 984, some [], 0, AP1302_30_FPS⟩,
   ⟨AP1302_MODE_VGA_640_480, SUBSAMPLING, 640, 1896, 480, 1080, some [], 0, AP1302_30_FPS⟩,
   ⟨AP1302_MODE_NTSC_720_480, SUBSAMPLING, 720, 1896, 480, 984, some [], 0, AP1302_30_FPS⟩,
   ⟨AP1302_MODE_PAL_720_576, SUBSAMPLING, 720, 1896, 576, 984, some [], 0, AP1302_30_FPS⟩,
   ⟨AP1302_MODE_XGA_1024_768, SUBSAMPLING, 1024, 1896, 768, 1080, some [], 0, AP1302_30_FPS⟩,
   ⟨AP1302_MODE_720P_1280_720, SUBSAMPLING, 1280, 1892, 720, 740, some [], 0, AP1302_30_FPS⟩,
   ⟨AP1302_MODE_1080P_1920_1080, SCALING, 1920, 2500, 1080, 1120, some [], 0, AP1302_30_FPS⟩,
   ⟨AP1302_MODE_QSXGA_2592_1944, SCALING, 2592, 2844, 1944, 1968, some [], 0, AP1302_30_FPS⟩,
   ⟨AP1302_MODE_4K_3840_2160, SCALING, 3840, 3840, 2160, 2160, some [], 0, AP1302_30_FPS⟩]

/-- The entry `ap1302_mode_data[id]`; an index outside the array is not used
by the driver and yields `ap1302_mode_init_data` here. -/
def ap1302_mode_entry (id : Nat) : ap1302_mode_info :=
  ap1302_mode_data.getD id ap1302_mode_init_data

/-- Kernel media-bus code `MEDIA_BUS_FMT_UYVY8_2X8`. -/
def MEDIA_BUS_FMT_UYVY8_2X8 : Nat := 0x2006
/-- Kernel media-bus code `MEDIA_BUS_FMT_UYVY8_1X16`. -/
def MEDIA_BUS_FMT_UYVY8_1X16 : Nat := 0x200f
/-- Kernel media-bus code `MEDIA_BUS_FMT_YUYV8_2X8`. -/
def MEDIA_BUS_FMT_YUYV8_2X8 : Nat := 0x2008
/-- Kernel media-bus code `MEDIA_BUS_FMT_YUYV8_1X16`. -/
def MEDIA_BUS_FMT_YUYV8_1X16 : Nat := 0x2011

/-- Kernel `V4L2_COLORSPACE_SRGB`. -/
def V4L2_COLORSPACE_SRGB : Nat := 8
/-- Kernel `V4L2_YCBCR_ENC_601`. -/
def V4L2_YCBCR_ENC_601 : Nat := 1
/-- Kernel `V4L2_YCBCR_ENC_709`. -/
def V4L2_YCBCR_ENC_709 : Nat := 2
/-- Kernel `V4L2_YCBCR_ENC_BT2020`. -/
def V4L2_YCBCR_ENC_BT2020 : Nat := 6
/-- Kernel `V4L2_YCBCR_ENC_SMPTE240M`. -/
def V4L2_YCBCR_ENC_SMPTE240M : Nat := 8
/-- Kernel `V4L2_QUANTIZATION_FULL_RANGE`. -/
def V4L2_QUANTIZATION_FULL_RANGE : Nat := 1
/-- Kernel `V4L2_XFER_FUNC_709`. -/
def V4L2_XFER_FUNC_709 : Nat := 1
/-- Kernel `V4L2_XFER_FUNC_SRGB`. -/
def V4L2_XFER_FUNC_SRGB : Nat := 2
/-- Kernel `V4L2_XFER_FUNC_OPRGB`. -/
def V4L2_XFER_FUNC_OPRGB : Nat := 3
/-- Kernel `V4L2_XFER_FUNC_SMPTE240M`. -/
def V4L2_XFER_FUNC_SMPTE240M : Nat := 4
/-- Kernel `V4L2_XFER_FUNC_NONE`. -/
def V4L2_XFER_FUNC_NONE : Nat := 5
/-- Kernel `V4L2_XFER_FUNC_DCI_P3`. -/
def V4L2_XFER_FUNC_DCI_P3 : Nat := 6
/-- Kernel `V4L2_FIELD_NONE`. -/
def V4L2_FIELD_NONE : Nat := 1
/-- Kernel `V4L2_MBUS_CSI2_DPHY` of `enum v4l2_mbus_type`. -/
def V4L2_MBUS_CSI2_DPHY : Nat := 5
/-- Kernel `V4L2_SUBDEV_FORMAT_TRY`. -/
def V4L2_SUBDEV_FORMAT_TRY : Nat := 0
/-- Kernel `V4L2_SUBDEV_FORMAT_ACTIVE`. -/
def V4L2_SUBDEV_FORMAT_ACTIVE : Nat := 1

/-- Kernel macro `V4L2_MAP_YCBCR_ENC_DEFAULT`. -/
def V4L2_MAP_YCBCR_ENC_DEFAULT (colsp : Nat) : Nat :=
  if colsp = 3 ∨ colsp = 12 then V4L2_YCBCR_ENC_709
  else if colsp = 10 then V4L2_YCBCR_ENC_BT2020
  else if colsp = 2 then V4L2_YCBCR_ENC_SMPTE240M
  else V4L2_YCBCR_ENC_601

/-- Kernel macro `V4L2_MAP_XFER_FUNC_DEFAULT`. -/
def V4L2_MAP_XFER_FUNC_DEFAULT (colsp : Nat) : Nat :=
  if colsp = 9 then V4L2_XFER_FUNC_OPRGB
  else if colsp = 2 then V4L2_XFER_FUNC_SMPTE240M
  else if colsp = 12 then V4L2_XFER_FUNC_DCI_P3
  else if colsp = 11 then V4L2_XFER_FUNC_NONE
  else if colsp = V4L2_COLORSPACE_SRGB ∨ colsp = 7 then V4L2_XFER_FUNC_SRGB
  else V4L2_XFER_FUNC_709

/-- The C `struct ap1302_pixfmt`. -/
structure ap1302_pixfmt where
  code : Nat
  colorspace : Nat
  deriving DecidableEq, Repr

/-- The table `ap1302_formats`. -/
def ap1302_formats : List ap1302_pixfmt :=
  [⟨MEDIA_BUS_FMT_UYVY8_2X8, V4L2_COLORSPACE_SRGB⟩,
   ⟨MEDIA_BUS_FMT_UYVY8_1X16, V4L2_COLORSPACE_SRGB⟩,
   ⟨MEDIA_BUS_FMT_YUYV8_2X8, V4L2_COLORSPACE_SRGB⟩,
   ⟨MEDIA_BUS_FMT_YUYV8_1X16, V4L2_COLORSPACE_SRGB⟩]

/-- Kernel `struct v4l2_mbus_framefmt` (`flags` is not used by the driver). -/
structure v4l2_mbus_framefmt where
  width : Nat := 0
  height : Nat := 0
  code : Nat := 0
  field : Nat := 0
  colorspace : Nat := 0
  ycbcr_enc : Nat := 0
  quantization : Nat := 0
  xfer_func : Nat := 0
  reserved : List Nat := List.replicate 10 0
  deriving DecidableEq, Repr

/-- Kernel `struct v4l2_fract`. -/
structure v4l2_fract where
  numerator : Nat
  denominator : Nat
  deriving DecidableEq, Repr

/-- Kernel `struct v4l2_subdev_format`. -/
structure v4l2_subdev_format where
  which : Nat := 0
  pad : Nat := 0
  format : v4l2_mbus_framefmt := {}
  deriving DecidableEq, Repr

/-- Kernel `struct v4l2_subdev_frame_interval`. -/
structure v4l2_subdev_frame_interval where
  pad : Nat := 0
  interval : v4l2_fract := ⟨0, 0⟩
  deriving DecidableEq, Repr

/-! ## Hardware environment -/

/-- The two register maps of the driver: `regmap16` and `regmap32`. -/
inductive Chan where
  | regmap16
  | regmap32
  deriving DecidableEq, Repr

/-- The GPIO lines of the driver. -/
inductive Gpio where
  | reset_gpio
  | pwdn_gpio
  deriving DecidableEq, Repr

/-- Hardware actions, in the order the driver performs them. -/
inductive Event where
  | regmap_write (c : Chan) (addr val : Nat)
  | regmap_read (c : Chan) (addr : Nat)
  | regmap_raw_write (c : Chan) (addr : Nat) (payload : List Nat) (len : Nat)
  | gpiod_set_value (g : Gpio) (v : Nat)
  | clk_prepare_enable
  | clk_disable_unprepare
  | regulator_bulk_enable
  | regulator_bulk_disable
  | request_firmware
  | release_firmware
  deriving DecidableEq, Repr

/-- Outcome of one bus transaction: the return code of the regmap call and,
for a read, the value the device returned. -/
structure BusResp where
  ret : Int := 0
  val : Nat := 0

/-- The device session `struct ap1302_dev` together with the hardware
environment it drives. -/
structure ap1302_dev where
  /-- Field `reg_page`: the page last written to the page-select register. -/
  reg_page : Nat := 0
  /-- Field `fw`: the bytes of the firmware blob (`fw->data`, `fw->size`). -/
  fw : List Nat := []
  /-- Whether the optional `pwdn_gpio` line is present (non-NULL). -/
  pwdn_gpio : Bool := false
  streaming : Bool := false
  /-- Outcome of the `n`-th bus transaction of the run. -/
  bus : Nat → BusResp := fun _ => {}
  /-- Number of bus transactions issued so far. -/
  seq : Nat := 0
  /-- Hardware actions performed so far, oldest first. -/
  log : List Event := []
  /-- Return code of `clk_prepare_enable`. -/
  clk_ret : Int := 0
  /-- Return code of `regulator_bulk_enable`. -/
  regulator_ret : Int := 0
  /-- Return code of the kernel's `request_firmware`. -/
  request_firmware_ret : Int := 0
  /-- The blob the firmware store hands out. -/
  firmware_blob : List Nat := []
  /-- The indeterminate value an uninitialised `int` local holds when it is
  read before being assigned. -/
  uninit_ret : Int := 0
  /-- Field `ep.bus_type` of the parsed endpoint. -/
  bus_type : Nat := V4L2_MBUS_CSI2_DPHY
  /-- Field `ep.bus.mipi_csi2.num_data_lanes` of the parsed endpoint. -/
  num_data_lanes : Nat := 2
  power_count : Int := 0
  /-- Field `fmt`; the default is the format `ap1302_probe` stores. -/
  fmt : v4l2_mbus_framefmt :=
    { width := 3840, height := 2160, code := MEDIA_BUS_FMT_UYVY8_1X16, field := V4L2_FIELD_NONE,
      colorspace := V4L2_COLORSPACE_SRGB,
      ycbcr_enc := V4L2_MAP_YCBCR_ENC_DEFAULT V4L2_COLORSPACE_SRGB,
      quantization := V4L2_QUANTIZATION_FULL_RANGE,
      xfer_func := V4L2_MAP_XFER_FUNC_DEFAULT V4L2_COLORSPACE_SRGB }
  pending_fmt_change : Bool := false
  /-- Field `current_mode`; `ap1302_probe` stores the 4K entry. -/
  current_mode : ap1302_mode_info := ap1302_mode_entry AP1302_MODE_4K_3840_2160
  last_mode : ap1302_mode_info := ap1302_mode_entry AP1302_MODE_4K_3840_2160
  current_fr : Nat := AP1302_30_FPS
  frame_interval : v4l2_fract := ⟨1, 30⟩
  /-- The value of the control `ctrls.pixel_rate`. -/
  pixel_rate : Nat := 248832000
  pending_mode_change : Bool := false
  /-- Return code of the kernel's `v4l2_ctrl_handler_setup`. -/
  ctrl_handler_setup_ret : Int := 0
  /-- The calls of `ap1302_set_power` so far, oldest first, each with its
  argument `on`: a record kept by the model, not a field of the driver. -/
  set_power_calls : List Bool := []
  /-- The assignments `sensor->streaming = enable` made by `ap1302_s_stream`
  so far, oldest first, each with the hardware actions performed before it
  and the value assigned: a record kept by the model, not a field of the
  driver. -/
  stream_flag_writes : List (List Event × Bool) := []

/-- Kernel `regmap_write`: one write transaction on a register map. -/
def regmap_write (s : ap1302_dev) (c : Chan) (addr val : Nat) : Int × ap1302_dev :=
  ((s.bus s.seq).ret,
   { s with seq := s.seq + 1, log := s.log ++ [Event.regmap_write c addr val] })

/-- Width in bits of the values of a register map (`val_bits`). -/
def Chan.val_bits : Chan → Nat
  | Chan.regmap16 => 16
  | Chan.regmap32 => 32

/-- Kernel `regmap_read`: one read transaction on a register map.  The value
is meaningful only when the return code is 0 (the C code leaves `*val`
unwritten on failure and no caller reads it then); it is reported as 0 on
failure. -/
def regmap_read (s : ap1302_dev) (c : Chan) (addr : Nat) : Int × Nat × ap1302_dev :=
  ((s.bus s.seq).ret,
   (if (s.bus s.seq).ret = 0 then (s.bus s.seq).val % 2 ^ c.val_bits else 0),
   { s with seq := s.seq + 1, log := s.log ++ [Event.regmap_read c addr] })

/-- Kernel `regmap_raw_write`: one block write of `len` bytes taken from the
front of `buf`. -/
def regmap_raw_write (s : ap1302_dev) (c : Chan) (addr : Nat) (buf : List Nat) (len : Nat) :
    Int × ap1302_dev :=
  ((s.bus s.seq).ret,
   { s with seq := s.seq + 1,
            log := s.log ++ [Event.regmap_raw_write c addr (buf.take len) len] })

/-! ## Register access layer -/

/-- The register reference after the two statements
`reg &= ~AP1302_REG_PAGE_MASK; reg += AP1302_REG_ADV_START;` of `ap1302_write`
and `ap1302_read` (arithmetic on `u32`). -/
def adv_reg (reg : Nat) : Nat :=
  u32 ((reg &&& not32 AP1302_REG_PAGE_MASK) + AP1302_REG_ADV_START)

/-- The C function `__ap1302_write`. -/
def __ap1302_write (s : ap1302_dev) (reg val : Nat) : Int × ap1302_dev :=
  let size := AP1302_REG_SIZE reg
  let addr := AP1302_REG_ADDR reg
  if size = 2 then
    regmap_write s Chan.regmap16 addr val
  else if size = 4 then
    regmap_write s Chan.regmap32 addr val
  else
    (-EINVAL, s)

/-- The `done:` label of `ap1302_write`: store a non-zero result in the
accumulator cell when one was passed. `err = none` is the NULL pointer. -/
def ap1302_write_done (ret : Int) (err : Option Int) (s : ap1302_dev) :
    Int × Option Int × ap1302_dev :=
  (ret, (if err.isSome ∧ ret ≠ 0 then some ret else err), s)

/-- The test `err && *err` of `ap1302_write`. -/
def err_pending (err : Option Int) : Bool :=
  match err with
  | some e => e != 0
  | none => false

/-- The C function `ap1302_write`; `err` is the optional error accumulator
(`none` for a NULL pointer, `some e` for a cell holding `e`). The result is
the return value, the accumulator afterwards and the session afterwards. -/
def ap1302_write (s : ap1302_dev) (reg val : Nat) (err : Option Int) :
    Int × Option Int × ap1302_dev :=
  let page := AP1302_REG_PAGE reg
  if err_pending err then (err.getD 0, err, s) else
  if page ≠ 0 then
    if s.reg_page ≠ page then
      let r := __ap1302_write s AP1302_ADVANCED_BASE page
      if r.1 < 0 then ap1302_write_done r.1 err r.2 else
      let r2 := __ap1302_write { r.2 with reg_page := page } (adv_reg reg) val
      ap1302_write_done r2.1 err r2.2
    else
      let r2 := __ap1302_write s (adv_reg reg) val
      ap1302_write_done r2.1 err r2.2
  else
    let r2 := __ap1302_write s reg val
    ap1302_write_done r2.1 err r2.2

/-- The C function `__ap1302_read`; the result is the return value, the
value stored through `val` (0 when nothing was stored) and the session. -/
def __ap1302_read (s : ap1302_dev) (reg : Nat) : Int × Nat × ap1302_dev :=
  let size := AP1302_REG_SIZE reg
  let addr := AP1302_REG_ADDR reg
  if size = 2 then
    regmap_read s Chan.regmap16 addr
  else if size = 4 then
    regmap_read s Chan.regmap32 addr
  else
    (-EINVAL, 0, s)

/-- The C function `ap1302_read`. -/
def ap1302_read (s : ap1302_dev) (reg : Nat) : Int × Nat × ap1302_dev :=
  let page := AP1302_REG_PAGE reg
  if page ≠ 0 then
    if s.reg_page ≠ page then
      let r := __ap1302_write s AP1302_ADVANCED_BASE page
      if r.1 < 0 then (r.1, 0, r.2) else
      __ap1302_read { r.2 with reg_page := page } (adv_reg reg)
    else
      __ap1302_read s (adv_reg reg)
  else
    __ap1302_read s reg


/-! ## Power sequencing -/

/-- Kernel `gpiod_set_value_cansleep`. -/
def gpiod_set_value_cansleep (s : ap1302_dev) (g : Gpio) (v : Nat) : ap1302_dev :=
  { s with log := s.log ++ [Event.gpiod_set_value g v] }

/-- The C function `ap1302_power_on` (the sleeps are not modelled). -/
def ap1302_power_on (s : ap1302_dev) : Int × ap1302_dev :=
  let s1 := if s.pwdn_gpio then gpiod_set_value_cansleep s Gpio.pwdn_gpio 1 else s
  let s2 := if s1.pwdn_gpio then gpiod_set_value_cansleep s1 Gpio.pwdn_gpio 0 else s1
  let s3 := gpiod_set_value_cansleep s2 Gpio.reset_gpio 0
  (0, s3)

/-- The C function `ap1302_power_off`. -/
def ap1302_power_off (s : ap1302_dev) : ap1302_dev :=
  let s1 := gpiod_set_value_cansleep s Gpio.reset_gpio 1
  let s2 := if s1.pwdn_gpio then gpiod_set_value_cansleep s1 Gpio.pwdn_gpio 1 else s1
  let s3 := if s2.pwdn_gpio then gpiod_set_value_cansleep s2 Gpio.pwdn_gpio 0 else s2
  s3

/-- The C function `ap1302_init_slave_id`. -/
def ap1302_init_slave_id (s : ap1302_dev) : Int × ap1302_dev := (0, s)

/-- Kernel `clk_prepare_enable` on `xclk`. -/
def clk_prepare_enable (s : ap1302_dev) : Int × ap1302_dev :=
  (s.clk_ret, { s with log := s.log ++ [Event.clk_prepare_enable] })

/-- Kernel `clk_disable_unprepare` on `xclk`. -/
def clk_disable_unprepare (s : ap1302_dev) : ap1302_dev :=
  { s with log := s.log ++ [Event.clk_disable_unprepare] }

/-- Kernel `regulator_bulk_enable` on the three supplies. -/
def regulator_bulk_enable (s : ap1302_dev) : Int × ap1302_dev :=
  (s.regulator_ret, { s with log := s.log ++ [Event.regulator_bulk_enable] })

/-- Kernel `regulator_bulk_disable` on the three supplies. -/
def regulator_bulk_disable (s : ap1302_dev) : ap1302_dev :=
  { s with log := s.log ++ [Event.regulator_bulk_disable] }

/-- The C function `ap1302_set_power_on`. -/
def ap1302_set_power_on (s : ap1302_dev) : Int × ap1302_dev :=
  let r := clk_prepare_enable s
  if r.1 ≠ 0 then (r.1, r.2) else
  let r1 := regulator_bulk_enable r.2
  if r1.1 ≠ 0 then (r1.1, clk_disable_unprepare r1.2) else
  let s2 := (ap1302_power_on r1.2).2
  let r3 := ap1302_init_slave_id s2
  if r3.1 ≠ 0 then
    (r3.1, clk_disable_unprepare (regulator_bulk_disable (ap1302_power_off r3.2)))
  else (0, r3.2)

/-- The C function `ap1302_set_power_off`. -/
def ap1302_set_power_off (s : ap1302_dev) : ap1302_dev :=
  let s1 := ap1302_power_off s
  let s2 := regulator_bulk_disable s1
  let s3 := clk_disable_unprepare s2
  { s3 with streaming := false }

/-! ## Chip detection and MIPI timing -/

/-- The C function `ap1302_detect_chip`. -/
def ap1302_detect_chip (s : ap1302_dev) : Int × ap1302_dev :=
  let r := ap1302_read s AP1302_CHIP_VERSION
  if r.1 ≠ 0 then (r.1, r.2.2) else
  let r1 := ap1302_read r.2.2 AP1302_CHIP_REV
  if r1.1 ≠ 0 then (r1.1, r1.2.2) else
  if r.2.1 ≠ AP1302_CHIP_ID then (-EINVAL, r1.2.2) else
  (0, r1.2.2)

/-- The value `ap1302_set_mipi_t3_clk` writes back for a value `mipi_t3` read
from `AP1302_ADV_HINF_MIPI_T3` (the arithmetic between the read and the
write, on `unsigned int`). -/
def mipi_t3_update (mipi_t3 : Nat) : Nat :=
  let t_clk_post := u32 (((mipi_t3 &&& AP1302_TCLK_POST_MASK) >>> AP1302_TCLK_POST_SHIFT) + 0x5)
  let t_clk_pre := u32 (((mipi_t3 &&& AP1302_TCLK_PRE_MASK) >>> AP1302_TCLK_PRE_SHIFT) + 0x1)
  let m := (mipi_t3 &&& not32 AP1302_TCLK_POST_MASK) &&& not32 AP1302_TCLK_PRE_MASK
  (m ||| u32 (t_clk_pre <<< AP1302_TCLK_PRE_SHIFT)) ||| t_clk_post

/-- The C function `ap1302_set_mipi_t3_clk`. -/
def ap1302_set_mipi_t3_clk (s : ap1302_dev) : Int × ap1302_dev :=
  let r := ap1302_read s AP1302_ADV_HINF_MIPI_T3
  if r.1 ≠ 0 then (r.1, r.2.2) else
  let w := ap1302_write r.2.2 AP1302_ADV_HINF_MIPI_T3 (mipi_t3_update r.2.1) none
  (w.1, w.2.2)

/-! ## Boot and firmware handling -/

/-- Kernel `request_firmware`: hands out the blob of the firmware store, or
fails with a non-zero code and no blob. -/
def request_firmware (s : ap1302_dev) : Int × ap1302_dev :=
  (s.request_firmware_ret,
   { s with fw := (if s.request_firmware_ret = 0 then s.firmware_blob else []),
            log := s.log ++ [Event.request_firmware] })

/-- Kernel `release_firmware`. -/
def release_firmware (s : ap1302_dev) : ap1302_dev :=
  { s with fw := [], log := s.log ++ [Event.release_firmware] }

/-- The field `pll_init_size` of the header at the start of a blob: a `u16`
in the byte order of the CPU, taken little-endian here. -/
def fw_hdr_pll_init_size (data : List Nat) : Nat :=
  data.getD 0 0 % 256 + 256 * (data.getD 1 0 % 256)

/-- The statement `fw_size = sensor->fw->size - sizeof(struct
ap1302_firmware_header)` with `fw_size` an `unsigned int`: the subtraction is
unsigned, so for a blob shorter than the header it wraps around `2 ^ 32`. -/
def fw_body_size (size : Nat) : Nat :=
  if FW_HEADER_SIZE ≤ size then u32 (size - FW_HEADER_SIZE)
  else u32 (size + 2 ^ 32 - FW_HEADER_SIZE)

/-- The sanity check at the end of `ap1302_request_firmware`, on a blob of
`size` bytes whose header field `pll_init_size` holds `pll_init_size`. -/
def ap1302_firmware_check (size pll_init_size : Nat) : Int :=
  let fw_size := fw_body_size size
  if pll_init_size > fw_size then -EINVAL else 0

/-- The C function `ap1302_request_firmware`. The firmware name built by
`snprintf` has 27 characters, so the name-length check never fires. -/
def ap1302_request_firmware (s : ap1302_dev) : Int × ap1302_dev :=
  let name_len : Nat := 27
  if name_len ≥ 64 then (-EINVAL, s) else
  let r := request_firmware s
  if r.1 ≠ 0 then (r.1, r.2) else
  (ap1302_firmware_check r.2.fw.length (fw_hdr_pll_init_size r.2.fw), r.2)

/-- The first `for` loop of `ap1302_write_fw_block`, with `n` iterations
left. The result is the early return value (`none` when the loop ran to its
end), then `buf`, `wr_pos` and the session. -/
def ap1302_write_fw_block_loop :
    Nat → ap1302_dev → List Nat → Nat → Option Int × List Nat × Nat × ap1302_dev
  | 0, s, buf, wr_pos => (none, buf, wr_pos, s)
  | n + 1, s, buf, wr_pos =>
    let write_addr := u32 (wr_pos % AP1302_FW_WINDOW_SIZE + AP1302_FW_WINDOW_OFFSET)
    let r := regmap_raw_write s Chan.regmap16 write_addr buf AP1302_FW_BLOCK_LEN
    if r.1 ≠ 0 then (some r.1, buf, wr_pos, r.2) else
    ap1302_write_fw_block_loop n r.2 (buf.drop AP1302_FW_BLOCK_LEN)
      (u32 (wr_pos + AP1302_FW_BLOCK_LEN))

/-- The C function `ap1302_write_fw_block`; `buf` is the data from the
pointer on. The result is the return value, `*win_pos` afterwards and the
session. -/
def ap1302_write_fw_block (s : ap1302_dev) (buf : List Nat) (len win_pos : Nat) :
    Int × Nat × ap1302_dev :=
  let block_num := len / AP1302_FW_BLOCK_LEN
  let last_block_size := len % AP1302_FW_BLOCK_LEN
  match ap1302_write_fw_block_loop block_num s buf win_pos with
  | (some ret, _, _, s1) => (ret, win_pos, s1)
  | (none, buf1, wr_pos, s1) =>
    let write_addr := u32 (wr_pos % AP1302_FW_WINDOW_SIZE + AP1302_FW_WINDOW_OFFSET)
    if last_block_size > 0 then
      let r := regmap_raw_write s1 Chan.regmap16 write_addr buf1 last_block_size
      if r.1 ≠ 0 then (r.1, win_pos, r.2) else
      (0, u32 (wr_pos + last_block_size), r.2)
    else (0, wr_pos, s1)

/-- The `for` loop of `ap1302_write_fw_window`, with `n` iterations left and
`ret` the current value of the local `ret`. The result is whether the loop
returned early, then `ret`, `buf`, `*win_pos` and the session. -/
def ap1302_write_fw_window_loop :
    Nat → ap1302_dev → List Nat → Nat → Int → Bool × Int × List Nat × Nat × ap1302_dev
  | 0, s, buf, win_pos, ret => (false, ret, buf, win_pos, s)
  | n + 1, s, buf, win_pos, _ =>
    let r := ap1302_write_fw_block s buf AP1302_FW_WINDOW_SIZE win_pos
    if r.1 ≠ 0 then (true, r.1, buf, r.2.1, r.2.2) else
    ap1302_write_fw_window_loop n r.2.2 (buf.drop AP1302_FW_WINDOW_SIZE) r.2.1 r.1

/-- The C function `ap1302_write_fw_window`. Its local `ret` is not
initialised, so it starts at the indeterminate value `uninit_ret`. -/
def ap1302_write_fw_window (s : ap1302_dev) (buf : List Nat) (len win_pos : Nat) :
    Int × Nat × ap1302_dev :=
  let block_num := len / AP1302_FW_WINDOW_SIZE
  let last_block_size := len % AP1302_FW_WINDOW_SIZE
  match ap1302_write_fw_window_loop block_num s buf win_pos s.uninit_ret with
  | (true, ret, _, win_pos1, s1) => (ret, win_pos1, s1)
  | (false, ret, buf1, win_pos1, s1) =>
    if last_block_size > 0 then
      ap1302_write_fw_block s1 buf1 last_block_size win_pos1
    else (ret, win_pos1, s1)

/-- The C function `ap1302_load_firmware` (the sleep is not modelled). -/
def ap1302_load_firmware (s : ap1302_dev) : Int × ap1302_dev :=
  let fw_data := s.fw.drop FW_HEADER_SIZE
  let fw_size := fw_body_size s.fw.length
  let r := ap1302_write_fw_window s fw_data fw_size 0
  if r.1 ≠ 0 then (r.1, r.2.2) else
  let w := ap1302_write r.2.2 AP1302_BOOTDATA_STAGE 0xffff none
  let c := ap1302_read w.2.2 AP1302_SIP_CHECKSUM
  let ret := Int.lor w.1 c.1
  if ret ≠ 0 then (ret, c.2.2) else
  if c.2.1 ≠ 0xffff then (-EAGAIN, c.2.2) else
  ap1302_set_mipi_t3_clk c.2.2

/-- How the retry loop of `ap1302_hw_init` was left. -/
structure hw_init_loop_exit where
  /-- Whether the loop was left by `goto error_power`. -/
  error_power : Bool
  /-- The counter `retries` when the loop was left. -/
  retries : Nat
  /-- The local `ret` when the loop was left. -/
  ret : Int
  /-- The session when the loop was left. -/
  dev : ap1302_dev

/-- The retry loop of `ap1302_hw_init`; `fuel` is `MAX_FW_LOAD_RETRIES -
retries`, so that `fuel = 0` is the loop condition turning false. -/
def ap1302_hw_init_loop : Nat → Nat → Int → ap1302_dev → hw_init_loop_exit
  | 0, retries, ret, s => ⟨false, retries, ret, s⟩
  | fuel + 1, retries, _, s =>
    let p := ap1302_power_on s
    if p.1 < 0 then ⟨true, retries, p.1, p.2⟩ else
    let d := ap1302_detect_chip p.2
    if d.1 ≠ 0 then ⟨true, retries, d.1, d.2⟩ else
    let l := ap1302_load_firmware d.2
    if l.1 = 0 then ⟨false, retries, l.1, l.2⟩ else
    if l.1 ≠ -EAGAIN then ⟨true, retries, l.1, l.2⟩ else
    ap1302_hw_init_loop fuel (retries + 1) l.1 (ap1302_power_off l.2)

/-- The C function `ap1302_hw_init`. -/
def ap1302_hw_init (s : ap1302_dev) : Int × ap1302_dev :=
  let r := ap1302_request_firmware s
  if r.1 ≠ 0 then (r.1, r.2) else
  let p := ap1302_set_power_on r.2
  if p.1 < 0 then (p.1, release_firmware p.2) else
  let l := ap1302_hw_init_loop MAX_FW_LOAD_RETRIES 0 p.1 p.2
  if l.error_power then (l.ret, release_firmware (ap1302_set_power_off l.dev)) else
  if l.retries = MAX_FW_LOAD_RETRIES then
    (-ETIMEDOUT, release_firmware (ap1302_set_power_off l.dev))
  else (0, l.dev)

/-! ## Sequences of register accesses -/

/-- One call of the register access layer: `ap1302_read(reg)` or
`ap1302_write(reg, val, err)`, the latter with a NULL accumulator
(`acc = false`) or a fresh accumulator holding 0 (`acc = true`). -/
inductive Access where
  | read (reg : Nat)
  | write (reg val : Nat) (acc : Bool)
  deriving DecidableEq, Repr

/-- The register reference of an access. -/
def Access.reg : Access → Nat
  | Access.read reg => reg
  | Access.write reg _ _ => reg

/-- The session after one access. -/
def ap1302_access (s : ap1302_dev) : Access → ap1302_dev
  | Access.read reg => (ap1302_read s reg).2.2
  | Access.write reg val acc => (ap1302_write s reg val (if acc then some 0 else none)).2.2

/-- The session after a sequence of accesses, performed in order. -/
def ap1302_run (s : ap1302_dev) (l : List Access) : ap1302_dev :=
  l.foldl ap1302_access s

/-- The page-select transaction: a 32-bit write of the page to
`AP1302_ADVANCED_BASE`, bus address `0xf038`. -/
def page_select (page : Nat) : Event := Event.regmap_write Chan.regmap32 0xf038 page

/-- Specification of the bus address of the data transaction of a reference:
the offset for an unpaged reference, the offset relocated by
`AP1302_REG_ADV_START` within the 16-bit address space for a paged one. -/
def spec_data_addr (reg : Nat) : Nat :=
  if AP1302_REG_PAGE reg = 0 then AP1302_REG_ADDR reg
  else (AP1302_REG_ADV_START + AP1302_REG_ADDR reg) % 0x10000

/-- Specification of the data transaction of an access: one transaction on
the register map chosen by the encoded width, none for an invalid width. -/
def spec_data : Access → List Event
  | Access.read reg =>
    if AP1302_REG_SIZE reg = 2 then [Event.regmap_read Chan.regmap16 (spec_data_addr reg)]
    else if AP1302_REG_SIZE reg = 4 then [Event.regmap_read Chan.regmap32 (spec_data_addr reg)]
    else []
  | Access.write reg val _ =>
    if AP1302_REG_SIZE reg = 2 then [Event.regmap_write Chan.regmap16 (spec_data_addr reg) val]
    else if AP1302_REG_SIZE reg = 4 then
      [Event.regmap_write Chan.regmap32 (spec_data_addr reg) val]
    else []

/-- Specification of the page-select write of an access made while the
active page is `reg_page`: issued exactly when the page of the reference is
nonzero and differs from `reg_page`. -/
def spec_select (reg_page : Nat) (a : Access) : List Event :=
  if AP1302_REG_PAGE a.reg ≠ 0 ∧ AP1302_REG_PAGE a.reg ≠ reg_page then
    [page_select (AP1302_REG_PAGE a.reg)]
  else []

/-- Specification of the active page after an access on a bus that does not
fail: the page of a paged reference, unchanged by an unpaged one. -/
def spec_page (reg_page : Nat) (a : Access) : Nat :=
  if AP1302_REG_PAGE a.reg ≠ 0 then AP1302_REG_PAGE a.reg else reg_page

/-- Specification of the bus traffic of a sequence of accesses on a bus that
does not fail, starting with active page `reg_page`. -/
def spec_trace : Nat → List Access → List Event
  | _, [] => []
  | reg_page, a :: l =>
    spec_select reg_page a ++ spec_data a ++ spec_trace (spec_page reg_page a) l

/-- Specification of the active page after a sequence of accesses. -/
def spec_final_page : Nat → List Access → Nat
  | reg_page, [] => reg_page
  | reg_page, a :: l => spec_final_page (spec_page reg_page a) l

/-- A block of register writes chained on one error accumulator, as in
`ap1302_set_mode_direct`: every `ap1302_write` is passed the same cell,
which holds `err` at the start. The result is, per write, its return value
and the session after it, then the accumulator and the session at the end. -/
def ap1302_write_chain :
    ap1302_dev → List (Nat × Nat) → Int → List (Int × ap1302_dev) × Int × ap1302_dev
  | s, [], err => ([], err, s)
  | s, w :: l, err =>
    let r := ap1302_write s w.1 w.2 (some err)
    let rest := ap1302_write_chain r.2.2 l (r.2.1.getD err)
    ((r.1, r.2.2) :: rest.1, rest.2)

/-- Specification of the register map of a reference of valid width. -/
def spec_chan (reg : Nat) : Chan :=
  if AP1302_REG_SIZE reg = 2 then Chan.regmap16 else Chan.regmap32

/-! ## Specification of the firmware stream -/

/-- The bus traffic of `n` full blocks streamed from cursor `pos` out of
`buf`: block after block, each at `cursor mod window + base`. -/
def fw_blocks : Nat → Nat → List Nat → List Event
  | 0, _, _ => []
  | n + 1, pos, buf =>
    Event.regmap_raw_write Chan.regmap16
        (pos % AP1302_FW_WINDOW_SIZE + AP1302_FW_WINDOW_OFFSET)
        (buf.take AP1302_FW_BLOCK_LEN) AP1302_FW_BLOCK_LEN
      :: fw_blocks n (pos + AP1302_FW_BLOCK_LEN) (buf.drop AP1302_FW_BLOCK_LEN)

/-- The bus traffic of the short last block of `len` bytes streamed from
cursor `pos`: one write when a remainder is left, none otherwise. -/
def fw_tail (pos : Nat) (buf : List Nat) (len : Nat) : List Event :=
  if len % AP1302_FW_BLOCK_LEN > 0 then
    [Event.regmap_raw_write Chan.regmap16
      ((pos + len / AP1302_FW_BLOCK_LEN * AP1302_FW_BLOCK_LEN) % AP1302_FW_WINDOW_SIZE
        + AP1302_FW_WINDOW_OFFSET)
      ((buf.drop (len / AP1302_FW_BLOCK_LEN * AP1302_FW_BLOCK_LEN)).take
        (len % AP1302_FW_BLOCK_LEN))
      (len % AP1302_FW_BLOCK_LEN)]
  else []

/-- The bus traffic of `len` bytes streamed from cursor `pos` out of `buf`:
the full blocks, then the short last block. -/
def fw_stream (pos : Nat) (buf : List Nat) (len : Nat) : List Event :=
  fw_blocks (len / AP1302_FW_BLOCK_LEN) pos buf ++ fw_tail pos buf len

/-- The `(address, length)` pairs of the block writes of a log. -/
def raw_write_pairs (log : List Event) : List (Nat × Nat) :=
  log.filterMap (fun e =>
    match e with
    | Event.regmap_raw_write _ addr _ len => some (addr, len)
    | _ => none)

/-- Specification of the `(address, length)` pairs of a firmware body of `L`
bytes streamed from cursor 0, in the words of the claim: one block of
`B = AP1302_FW_BLOCK_LEN` bytes at `(k * B) mod W + base` for every
`k < L / B`, then the `L mod B` bytes that are left, when there are any. -/
def spec_fw_writes (L : Nat) : List (Nat × Nat) :=
  (List.range (L / AP1302_FW_BLOCK_LEN)).map (fun k =>
      ((k * AP1302_FW_BLOCK_LEN) % AP1302_FW_WINDOW_SIZE + AP1302_FW_WINDOW_OFFSET,
       AP1302_FW_BLOCK_LEN))
    ++ (if L % AP1302_FW_BLOCK_LEN ≠ 0 then
          [((L / AP1302_FW_BLOCK_LEN * AP1302_FW_BLOCK_LEN) % AP1302_FW_WINDOW_SIZE
              + AP1302_FW_WINDOW_OFFSET, L % AP1302_FW_BLOCK_LEN)]
        else [])

/-- The number of block writes one load attempt streams for the blob of the
session: those of the body, the blob without its header. -/
def fw_stream_count (s : ap1302_dev) : Nat :=
  (fw_stream 0 (s.fw.drop FW_HEADER_SIZE) (fw_body_size s.fw.length)).length

/-- The session after the streaming writes, the `BOOTDATA_STAGE` write and
the `SIP_CHECKSUM` read of a load attempt whose streaming writes succeed. -/
def fw_loaded_session (s : ap1302_dev) : ap1302_dev :=
  { s with seq := s.seq + fw_stream_count s + 1 + 1,
           log := s.log
             ++ fw_stream 0 (s.fw.drop FW_HEADER_SIZE) (fw_body_size s.fw.length)
             ++ [Event.regmap_write Chan.regmap16 0x6002 0xffff]
             ++ [Event.regmap_read Chan.regmap16 0x6134] }

/-! ## The attempts of the boot retry loop -/

/-- Whether a hardware action is a bus transaction. -/
def is_bus : Event → Bool
  | Event.regmap_write _ _ _ => true
  | Event.regmap_read _ _ => true
  | Event.regmap_raw_write _ _ _ _ => true
  | _ => false

/-- The actions of a log that are not bus transactions: GPIO, clock,
regulator and firmware-store actions, in order. -/
def power_log (log : List Event) : List Event := log.filter (fun e => !is_bus e)

/-- The GPIO actions of one `ap1302_power_on`, with or without the optional
`pwdn_gpio` line. -/
def power_on_events (pwdn : Bool) : List Event :=
  (if pwdn then [Event.gpiod_set_value Gpio.pwdn_gpio 1, Event.gpiod_set_value Gpio.pwdn_gpio 0]
   else []) ++ [Event.gpiod_set_value Gpio.reset_gpio 0]

/-- The GPIO actions of one `ap1302_power_off`. -/
def power_off_events (pwdn : Bool) : List Event :=
  Event.gpiod_set_value Gpio.reset_gpio 1 ::
    (if pwdn then [Event.gpiod_set_value Gpio.pwdn_gpio 1, Event.gpiod_set_value Gpio.pwdn_gpio 0]
     else [])

/-- The GPIO actions of `k` failed attempts: each one powers the device on
and, after the load, off again. -/
def power_cycles : Nat → Bool → List Event
  | 0, _ => []
  | k + 1, pwdn => power_on_events pwdn ++ power_off_events pwdn ++ power_cycles k pwdn

/-- The session of `ap1302_hw_init` when it enters the retry loop: after
`ap1302_request_firmware` and `ap1302_set_power_on`. -/
def hw_init_powered (s : ap1302_dev) : ap1302_dev :=
  (ap1302_set_power_on (ap1302_request_firmware s).2).2

/-- The session at the call of `ap1302_load_firmware` in a turn of the retry
loop that starts in `s`: after `ap1302_power_on` and `ap1302_detect_chip`. -/
def attempt_dev (s : ap1302_dev) : ap1302_dev :=
  (ap1302_detect_chip (ap1302_power_on s).2).2

/-- The session after a turn of the retry loop that ends in a retry: power
on, chip detection, load attempt, power off. -/
def retry_step (s : ap1302_dev) : ap1302_dev :=
  ap1302_power_off (ap1302_load_firmware (attempt_dev s)).2

/-- The session at the start of turn `i` of the retry loop (counted from 0),
when the loop is entered in `s` and every earlier turn ends in a retry. -/
def attempt_start : Nat → ap1302_dev → ap1302_dev
  | 0, s => s
  | i + 1, s => attempt_start i (retry_step s)

/-- Specification of the actions other than bus transactions of a boot that
succeeds at attempt `k + 1`: firmware request, clock and regulators on,
power on, then `k` failed attempts each followed by a power off, then the
power on of the attempt that succeeds. -/
def spec_boot_trace (k : Nat) (pwdn : Bool) : List Event :=
  [Event.request_firmware, Event.clk_prepare_enable, Event.regulator_bulk_enable]
    ++ power_on_events pwdn ++ power_cycles k pwdn ++ power_on_events pwdn

/-- A step that only adds bus transactions to the log and keeps the GPIO
configuration. -/
def bus_only (s t : ap1302_dev) : Prop :=
  power_log t.log = power_log s.log ∧ t.pwdn_gpio = s.pwdn_gpio

/-! ## Mode selection and frame-rate negotiation -/

/-- Kernel `U32_MAX`. -/
def U32_MAX : Nat := 2 ^ 32 - 1

/-- Kernel `INT_MAX`. -/
def INT_MAX : Nat := 2 ^ 31 - 1

/-- Conversion of a value to `u64`. -/
def u64 (n : Nat) : Nat := n % 2 ^ 64

/-- Register `AP1302_PREVIEW_WIDTH`. -/
def AP1302_PREVIEW_WIDTH : Nat := AP1302_REG_16BIT 0x2000
/-- Register `AP1302_PREVIEW_HEIGHT`. -/
def AP1302_PREVIEW_HEIGHT : Nat := AP1302_REG_16BIT 0x2002
/-- Register `AP1302_PREVIEW_OUT_FMT`. -/
def AP1302_PREVIEW_OUT_FMT : Nat := AP1302_REG_16BIT 0x2012
/-- Value `AP1302_PREVIEW_OUT_FMT_FT_YUV_JFIF`, `5U << 4`. -/
def AP1302_PREVIEW_OUT_FMT_FT_YUV_JFIF : Nat := 5 <<< 4
/-- Value `AP1302_PREVIEW_OUT_FMT_FST_YUV_422`, `0U << 0`. -/
def AP1302_PREVIEW_OUT_FMT_FST_YUV_422 : Nat := 0 <<< 0
/-- Register `AP1302_PREVIEW_HINF_CTRL`. -/
def AP1302_PREVIEW_HINF_CTRL : Nat := AP1302_REG_16BIT 0x2030
/-- Bit `AP1302_PREVIEW_HINF_CTRL_SPOOF`, `BIT(4)`. -/
def AP1302_PREVIEW_HINF_CTRL_SPOOF : Nat := 1 <<< 4
/-- Macro `AP1302_PREVIEW_HINF_CTRL_MIPI_LANES`. -/
def AP1302_PREVIEW_HINF_CTRL_MIPI_LANES (n : Nat) : Nat := u32 (n <<< 0)

/-- The C function `ap1302_check_valid_mode`: the `switch` on `mode->id`. -/
def ap1302_check_valid_mode (s : ap1302_dev) (mode : ap1302_mode_info) (rate : Nat) : Int :=
  if mode.id = AP1302_MODE_QCIF_176_144 ∨ mode.id = AP1302_MODE_QVGA_320_240 ∨
      mode.id = AP1302_MODE_NTSC_720_480 ∨ mode.id = AP1302_MODE_PAL_720_576 ∨
      mode.id = AP1302_MODE_XGA_1024_768 ∨ mode.id = AP1302_MODE_720P_1280_720 then
    if rate ≠ AP1302_15_FPS ∧ rate ≠ AP1302_30_FPS then -EINVAL else 0
  else if mode.id = AP1302_MODE_VGA_640_480 then
    if rate ≠ AP1302_15_FPS ∧ rate ≠ AP1302_30_FPS then -EINVAL else 0
  else if mode.id = AP1302_MODE_1080P_1920_1080 then
    if s.bus_type = V4L2_MBUS_CSI2_DPHY then
      if rate ≠ AP1302_15_FPS ∧ rate ≠ AP1302_30_FPS then -EINVAL else 0
    else
      if rate ≠ AP1302_15_FPS then -EINVAL else 0
  else if mode.id = AP1302_MODE_QSXGA_2592_1944 then
    if rate ≠ AP1302_08_FPS then -EINVAL else 0
  else if mode.id = AP1302_MODE_4K_3840_2160 then
    if rate ≠ AP1302_30_FPS then -EINVAL else 0
  else -EINVAL

/-- Kernel `abs` applied to a `u32` value: the value is taken as an `s32` and
its magnitude is returned (as a `u32`). -/
def abs_s32 (x : Nat) : Nat :=
  if x % 2 ^ 32 < 2 ^ 31 then x % 2 ^ 32 else 2 ^ 32 - x % 2 ^ 32

/-- The expression `abs(*entry_width - width) + abs(*entry_height - height)`
of the kernel's `v4l2_find_nearest_size`, stored in the `u32` local `error`.
The `s32` parameters `width` and `height` are given by their 32-bit
patterns; the subtractions are on `u32`. -/
def size_error (m : ap1302_mode_info) (width height : Nat) : Nat :=
  u32 (abs_s32 (u32 (m.hact + 2 ^ 32 - u32 width))
    + abs_s32 (u32 (m.vact + 2 ^ 32 - u32 height)))

/-- The loop of the kernel's `v4l2_find_nearest_size` over the entries that
remain, with the locals `min_error` and `best`: an entry whose error exceeds
`min_error` is skipped, any other entry becomes `best`, and an entry of
error 0 ends the loop. -/
def v4l2_find_nearest_size_loop :
    List ap1302_mode_info → Nat → Nat → Nat → Option ap1302_mode_info → Option ap1302_mode_info
  | [], _, _, _, best => best
  | m :: rest, width, height, min_error, best =>
    if size_error m width height > min_error then
      v4l2_find_nearest_size_loop rest width height min_error best
    else if size_error m width height = 0 then some m
    else v4l2_find_nearest_size_loop rest width height (size_error m width height) (some m)

/-- Kernel `v4l2_find_nearest_size` on an array of `struct ap1302_mode_info`
with the fields `hact` and `vact`; `none` is the NULL pointer. -/
def v4l2_find_nearest_size (array : List ap1302_mode_info) (width height : Nat) :
    Option ap1302_mode_info :=
  v4l2_find_nearest_size_loop array width height U32_MAX none

/-- The C function `ap1302_find_mode`.  The `int` parameters `width` and
`height` are given by their 32-bit patterns (every use converts them to
`u32`); the parameter `fr` is not used by the function. -/
def ap1302_find_mode (_s : ap1302_dev) (_fr : Nat) (width height : Nat) (nearest : Bool) :
    Option ap1302_mode_info :=
  match v4l2_find_nearest_size ap1302_mode_data width height with
  | none => none
  | some mode =>
    if nearest = false ∧ (mode.hact ≠ u32 width ∨ mode.vact ≠ u32 height) then none
    else some mode

/-- The element `ap1302_framerates[i]`; an index outside the table is not
used by the driver and yields 0 here. -/
def framerate (i : Nat) : Int := ap1302_framerates.getD i 0

/-- The C function `ap1302_calc_pixel_rate`: the product `vtot * htot` is
computed on `u32`, then widened to `u64` and multiplied by the frame rate. -/
def ap1302_calc_pixel_rate (s : ap1302_dev) : Nat :=
  let rate := u32 (s.current_mode.vtot * s.current_mode.htot)
  u64 (rate * (framerate s.current_fr % 2 ^ 64).toNat)

/-- Kernel `__v4l2_ctrl_s_ctrl_int64` on the control `pixel_rate`, created
with the range 0 to `INT_MAX` and step 1: the value, taken as an `s64`, is
clamped into the range and stored. -/
def __v4l2_ctrl_s_ctrl_int64 (s : ap1302_dev) (val : Nat) : ap1302_dev :=
  { s with pixel_rate := if val ≥ 2 ^ 63 then 0 else min val INT_MAX }

/-- Kernel macro `DIV_ROUND_CLOSEST` on two `u32` operands: the sum
`x + divisor / 2` is computed on `u32`. -/
def DIV_ROUND_CLOSEST (x divisor : Nat) : Nat := u32 (x + divisor / 2) / divisor

/-- Kernel macro `clamp_val`. -/
def clamp_val (val lo hi : Nat) : Nat := min (max val lo) hi

/-- The `for` loop of `ap1302_try_frame_interval` with `n` turns left, at
index `i`, with the locals `best_fps` and `rate`. -/
def ap1302_try_frame_interval_loop : Nat → Nat → Int → Int → Nat → Int × Nat
  | 0, _, _, best_fps, rate => (best_fps, rate)
  | n + 1, i, fps, best_fps, rate =>
    if (framerate i - fps).natAbs < (best_fps - fps).natAbs then
      ap1302_try_frame_interval_loop n (i + 1) fps (framerate i) i
    else ap1302_try_frame_interval_loop n (i + 1) fps best_fps rate

/-- The C function `ap1302_try_frame_interval`; the result is the return
value and the interval `*fi` afterwards. -/
def ap1302_try_frame_interval (s : ap1302_dev) (fi : v4l2_fract) (width height : Nat) :
    Int × v4l2_fract :=
  let minfps := framerate AP1302_08_FPS
  let maxfps := framerate AP1302_60_FPS
  if fi.numerator = 0 then
    let fi1 : v4l2_fract := ⟨1, maxfps.toNat⟩
    ((if (ap1302_find_mode s AP1302_60_FPS width height false).isSome then (AP1302_60_FPS : Int)
      else -EINVAL), fi1)
  else
    let fps : Int := clamp_val (DIV_ROUND_CLOSEST fi.denominator fi.numerator) minfps.toNat
      maxfps.toNat
    let r := ap1302_try_frame_interval_loop ap1302_framerates.length 0 fps minfps AP1302_08_FPS
    let fi1 : v4l2_fract := ⟨1, r.1.toNat⟩
    ((if (ap1302_find_mode s r.2 width height false).isSome then (r.2 : Int) else -EINVAL), fi1)

/-- The index the loop over `ap1302_formats` in `ap1302_try_fmt_internal`
ends with: that of the first entry with the code, or 0 when there is none. -/
def ap1302_formats_index (code : Nat) : Nat :=
  let i := ap1302_formats.findIdx (fun f => f.code == code)
  if i ≥ ap1302_formats.length then 0 else i

/-- The C function `ap1302_try_fmt_internal`, called with a non-NULL
`new_mode`.  The result is `none` for the return value `-EINVAL` (nothing is
written then), and otherwise the format and `*new_mode` afterwards, with the
return value 0. -/
def ap1302_try_fmt_internal (s : ap1302_dev) (fmt : v4l2_mbus_framefmt) (fr : Nat) :
    Option (v4l2_mbus_framefmt × ap1302_mode_info) :=
  match ap1302_find_mode s fr fmt.width fmt.height true with
  | none => none
  | some mode =>
    let f := ap1302_formats.getD (ap1302_formats_index fmt.code) ⟨0, 0⟩
    some ({ fmt with width := mode.hact, height := mode.vact,
                     reserved := List.replicate fmt.reserved.length 0,
                     code := f.code, colorspace := f.colorspace,
                     ycbcr_enc := V4L2_MAP_YCBCR_ENC_DEFAULT f.colorspace,
                     quantization := V4L2_QUANTIZATION_FULL_RANGE,
                     xfer_func := V4L2_MAP_XFER_FUNC_DEFAULT f.colorspace }, mode)

/-- The C function `ap1302_set_fmt`.  `try_fmt` is the try format of pad 0 in
the state `sd_state` of the caller.  The result is the return value, the
session, the try format and `*format` afterwards. -/
def ap1302_set_fmt (s : ap1302_dev) (try_fmt : v4l2_mbus_framefmt) (format : v4l2_subdev_format) :
    Int × ap1302_dev × v4l2_mbus_framefmt × v4l2_subdev_format :=
  if format.pad ≠ 0 then (-EINVAL, s, try_fmt, format) else
  if s.streaming then (-EBUSY, s, try_fmt, format) else
  match ap1302_try_fmt_internal s format.format s.current_fr with
  | none => (-EINVAL, s, try_fmt, format)
  | some (mbus_fmt, new_mode) =>
    let try_fmt1 := if format.which = V4L2_SUBDEV_FORMAT_TRY then mbus_fmt else try_fmt
    let s1 := if format.which = V4L2_SUBDEV_FORMAT_TRY then s else { s with fmt := mbus_fmt }
    let s2 := if new_mode ≠ s1.current_mode then
      { s1 with current_mode := new_mode, pending_mode_change := true } else s1
    let s3 := if mbus_fmt.code ≠ s2.fmt.code then { s2 with pending_fmt_change := true } else s2
    let s4 := __v4l2_ctrl_s_ctrl_int64 s3 (ap1302_calc_pixel_rate s3)
    let s5 := if s4.pending_mode_change ∨ s4.pending_fmt_change then { s4 with fmt := mbus_fmt }
      else s4
    (0, s5, try_fmt1, { format with format := mbus_fmt })

/-- The C function `ap1302_s_frame_interval`; the result is the return value,
the session and `*fi` afterwards. -/
def ap1302_s_frame_interval (s : ap1302_dev) (fi : v4l2_subdev_frame_interval) :
    Int × ap1302_dev × v4l2_subdev_frame_interval :=
  if fi.pad ≠ 0 then (-EINVAL, s, fi) else
  if s.streaming then (-EBUSY, s, fi) else
  let mode := s.current_mode
  let t := ap1302_try_frame_interval s fi.interval mode.hact mode.vact
  if t.1 < 0 then (0, s, { fi with interval := s.frame_interval }) else
  match ap1302_find_mode s t.1.toNat mode.hact mode.vact true with
  | none => (-EINVAL, s, { fi with interval := t.2 })
  | some mode1 =>
    if mode1 ≠ s.current_mode ∨ t.1.toNat ≠ s.current_fr then
      let s1 := { s with current_fr := t.1.toNat, frame_interval := t.2, current_mode := mode1,
                         pending_mode_change := true }
      (0, __v4l2_ctrl_s_ctrl_int64 s1 (ap1302_calc_pixel_rate s1), { fi with interval := t.2 })
    else (0, s, { fi with interval := t.2 })

/-! ## Streaming -/

/-- The C function `ap1302_set_mode_direct`: three writes that share the
accumulator `ret`, which starts at 0 and is returned. -/
def ap1302_set_mode_direct (s : ap1302_dev) (mode : ap1302_mode_info) : Int × ap1302_dev :=
  if mode.reg_data.isNone then (-EINVAL, s) else
  let w1 := ap1302_write s AP1302_PREVIEW_HINF_CTRL
    (AP1302_PREVIEW_HINF_CTRL_SPOOF ||| AP1302_PREVIEW_HINF_CTRL_MIPI_LANES s.num_data_lanes)
    (some 0)
  let w2 := ap1302_write w1.2.2 AP1302_PREVIEW_WIDTH mode.hact w1.2.1
  let w3 := ap1302_write w2.2.2 AP1302_PREVIEW_HEIGHT mode.vact w2.2.1
  (w3.2.1.getD 0, w3.2.2)

/-- The C function `ap1302_set_mode`: both branches call
`ap1302_set_mode_direct`, whose return value is stored in `ret` and not used;
the function returns 0. -/
def ap1302_set_mode (s : ap1302_dev) : Int × ap1302_dev :=
  let mode := s.current_mode
  let orig_mode := s.last_mode
  let r :=
    if (mode.dn_mode = SUBSAMPLING ∧ orig_mode.dn_mode = SCALING) ∨
        (mode.dn_mode = SCALING ∧ orig_mode.dn_mode = SUBSAMPLING) then
      ap1302_set_mode_direct s mode
    else ap1302_set_mode_direct s mode
  (0, { r.2 with pending_mode_change := false, last_mode := mode })

/-- The C function `ap1302_set_framefmt`. -/
def ap1302_set_framefmt (s : ap1302_dev) (format : v4l2_mbus_framefmt) : Int × ap1302_dev :=
  if format.code = MEDIA_BUS_FMT_UYVY8_2X8 ∨ format.code = MEDIA_BUS_FMT_UYVY8_1X16 ∨
      format.code = MEDIA_BUS_FMT_YUYV8_2X8 ∨ format.code = MEDIA_BUS_FMT_YUYV8_1X16 then
    let w := ap1302_write s AP1302_PREVIEW_OUT_FMT
      (AP1302_PREVIEW_OUT_FMT_FT_YUV_JFIF ||| AP1302_PREVIEW_OUT_FMT_FST_YUV_422) (some 0)
    (w.2.1.getD 0, w.2.2)
  else (-EINVAL, s)

/-- The C function `ap1302_set_stream_dvp`. -/
def ap1302_set_stream_dvp (s : ap1302_dev) (_on : Bool) : Int × ap1302_dev := (-EINVAL, s)

/-- The C function `ap1302_set_stream_mipi`. -/
def ap1302_set_stream_mipi (s : ap1302_dev) (_on : Bool) : Int × ap1302_dev := (0, s)

/-- The C function `ap1302_s_stream`.  The assignment to `streaming` is
recorded in `stream_flag_writes`, a field of the model that the driver does
not have, together with the log at that point. -/
def ap1302_s_stream (s : ap1302_dev) (enable : Int) : Int × ap1302_dev :=
  if s.streaming = decide (enable = 0) then
    let ret := ap1302_check_valid_mode s s.current_mode s.current_fr
    if ret ≠ 0 then (ret, s) else
    let m := if enable ≠ 0 ∧ s.pending_mode_change then ap1302_set_mode s else (0, s)
    if m.1 ≠ 0 then (m.1, m.2) else
    let f := if enable ≠ 0 ∧ m.2.pending_fmt_change then ap1302_set_framefmt m.2 m.2.fmt
      else (0, m.2)
    if f.1 ≠ 0 then (f.1, f.2) else
    let s3 := if enable ≠ 0 ∧ m.2.pending_fmt_change then { f.2 with pending_fmt_change := false }
      else f.2
    let r := if s3.bus_type = V4L2_MBUS_CSI2_DPHY then ap1302_set_stream_mipi s3 (decide (enable ≠ 0))
      else ap1302_set_stream_dvp s3 (decide (enable ≠ 0))
    if r.1 = 0 then
      (r.1, { r.2 with streaming := decide (enable ≠ 0),
                       stream_flag_writes :=
                         r.2.stream_flag_writes ++ [(r.2.log, decide (enable ≠ 0))] })
    else (r.1, r.2)
  else (0, s)

/-! ## Specifications of the mode negotiation -/

/-- Specification: the Manhattan distance `|hact - width| + |vact - height|`
between a catalog entry and a requested size. -/
def spec_distance (m : ap1302_mode_info) (width height : Nat) : Nat :=
  ((m.hact : Int) - width).natAbs + ((m.vact : Int) - height).natAbs

/-- The value of a 32-bit pattern read as an `s32`, the type `int` of the
arguments `width` and `height` of `ap1302_find_mode`. -/
def s32 (x : Nat) : Int :=
  if x % 2 ^ 32 < 2 ^ 31 then (x % 2 ^ 32 : Nat) else ((x % 2 ^ 32 : Nat) : Int) - 2 ^ 32

/-- Specification: the Manhattan distance `|hact - width| + |vact - height|`
between a catalog entry and a requested size of `int` values, which may be
negative. -/
def spec_distance_int (m : ap1302_mode_info) (width height : Int) : Nat :=
  ((m.hact : Int) - width).natAbs + ((m.vact : Int) - height).natAbs

/-- The class `ap1302_try_frame_interval` selects for a rounded and clamped
rate `fps`: the first class of the table at the least distance from it. -/
def fps_class (fps : Nat) : Nat :=
  if fps ≤ 11 then AP1302_08_FPS else if fps ≤ 22 then AP1302_15_FPS
  else if fps ≤ 45 then AP1302_30_FPS else AP1302_60_FPS

/-- Specification: the distance between the rate `fps` and the requested
rate `denominator / numerator` of an interval, scaled by the numerator:
`|fps * numerator - denominator|`. -/
def spec_rate_error (fi : v4l2_fract) (fps : Int) : Nat :=
  (fps * fi.numerator - fi.denominator).natAbs

/-- Specification of the actions other than bus transactions of a boot that
is given up: firmware request, clock and regulators on, power on, then `k`
failed attempts each followed by a power off, then, when `powered` is set, the
power on of an attempt that fails with a fatal error, and last the actions of
`ap1302_set_power_off` and the release of the firmware. -/
def spec_abort_trace (k : Nat) (pwdn : Bool) (powered : Bool) : List Event :=
  [Event.request_firmware, Event.clk_prepare_enable, Event.regulator_bulk_enable]
    ++ power_on_events pwdn ++ power_cycles k pwdn
    ++ (if powered then power_on_events pwdn else [])
    ++ power_off_events pwdn
    ++ [Event.regulator_bulk_disable, Event.clk_disable_unprepare, Event.release_firmware]

/-! ## Power management requests -/

/-- The `for` loop of `ap1302_load_regs` over the table entries that remain,
with the local `ret` (the sleeps are not modelled). -/
def ap1302_load_regs_loop : List reg_value → ap1302_dev → Int → Int × ap1302_dev
  | [], s, ret => (ret, s)
  | r :: rest, s, _ =>
    let w := ap1302_write s r.reg_addr r.val none
    if w.1 ≠ 0 then (w.1, w.2.2) else ap1302_load_regs_loop rest w.2.2 w.1

/-- The C function `ap1302_load_regs`: the first `reg_data_size` entries of
the register table of the mode. -/
def ap1302_load_regs (s : ap1302_dev) (mode : ap1302_mode_info) : Int × ap1302_dev :=
  ap1302_load_regs_loop ((mode.reg_data.getD []).take mode.reg_data_size) s 0

/-- The C function `ap1302_restore_mode`. -/
def ap1302_restore_mode (s : ap1302_dev) : Int × ap1302_dev :=
  let r := ap1302_load_regs s ap1302_mode_init_data
  if r.1 < 0 then (r.1, r.2) else
  let m := ap1302_set_mode { r.2 with last_mode := ap1302_mode_init_data }
  if m.1 < 0 then (m.1, m.2) else
  ap1302_set_framefmt m.2 m.2.fmt

/-- The C function `ap1302_set_powerdown_exit`. -/
def ap1302_set_powerdown_exit (s : ap1302_dev) : Int × ap1302_dev := (0, s)

/-- The C function `ap1302_set_powerdown_enter`. -/
def ap1302_set_powerdown_enter (s : ap1302_dev) : Int × ap1302_dev :=
  (0, { s with streaming := false })

/-- The C function `ap1302_set_power` (the sleep is not modelled).  Every
call is recorded in `set_power_calls`, a field of the model that the driver
does not have. -/
def ap1302_set_power (s : ap1302_dev) (powered : Bool) : Int × ap1302_dev :=
  let s0 := { s with set_power_calls := s.set_power_calls ++ [powered] }
  if powered then
    let e := ap1302_set_powerdown_exit s0
    if e.1 ≠ 0 then (e.1, e.2) else
    let r := ap1302_restore_mode e.2
    if r.1 ≠ 0 then (r.1, (ap1302_set_powerdown_enter r.2).2) else
    if r.2.bus_type ≠ V4L2_MBUS_CSI2_DPHY then (0, r.2) else (0, r.2)
  else (0, (ap1302_set_powerdown_enter s0).2)

/-- Kernel `v4l2_ctrl_handler_setup` on the controls of the driver: every
handler `ap1302_set_ctrl_*` returns 0 without touching the device, so the
session is unchanged; the return code is that of the control framework. -/
def v4l2_ctrl_handler_setup (s : ap1302_dev) : Int × ap1302_dev :=
  (s.ctrl_handler_setup_ret, s)

/-- The C function `ap1302_s_power`.  The counter `power_count` is an `int`;
its overflow is not modelled. -/
def ap1302_s_power (s : ap1302_dev) (powered : Int) : Int × ap1302_dev :=
  let r := if s.power_count = (if powered = 0 then 1 else 0) then
      ap1302_set_power s (decide (powered ≠ 0))
    else (0, s)
  if r.1 ≠ 0 then (r.1, r.2) else
  let s1 : ap1302_dev :=
    { r.2 with power_count := r.2.power_count + (if powered ≠ 0 then 1 else -1) }
  if powered ≠ 0 ∧ s1.power_count = 1 then v4l2_ctrl_handler_setup s1 else (0, s1)

/-- A run of `ap1302_s_power` requests, one after the other; the return
values are dropped. -/
def s_power_run : ap1302_dev → List Int → ap1302_dev
  | s, [] => s
  | s, powered :: rest => s_power_run (ap1302_s_power s powered).2 rest

/-- Whether no call of `ap1302_set_power` made during a run of
`ap1302_s_power` requests fails. -/
def set_power_never_fails : ap1302_dev → List Int → Bool
  | _, [] => true
  | s, powered :: rest =>
    (if s.power_count = (if powered = 0 then 1 else 0) then
        decide ((ap1302_set_power s (decide (powered ≠ 0))).1 = 0)
      else true)
    && set_power_never_fails (ap1302_s_power s powered).2 rest

/-- Specification: the number of on requests minus the number of off
requests of a sequence. -/
def spec_power_count (reqs : List Int) : Int :=
  ((reqs.filter (fun r => r ≠ 0)).length : Int) - ((reqs.filter (fun r => r = 0)).length : Int)

/-- Specification of the calls of `ap1302_set_power` of a sequence of
requests, `count` being the number of holders before it: a call with `true`
for each on request that takes the count from 0 to 1 and a call with `false`
for each off request that takes it from 1 to 0, in order. -/
def spec_power_calls : Int → List Int → List Bool
  | _, [] => []
  | count, powered :: rest =>
    (if powered ≠ 0 ∧ count = 0 then [true]
     else if powered = 0 ∧ count = 1 then [false] else [])
    ++ spec_power_calls (count + (if powered ≠ 0 then 1 else -1)) rest

/-! ## Enumeration of frame intervals -/

/-- Kernel `struct v4l2_subdev_frame_interval_enum`. -/
structure v4l2_subdev_frame_interval_enum where
  index : Nat := 0
  pad : Nat := 0
  code : Nat := 0
  width : Nat := 0
  height : Nat := 0
  interval : v4l2_fract := ⟨0, 0⟩
  which : Nat := 0
  deriving DecidableEq, Repr

/-- The inner `for` loop of `ap1302_enum_frame_interval` over the catalog
entries that remain, at the class `i`, with the local `count`.  The result
is whether the function returned from inside the loop, and `count`.  The
comparison `fie->index == (count - 1)` is unsigned: `count - 1` is converted
to `u32`. -/
def ap1302_enum_frame_interval_modes :
    List ap1302_mode_info → ap1302_dev → Nat → Nat → Nat → Nat → Int → Bool × Int
  | [], _, _, _, _, _, count => (false, count)
  | m :: rest, s, width, height, index, i, count =>
    let count1 :=
      if width = m.hact ∧ height = m.vact ∧ ap1302_check_valid_mode s m i = 0 then count + 1
      else count
    if (index : Int) = (count1 - 1) % 2 ^ 32 then (true, count1)
    else ap1302_enum_frame_interval_modes rest s width height index i count1

/-- The outer `for` loop of `ap1302_enum_frame_interval` with `n` classes
left, at the class `i`, with the local `count`.  The result is the class at
which the function returned 0, or `none` when the loop ran to its end. -/
def ap1302_enum_frame_interval_rates :
    Nat → Nat → ap1302_dev → Nat → Nat → Nat → Int → Option Nat
  | 0, _, _, _, _, _, _ => none
  | n + 1, i, s, width, height, index, count =>
    match ap1302_enum_frame_interval_modes ap1302_mode_data s width height index i count with
    | (true, _) => some i
    | (false, count1) =>
      ap1302_enum_frame_interval_rates n (i + 1) s width height index count1

/-- The C function `ap1302_enum_frame_interval`; the result is the return
value and `*fie` afterwards. -/
def ap1302_enum_frame_interval (s : ap1302_dev) (fie : v4l2_subdev_frame_interval_enum) :
    Int × v4l2_subdev_frame_interval_enum :=
  if fie.pad ≠ 0 then (-EINVAL, fie) else
  if fie.index ≥ AP1302_NUM_FRAMERATES then (-EINVAL, fie) else
  if fie.width = 0 ∨ fie.height = 0 ∨ fie.code = 0 then (-EINVAL, fie) else
  let fie1 := { fie with interval := { fie.interval with numerator := 1 } }
  match ap1302_enum_frame_interval_rates AP1302_NUM_FRAMERATES 0 s fie.width fie.height
      fie.index 0 with
  | some i => (0, { fie1 with interval := ⟨1, (framerate i).toNat⟩ })
  | none => (-EINVAL, fie1)

/-- Specification: the classes `ap1302_check_valid_mode` accepts for a mode,
in increasing order. -/
def spec_legal_classes (s : ap1302_dev) (m : ap1302_mode_info) : List Nat :=
  (List.range AP1302_NUM_FRAMERATES).filter (fun i => ap1302_check_valid_mode s m i = 0)

/-! ## Specifications of the firmware payload and of the timing fields -/

/-- The payload bytes of the block writes of a log, concatenated in the
order of issue. -/
def raw_write_payloads (log : List Event) : List Nat :=
  (log.filterMap (fun e =>
    match e with
    | Event.regmap_raw_write _ _ payload _ => some payload
    | _ => none)).flatten

/-- A step made of register reads and writes only: it may change the cached
page, the transaction count and the log, to which it adds no block write,
and nothing else. -/
def reg_step (s t : ap1302_dev) : Prop :=
  ∃ page seq ev, t = { s with reg_page := page, seq := seq, log := s.log ++ ev } ∧
    raw_write_payloads ev = []

/-- Specification: the field Tclk_post, bits 7:0, of a value of the register
`AP1302_ADV_HINF_MIPI_T3`. -/
def tclk_post_field (v : Nat) : Nat := v % 2 ^ 8

/-- Specification: the field Tclk_pre, bits 15:8, of a value of the register
`AP1302_ADV_HINF_MIPI_T3`. -/
def tclk_pre_field (v : Nat) : Nat := v / 2 ^ 8 % 2 ^ 8

/-- Specification: bits 31:16 of a value of the register
`AP1302_ADV_HINF_MIPI_T3`. -/
def mipi_t3_upper (v : Nat) : Nat := v / 2 ^ 16 % 2 ^ 16

/-! ## The requests of a session -/

/-- A request to one of the operations of the driver that write `streaming`,
`current_mode` or `current_fr` once `ap1302_probe` has returned, with the
arguments of the call. -/
inductive subdev_request where
  | s_power (powered : Int)
  | s_stream (enable : Int)
  | set_fmt (try_fmt : v4l2_mbus_framefmt) (format : v4l2_subdev_format)
  | s_frame_interval (fi : v4l2_subdev_frame_interval)

/-- The session after one request; the return value is dropped. -/
def subdev_request.run (s : ap1302_dev) : subdev_request → ap1302_dev
  | subdev_request.s_power powered => (ap1302_s_power s powered).2
  | subdev_request.s_stream enable => (ap1302_s_stream s enable).2
  | subdev_request.set_fmt try_fmt format => (ap1302_set_fmt s try_fmt format).2.1
  | subdev_request.s_frame_interval fi => (ap1302_s_frame_interval s fi).2.1

/-- The session after a sequence of requests, one after the other. -/
def subdev_run (s : ap1302_dev) (reqs : List subdev_request) : ap1302_dev :=
  reqs.foldl subdev_request.run s

/-- The pair `(current_mode, current_fr)` of a session that is streaming is
accepted by `ap1302_check_valid_mode`. -/
def stream_pair_valid (s : ap1302_dev) : Prop :=
  s.streaming = true → ap1302_check_valid_mode s s.current_mode s.current_fr = 0

/-! ## Facts about the register-reference macros -/

theorem and_clear_page (x : Nat) (h : x < 2 ^ 32) :
    x &&& 0xFF00FFFF = x / 2 ^ 24 * 2 ^ 24 + x % 2 ^ 16 := by
  apply Nat.eq_of_testBit_eq
  intro i
  have e : x / 2 ^ 24 * 2 ^ 24 + x % 2 ^ 16 = 2 ^ 24 * (x >>> 24) + x % 2 ^ 16 := by
    rw [Nat.shiftRight_eq_div_pow]; ring
  have hlt : x % 2 ^ 16 < 2 ^ 24 := lt_of_lt_of_le (Nat.mod_lt _ (by norm_num)) (by norm_num)
  have em : (0xFF00FFFF : Nat) = 2 ^ 24 * (2 ^ 8 - 1) + (2 ^ 16 - 1) := by norm_num
  rw [e, Nat.testBit_and, Nat.testBit_mul_pow_two_add _ hlt, Nat.testBit_mod_two_pow,
    Nat.testBit_shiftRight, em, Nat.testBit_mul_pow_two_add _ (by norm_num),
    Nat.testBit_two_pow_sub_one, Nat.testBit_two_pow_sub_one]
  by_cases h24 : i < 24
  · by_cases h16 : i < 16 <;> simp [h24, h16]
  · have h2 : 24 + (i - 24) = i := by omega
    by_cases h32 : i < 32
    · have : i - 24 < 8 := by omega
      simp [h24, h2, this]
    · have hx : x.testBit i = false :=
        Nat.testBit_lt_two_pow (lt_of_lt_of_le h (Nat.pow_le_pow_right (by norm_num) (by omega)))
      simp [h24, h2, hx]

theorem reg_size_eq_div (reg : Nat) : AP1302_REG_SIZE reg = reg / 2 ^ 24 := by
  unfold AP1302_REG_SIZE; exact Nat.shiftRight_eq_div_pow reg 24

theorem reg_addr_eq_mod (reg : Nat) : AP1302_REG_ADDR reg = reg % 2 ^ 16 := by
  unfold AP1302_REG_ADDR; exact Nat.and_pow_two_sub_one_eq_mod reg 16

theorem adv_reg_size (reg : Nat) (h : reg < 2 ^ 32) :
    AP1302_REG_SIZE (adv_reg reg) = AP1302_REG_SIZE reg := by
  have hm : not32 AP1302_REG_PAGE_MASK = 0xFF00FFFF := by decide
  rw [reg_size_eq_div, reg_size_eq_div, adv_reg, hm, and_clear_page reg h, u32,
    AP1302_REG_ADV_START]
  norm_num at h ⊢
  omega

theorem adv_reg_addr (reg : Nat) (h : reg < 2 ^ 32) :
    AP1302_REG_ADDR (adv_reg reg) = (AP1302_REG_ADDR reg + 0xe000) % 0x10000 := by
  have hm : not32 AP1302_REG_PAGE_MASK = 0xFF00FFFF := by decide
  rw [reg_addr_eq_mod, reg_addr_eq_mod, adv_reg, hm, and_clear_page reg h, u32,
    AP1302_REG_ADV_START]
  norm_num at h ⊢
  omega

theorem advanced_base_size : AP1302_REG_SIZE AP1302_ADVANCED_BASE = 4 := by decide

theorem advanced_base_addr : AP1302_REG_ADDR AP1302_ADVANCED_BASE = 0xf038 := by decide

theorem write_advanced_base (s : ap1302_dev) (page : Nat) :
    __ap1302_write s AP1302_ADVANCED_BASE page = regmap_write s Chan.regmap32 0xf038 page := by
  simp [__ap1302_write, advanced_base_size, advanced_base_addr]

theorem pending_clear (err : Option Int) (h : err = none ∨ err = some 0) :
    err_pending err = false := by
  rcases h with h | h <;> subst h <;> rfl

/-! ## C1: references of invalid width -/

/-- C1 (as stated, refuted): a reference of width 1 whose page `0x230000`
differs from `reg_page = 0` makes both `ap1302_read` and `ap1302_write` issue
a bus transaction, the page-select write, before the width is looked at; and
when that write fails with `-5` the calls return `-5`, not `-EINVAL`. -/
theorem C1_counterexample :
    AP1302_REG_SIZE 0x01230000 = 1 ∧ AP1302_REG_PAGE 0x01230000 = 0x230000 ∧
    (ap1302_read {} 0x01230000).1 = -EINVAL ∧
    (ap1302_read {} 0x01230000).2.2.log = [Event.regmap_write Chan.regmap32 0xf038 0x230000] ∧
    (ap1302_write {} 0x01230000 7 none).1 = -EINVAL ∧
    (ap1302_write {} 0x01230000 7 none).2.2.log
      = [Event.regmap_write Chan.regmap32 0xf038 0x230000] ∧
    (ap1302_read { bus := fun _ => { ret := -5 } } 0x01230000).1 = -5 ∧
    (ap1302_write { bus := fun _ => { ret := -5 } } 0x01230000 7 none).1 = -5 := by
  decide

/-- C1 (amended): for a register reference whose encoded width is neither 2
nor 4, `ap1302_read` and `ap1302_write` (called with no accumulator or a
clear one) never issue a data transaction. When the page field is zero or
equals `reg_page` they return `-EINVAL`, issue no bus transaction and leave
the session as it was. When the page field is nonzero and differs from
`reg_page` they issue exactly one transaction, the page-select write; they
return its code when it is negative and leave `reg_page` alone, and
otherwise set `reg_page` to the page and return `-EINVAL`. -/
theorem C1_invalid_width (s : ap1302_dev) (reg val : Nat) (err : Option Int)
    (hreg : reg < 2 ^ 32) (h2 : AP1302_REG_SIZE reg ≠ 2) (h4 : AP1302_REG_SIZE reg ≠ 4)
    (herr : err = none ∨ err = some 0) :
    (AP1302_REG_PAGE reg = 0 ∨ AP1302_REG_PAGE reg = s.reg_page →
      ap1302_read s reg = (-EINVAL, 0, s) ∧
      ap1302_write s reg val err = (-EINVAL, err.map (fun _ => -EINVAL), s)) ∧
    (AP1302_REG_PAGE reg ≠ 0 → AP1302_REG_PAGE reg ≠ s.reg_page →
      (ap1302_read s reg).2.2.log
        = s.log ++ [Event.regmap_write Chan.regmap32 0xf038 (AP1302_REG_PAGE reg)] ∧
      (ap1302_read s reg).1 = (if (s.bus s.seq).ret < 0 then (s.bus s.seq).ret else -EINVAL) ∧
      (ap1302_read s reg).2.2.reg_page
        = (if (s.bus s.seq).ret < 0 then s.reg_page else AP1302_REG_PAGE reg) ∧
      (ap1302_write s reg val err).2.2.log
        = s.log ++ [Event.regmap_write Chan.regmap32 0xf038 (AP1302_REG_PAGE reg)] ∧
      (ap1302_write s reg val err).1
        = (if (s.bus s.seq).ret < 0 then (s.bus s.seq).ret else -EINVAL) ∧
      (ap1302_write s reg val err).2.2.reg_page
        = (if (s.bus s.seq).ret < 0 then s.reg_page else AP1302_REG_PAGE reg)) := by
  have hs2 : AP1302_REG_SIZE (adv_reg reg) ≠ 2 := by rw [adv_reg_size reg hreg]; exact h2
  have hs4 : AP1302_REG_SIZE (adv_reg reg) ≠ 4 := by rw [adv_reg_size reg hreg]; exact h4
  have hE : EINVAL ≠ 0 := by decide
  refine ⟨?_, ?_⟩
  · intro hp
    rcases hp with hp | hp
    · rcases herr with h | h <;> subst h <;>
        simp [ap1302_read, ap1302_write, __ap1302_read, __ap1302_write, ap1302_write_done,
          hp, h2, h4, hE, err_pending]
    · by_cases h0 : AP1302_REG_PAGE reg = 0
      · rcases herr with h | h <;> subst h <;>
          simp [ap1302_read, ap1302_write, __ap1302_read, __ap1302_write, ap1302_write_done,
            h0, h2, h4, hE, err_pending]
      · rcases herr with h | h <;> subst h <;>
          simp [ap1302_read, ap1302_write, __ap1302_read, __ap1302_write, ap1302_write_done,
            h0, hp, h2, h4, hs2, hs4, hE, err_pending]
  · intro h0 hp
    have hp2 : ¬ s.reg_page = AP1302_REG_PAGE reg := fun h => hp h.symm
    by_cases hneg : (s.bus s.seq).ret < 0
    · rcases herr with h | h <;> subst h <;>
        simp [ap1302_read, ap1302_write, __ap1302_read, ap1302_write_done, write_advanced_base,
          regmap_write, h0, hp2, hneg, err_pending]
    · rcases herr with h | h <;> subst h <;>
        simp [ap1302_read, ap1302_write, __ap1302_read, __ap1302_write, ap1302_write_done,
          advanced_base_size, advanced_base_addr,
          regmap_write, h0, hp2, hneg, hs2, hs4, err_pending]

/-- C1 (amended), at a concrete reference of width 1 on page `0x230000`. -/
theorem C1_invalid_width_witness :
    (ap1302_read {} 0x01230000).2.2.log
        = ([] : List Event) ++ [Event.regmap_write Chan.regmap32 0xf038 (AP1302_REG_PAGE 0x01230000)] ∧
    (ap1302_read { reg_page := 0x230000 } 0x01230000) = (-EINVAL, 0, { reg_page := 0x230000 }) :=
  ⟨((C1_invalid_width {} 0x01230000 7 none (by decide) (by decide) (by decide) (Or.inl rfl)).2
      (by decide) (by decide)).1,
   ((C1_invalid_width { reg_page := 0x230000 } 0x01230000 7 none (by decide) (by decide)
      (by decide) (Or.inl rfl)).1 (Or.inr (by decide))).1⟩

/-! ## C2: when the page-select write is issued -/

theorem adv_reg_spec_addr (reg : Nat) (h : reg < 2 ^ 32) (hp : AP1302_REG_PAGE reg ≠ 0) :
    AP1302_REG_ADDR (adv_reg reg) = spec_data_addr reg := by
  rw [adv_reg_addr reg h, spec_data_addr, if_neg hp, AP1302_REG_ADV_START, Nat.add_comm]

/-- One access on a bus that does not fail: the log grows by the page-select
write when it is needed and by the data transaction; the active page becomes
the page of a paged reference. -/
theorem access_step (s : ap1302_dev) (a : Access) (hbus : ∀ n, (s.bus n).ret = 0)
    (hreg : a.reg < 2 ^ 32) :
    (ap1302_access s a).log = s.log ++ (spec_select s.reg_page a ++ spec_data a) ∧
    (ap1302_access s a).reg_page = spec_page s.reg_page a ∧
    (ap1302_access s a).bus = s.bus := by
  have hb := hbus s.seq
  cases a with
  | read reg =>
    simp only [Access.reg] at hreg
    have hsz := adv_reg_size reg hreg
    by_cases h0 : AP1302_REG_PAGE reg = 0
    · by_cases h2 : AP1302_REG_SIZE reg = 2 <;> by_cases h4 : AP1302_REG_SIZE reg = 4 <;>
        simp [ap1302_access, ap1302_read, __ap1302_read, regmap_read, spec_select, spec_data,
          spec_page, spec_data_addr, Access.reg, h0, h2, h4]
    · have ha := adv_reg_spec_addr reg hreg h0
      by_cases hp : s.reg_page = AP1302_REG_PAGE reg
      · by_cases h2 : AP1302_REG_SIZE reg = 2 <;> by_cases h4 : AP1302_REG_SIZE reg = 4 <;>
          simp [ap1302_access, ap1302_read, __ap1302_read, regmap_read, spec_select, spec_data,
            spec_page, Access.reg, h0, h2, h4, hp, hsz, ha]
      · have hp2 : ¬ AP1302_REG_PAGE reg = s.reg_page := fun h => hp h.symm
        by_cases h2 : AP1302_REG_SIZE reg = 2 <;> by_cases h4 : AP1302_REG_SIZE reg = 4 <;>
          simp [ap1302_access, ap1302_read, __ap1302_read, regmap_read, spec_select, spec_data,
            spec_page, Access.reg, h0, h2, h4, hp, hp2, hsz, ha, write_advanced_base,
            regmap_write, hb, page_select]
  | write reg val acc =>
    simp only [Access.reg] at hreg
    have hsz := adv_reg_size reg hreg
    have hf : err_pending (if acc then some (0 : Int) else none) = false := by
      cases acc <;> rfl
    by_cases h0 : AP1302_REG_PAGE reg = 0
    · by_cases h2 : AP1302_REG_SIZE reg = 2 <;> by_cases h4 : AP1302_REG_SIZE reg = 4 <;>
        simp [ap1302_access, ap1302_write, __ap1302_write, regmap_write, spec_select, spec_data,
          spec_page, spec_data_addr, Access.reg, h0, h2, h4, hf, ap1302_write_done]
    · have ha := adv_reg_spec_addr reg hreg h0
      by_cases hp : s.reg_page = AP1302_REG_PAGE reg
      · by_cases h2 : AP1302_REG_SIZE reg = 2 <;> by_cases h4 : AP1302_REG_SIZE reg = 4 <;>
          simp [ap1302_access, ap1302_write, __ap1302_write, regmap_write, spec_select,
            spec_data, spec_page, Access.reg, h0, h2, h4, hp, hsz, ha, hf, ap1302_write_done]
      · have hp2 : ¬ AP1302_REG_PAGE reg = s.reg_page := fun h => hp h.symm
        by_cases h2 : AP1302_REG_SIZE reg = 2 <;> by_cases h4 : AP1302_REG_SIZE reg = 4 <;>
          simp [ap1302_access, ap1302_write, __ap1302_write, regmap_write, spec_select,
            spec_data, spec_page, Access.reg, h0, h2, h4, hp, hp2, hsz, ha, hf,
            ap1302_write_done, advanced_base_size, advanced_base_addr, hb, page_select]

theorem run_trace (l : List Access) : ∀ (s : ap1302_dev), (∀ n, (s.bus n).ret = 0) →
    (∀ a ∈ l, a.reg < 2 ^ 32) →
    (ap1302_run s l).log = s.log ++ spec_trace s.reg_page l ∧
    (ap1302_run s l).reg_page = spec_final_page s.reg_page l := by
  induction l with
  | nil => intro s _ _; simp [ap1302_run, spec_trace, spec_final_page]
  | cons a l ih =>
    intro s hbus hreg
    obtain ⟨h1, h2, h3⟩ := access_step s a hbus (hreg a (List.mem_cons_self a l))
    have ih2 := ih (ap1302_access s a) (by rw [h3]; exact hbus)
      (fun b hb => hreg b (List.mem_cons_of_mem a hb))
    simp only [ap1302_run, List.foldl_cons] at ih2 ⊢
    rw [ih2.1, ih2.2, h1, h2]
    simp [spec_trace, spec_final_page]

/-- C2: on a bus that never fails, the bus traffic of any sequence of
`ap1302_read` and `ap1302_write` calls is the traffic of `spec_trace`: every
access issues its data transaction, preceded by a write of the page to
`AP1302_ADVANCED_BASE` exactly when the page of the reference is nonzero and
differs from `reg_page` at that point. In particular an access of valid
width to a paged reference whose page equals `reg_page` issues exactly one
transaction, its data transaction, and an unpaged access issues no
page-select write and leaves `reg_page` as it was. -/
theorem C2_page_select_when_needed (s : ap1302_dev) (l : List Access)
    (hbus : ∀ n, (s.bus n).ret = 0) (hreg : ∀ a ∈ l, a.reg < 2 ^ 32) :
    (ap1302_run s l).log = s.log ++ spec_trace s.reg_page l ∧
    (ap1302_run s l).reg_page = spec_final_page s.reg_page l ∧
    (∀ a : Access, a.reg < 2 ^ 32 → AP1302_REG_PAGE a.reg ≠ 0 →
      AP1302_REG_PAGE a.reg = s.reg_page →
      AP1302_REG_SIZE a.reg = 2 ∨ AP1302_REG_SIZE a.reg = 4 →
      (ap1302_access s a).log = s.log ++ spec_data a ∧ (spec_data a).length = 1 ∧
      (ap1302_access s a).reg_page = s.reg_page) ∧
    (∀ a : Access, a.reg < 2 ^ 32 → AP1302_REG_PAGE a.reg = 0 →
      (ap1302_access s a).log = s.log ++ spec_data a ∧
      (ap1302_access s a).reg_page = s.reg_page) := by
  refine ⟨(run_trace l s hbus hreg).1, (run_trace l s hbus hreg).2, ?_, ?_⟩
  · intro a ha h0 hp hsz
    obtain ⟨h1, h2, _⟩ := access_step s a hbus ha
    refine ⟨?_, ?_, ?_⟩
    · rw [h1]; simp [spec_select, hp]
    · cases a <;> rcases hsz with h | h <;> simp [spec_data, Access.reg] at h ⊢ <;> simp [h]
    · rw [h2]; simp [spec_page, hp]
  · intro a ha h0
    obtain ⟨h1, h2, _⟩ := access_step s a hbus ha
    refine ⟨?_, ?_⟩
    · rw [h1]; simp [spec_select, h0]
    · rw [h2]; simp [spec_page, h0]

/-- C2 at a concrete sequence: a write and a read of the paged register
`AP1302_ADV_HINF_MIPI_T3` followed by a read of the unpaged
`AP1302_CHIP_VERSION` issue one page-select write, before the first access. -/
theorem C2_page_select_when_needed_witness :
    (ap1302_run {} [Access.write AP1302_ADV_HINF_MIPI_T3 5 false,
        Access.read AP1302_ADV_HINF_MIPI_T3, Access.read AP1302_CHIP_VERSION]).log
      = [Event.regmap_write Chan.regmap32 0xf038 0x840000,
         Event.regmap_write Chan.regmap32 0xe014 5,
         Event.regmap_read Chan.regmap32 0xe014,
         Event.regmap_read Chan.regmap16 0] :=
  (C2_page_select_when_needed {} [Access.write AP1302_ADV_HINF_MIPI_T3 5 false,
      Access.read AP1302_ADV_HINF_MIPI_T3, Access.read AP1302_CHIP_VERSION]
    (fun _ => rfl) (by decide)).1.trans (by decide)

/-! ## C3: failure of the page-select write -/

/-- C3 (as stated, refuted): when the page-select write returns the nonzero
code `1`, `ap1302_read` and `ap1302_write` carry on: they set `reg_page` to
the new page, issue the data transaction and return its result `0`. -/
theorem C3_counterexample :
    AP1302_REG_PAGE AP1302_ADV_HINF_MIPI_T3 = 0x840000 ∧
    (ap1302_read { bus := fun n => if n = 0 then { ret := 1 } else { val := 7 } }
        AP1302_ADV_HINF_MIPI_T3).1 = 0 ∧
    (ap1302_read { bus := fun n => if n = 0 then { ret := 1 } else { val := 7 } }
        AP1302_ADV_HINF_MIPI_T3).2.2.reg_page = 0x840000 ∧
    (ap1302_read { bus := fun n => if n = 0 then { ret := 1 } else { val := 7 } }
        AP1302_ADV_HINF_MIPI_T3).2.2.log
      = [Event.regmap_write Chan.regmap32 0xf038 0x840000,
         Event.regmap_read Chan.regmap32 0xe014] ∧
    (ap1302_write { bus := fun n => if n = 0 then { ret := 1 } else { val := 7 } }
        AP1302_ADV_HINF_MIPI_T3 5 none).1 = 0 ∧
    (ap1302_write { bus := fun n => if n = 0 then { ret := 1 } else { val := 7 } }
        AP1302_ADV_HINF_MIPI_T3 5 none).2.2.reg_page = 0x840000 ∧
    (ap1302_write { bus := fun n => if n = 0 then { ret := 1 } else { val := 7 } }
        AP1302_ADV_HINF_MIPI_T3 5 none).2.2.log
      = [Event.regmap_write Chan.regmap32 0xf038 0x840000,
         Event.regmap_write Chan.regmap32 0xe014 5] := by
  decide

theorem read_log_extends (s : ap1302_dev) (reg : Nat) :
    ∃ rest, (__ap1302_read s reg).2.2.log = s.log ++ rest := by
  by_cases h2 : AP1302_REG_SIZE reg = 2 <;> by_cases h4 : AP1302_REG_SIZE reg = 4 <;>
    simp [__ap1302_read, regmap_read, h2, h4]

theorem write_log_extends (s : ap1302_dev) (reg val : Nat) :
    ∃ rest, (__ap1302_write s reg val).2.log = s.log ++ rest := by
  by_cases h2 : AP1302_REG_SIZE reg = 2 <;> by_cases h4 : AP1302_REG_SIZE reg = 4 <;>
    simp [__ap1302_write, regmap_write, h2, h4]

/-- C3 (amended): for a paged reference whose page differs from `reg_page`,
if the page-select write fails with a negative error code then `ap1302_read`
and `ap1302_write` return that code, issue no data transaction (the
page-select write is the only transaction) and leave `reg_page` unchanged;
the next access to the same page issues the page-select write again. -/
theorem C3_page_select_failure (s : ap1302_dev) (reg val : Nat) (err : Option Int)
    (h0 : AP1302_REG_PAGE reg ≠ 0) (hp : AP1302_REG_PAGE reg ≠ s.reg_page)
    (hfail : (s.bus s.seq).ret < 0) (herr : err = none ∨ err = some 0) :
    ap1302_read s reg = ((s.bus s.seq).ret, 0,
      { s with seq := s.seq + 1, log := s.log ++ [page_select (AP1302_REG_PAGE reg)] }) ∧
    ap1302_write s reg val err = ((s.bus s.seq).ret, err.map (fun _ => (s.bus s.seq).ret),
      { s with seq := s.seq + 1, log := s.log ++ [page_select (AP1302_REG_PAGE reg)] }) ∧
    (ap1302_read s reg).2.2.reg_page = s.reg_page ∧
    (ap1302_write s reg val err).2.2.reg_page = s.reg_page ∧
    (∀ reg2 val2 : Nat, AP1302_REG_PAGE reg2 = AP1302_REG_PAGE reg →
      (∃ rest, (ap1302_read (ap1302_read s reg).2.2 reg2).2.2.log
        = (ap1302_read s reg).2.2.log ++ page_select (AP1302_REG_PAGE reg) :: rest) ∧
      (∃ rest, (ap1302_write (ap1302_write s reg val err).2.2 reg2 val2 none).2.2.log
        = (ap1302_write s reg val err).2.2.log ++ page_select (AP1302_REG_PAGE reg) :: rest)) := by
  have hp2 : ¬ s.reg_page = AP1302_REG_PAGE reg := fun h => hp h.symm
  have hne : (s.bus s.seq).ret ≠ 0 := by omega
  have hr : ap1302_read s reg = ((s.bus s.seq).ret, 0,
      { s with seq := s.seq + 1, log := s.log ++ [page_select (AP1302_REG_PAGE reg)] }) := by
    simp [ap1302_read, write_advanced_base, regmap_write, h0, hp2, hfail, page_select]
  have hw : ap1302_write s reg val err = ((s.bus s.seq).ret,
      err.map (fun _ => (s.bus s.seq).ret),
      { s with seq := s.seq + 1, log := s.log ++ [page_select (AP1302_REG_PAGE reg)] }) := by
    rcases herr with h | h <;> subst h <;>
      simp [ap1302_write, ap1302_write_done, write_advanced_base, regmap_write, h0, hp2, hfail,
        hne, page_select, err_pending]
  refine ⟨hr, hw, by rw [hr], by rw [hw], ?_⟩
  intro reg2 val2 hpg
  rw [hr, hw]
  constructor
  · by_cases hneg : (s.bus (s.seq + 1)).ret < 0
    · exact ⟨[], by
        simp [ap1302_read, write_advanced_base, regmap_write, hpg, h0, hp2, hneg, page_select]⟩
    · obtain ⟨rest, hrest⟩ := read_log_extends
        { s with seq := s.seq + 1 + 1,
                 log := s.log ++ [page_select (AP1302_REG_PAGE reg)]
                   ++ [page_select (AP1302_REG_PAGE reg)],
                 reg_page := AP1302_REG_PAGE reg } (adv_reg reg2)
      exact ⟨rest, by
        simp [ap1302_read, write_advanced_base, regmap_write, hpg, h0, hp2, hneg, page_select]
          at hrest ⊢
        simpa [page_select] using hrest⟩
  · by_cases hneg : (s.bus (s.seq + 1)).ret < 0
    · exact ⟨[], by
        simp [ap1302_write, ap1302_write_done, write_advanced_base, regmap_write, hpg, h0, hp2,
          hneg, page_select, err_pending]⟩
    · obtain ⟨rest, hrest⟩ := write_log_extends
        { s with seq := s.seq + 1 + 1,
                 log := s.log ++ [page_select (AP1302_REG_PAGE reg)]
                   ++ [page_select (AP1302_REG_PAGE reg)],
                 reg_page := AP1302_REG_PAGE reg } (adv_reg reg2) val2
      exact ⟨rest, by
        simp [ap1302_write, ap1302_write_done, write_advanced_base, regmap_write, hpg, h0, hp2,
          hneg, page_select, err_pending] at hrest ⊢
        simpa [page_select] using hrest⟩

/-- C3 (amended) on a bus whose transactions all fail with `-5`. -/
theorem C3_page_select_failure_witness :
    (ap1302_read { bus := fun _ => { ret := -5 } } AP1302_ADV_HINF_MIPI_T3).2.2.reg_page
      = ({ bus := fun _ => { ret := -5 } } : ap1302_dev).reg_page :=
  (C3_page_select_failure { bus := fun _ => { ret := -5 } } AP1302_ADV_HINF_MIPI_T3 5 none
    (by decide) (by decide) (by decide) (Or.inl rfl)).2.2.1

/-! ## C5: address of the data transaction -/

/-- C5 (as stated, refuted): the 16-bit reference with page `0x230000` and
offset `0x2000` has its data transaction at bus address `0`, not at
`0xE000 + 0x2000`: the relocated address is cut to 16 bits. -/
theorem C5_counterexample :
    AP1302_REG_SIZE (AP1302_REG_16BIT 0x232000) = 2 ∧
    AP1302_REG_PAGE (AP1302_REG_16BIT 0x232000) = 0x230000 ∧
    AP1302_REG_ADDR (AP1302_REG_16BIT 0x232000) = 0x2000 ∧
    (ap1302_write {} (AP1302_REG_16BIT 0x232000) 5 none).2.2.log
      = [Event.regmap_write Chan.regmap32 0xf038 0x230000,
         Event.regmap_write Chan.regmap16 0 5] ∧
    (0 : Nat) ≠ 0xE000 + 0x2000 := by
  decide

/-- For a register reference of valid width, when no
page-select write is needed or the page-select write does not fail, the data
transaction is the last transaction of the access, on the register map
selected by the encoded width, at the bus address `offset` when the page
field is zero and `(0xE000 + offset) mod 0x10000` when it is nonzero; the
latter is `0xE000 + offset` whenever `offset < 0x2000`. -/
theorem valid_access_log (s : ap1302_dev) (reg val : Nat) (err : Option Int)
    (hreg : reg < 2 ^ 32) (hsz : AP1302_REG_SIZE reg = 2 ∨ AP1302_REG_SIZE reg = 4)
    (herr : err = none ∨ err = some 0)
    (hsel : AP1302_REG_PAGE reg = 0 ∨ AP1302_REG_PAGE reg = s.reg_page ∨
      0 ≤ (s.bus s.seq).ret) :
    (ap1302_write s reg val err).2.2.log
      = s.log ++ spec_select s.reg_page (Access.write reg val true)
          ++ [Event.regmap_write (spec_chan reg)
               (if AP1302_REG_PAGE reg = 0 then AP1302_REG_ADDR reg
                else (0xE000 + AP1302_REG_ADDR reg) % 0x10000) val] ∧
    (ap1302_read s reg).2.2.log
      = s.log ++ spec_select s.reg_page (Access.read reg)
          ++ [Event.regmap_read (spec_chan reg)
               (if AP1302_REG_PAGE reg = 0 then AP1302_REG_ADDR reg
                else (0xE000 + AP1302_REG_ADDR reg) % 0x10000)] ∧
    (AP1302_REG_ADDR reg < 0x2000 →
      (0xE000 + AP1302_REG_ADDR reg) % 0x10000 = 0xE000 + AP1302_REG_ADDR reg) := by
  have hsz2 := adv_reg_size reg hreg
  have hf := pending_clear err herr
  refine ⟨?_, ?_, fun h => by omega⟩
  · by_cases h0 : AP1302_REG_PAGE reg = 0
    · rcases hsz with h | h <;>
        simp [ap1302_write, __ap1302_write, regmap_write, ap1302_write_done, spec_select,
          spec_chan, Access.reg, h0, h, hf]
    · have ha := adv_reg_addr reg hreg
      rw [Nat.add_comm] at ha
      by_cases hp : s.reg_page = AP1302_REG_PAGE reg
      · rcases hsz with h | h <;>
          simp [ap1302_write, __ap1302_write, regmap_write, ap1302_write_done, spec_select,
            spec_chan, Access.reg, h0, h, hf, hp, hsz2, ha]
      · have hp2 : ¬ AP1302_REG_PAGE reg = s.reg_page := fun h => hp h.symm
        have hneg : ¬ (s.bus s.seq).ret < 0 := by
          rcases hsel with h | h | h
          · exact absurd h h0
          · exact absurd h hp2
          · omega
        rcases hsz with h | h <;>
          simp [ap1302_write, __ap1302_write, regmap_write, ap1302_write_done, spec_select,
            spec_chan, Access.reg, h0, h, hf, hp, hp2, hsz2, ha, hneg, advanced_base_size,
            advanced_base_addr, page_select]
  · by_cases h0 : AP1302_REG_PAGE reg = 0
    · rcases hsz with h | h <;>
        simp [ap1302_read, __ap1302_read, regmap_read, spec_select, spec_chan, Access.reg, h0, h]
    · have ha := adv_reg_addr reg hreg
      rw [Nat.add_comm] at ha
      by_cases hp : s.reg_page = AP1302_REG_PAGE reg
      · rcases hsz with h | h <;>
          simp [ap1302_read, __ap1302_read, regmap_read, spec_select, spec_chan, Access.reg, h0,
            h, hp, hsz2, ha]
      · have hp2 : ¬ AP1302_REG_PAGE reg = s.reg_page := fun h => hp h.symm
        have hneg : ¬ (s.bus s.seq).ret < 0 := by
          rcases hsel with h | h | h
          · exact absurd h h0
          · exact absurd h hp2
          · omega
        rcases hsz with h | h <;>
          simp [ap1302_read, __ap1302_read, regmap_read, spec_select, spec_chan, Access.reg, h0,
            h, hp, hp2, hsz2, ha, hneg, write_advanced_base, regmap_write, page_select]

/-- C5 (amended): for a register reference of valid width, when no
page-select write is needed or the page-select write does not fail, the data
transaction is the last transaction of the access, on the register map
selected by the encoded width, at the bus address `offset` when the page
field is zero and `(0xE000 + offset) mod 0x10000` when it is nonzero; the
latter is `0xE000 + offset` whenever `offset < 0x2000`. -/
theorem C5_data_address (s : ap1302_dev) (reg val : Nat) (err : Option Int)
    (hreg : reg < 2 ^ 32) (hsz : AP1302_REG_SIZE reg = 2 ∨ AP1302_REG_SIZE reg = 4)
    (herr : err = none ∨ err = some 0)
    (hsel : AP1302_REG_PAGE reg = 0 ∨ AP1302_REG_PAGE reg = s.reg_page ∨
      0 ≤ (s.bus s.seq).ret) :
    (ap1302_write s reg val err).2.2.log
      = s.log ++ spec_select s.reg_page (Access.write reg val true)
          ++ [Event.regmap_write (spec_chan reg)
               (if AP1302_REG_PAGE reg = 0 then AP1302_REG_ADDR reg
                else (0xE000 + AP1302_REG_ADDR reg) % 0x10000) val] ∧
    (ap1302_read s reg).2.2.log
      = s.log ++ spec_select s.reg_page (Access.read reg)
          ++ [Event.regmap_read (spec_chan reg)
               (if AP1302_REG_PAGE reg = 0 then AP1302_REG_ADDR reg
                else (0xE000 + AP1302_REG_ADDR reg) % 0x10000)] ∧
    (AP1302_REG_ADDR reg < 0x2000 →
      (0xE000 + AP1302_REG_ADDR reg) % 0x10000 = 0xE000 + AP1302_REG_ADDR reg) :=
  valid_access_log s reg val err hreg hsz herr hsel

/-- C5 (amended) at the paged 32-bit register `AP1302_ADV_HINF_MIPI_T3`,
offset `0x14`: the data write goes to bus address `0xe014` on `regmap32`. -/
theorem C5_data_address_witness :
    (ap1302_write {} AP1302_ADV_HINF_MIPI_T3 5 none).2.2.log
      = [Event.regmap_write Chan.regmap32 0xf038 0x840000,
         Event.regmap_write Chan.regmap32 0xe014 5] :=
  (C5_data_address {} AP1302_ADV_HINF_MIPI_T3 5 none (by decide) (Or.inr (by decide))
    (Or.inl rfl) (Or.inr (Or.inr (by decide)))).1.trans (by decide)

/-! ## C4: the shared error accumulator -/

theorem write_pending (s : ap1302_dev) (reg val : Nat) (e : Int) (he : e ≠ 0) :
    ap1302_write s reg val (some e) = (e, some e, s) := by
  simp [ap1302_write, err_pending, he]

theorem write_clear_acc (s : ap1302_dev) (reg val : Nat) :
    (ap1302_write s reg val (some 0)).2.1 = some (ap1302_write s reg val (some 0)).1 := by
  have key : ∀ (r : Int) (t : ap1302_dev),
      (ap1302_write_done r (some 0) t).2.1 = some (ap1302_write_done r (some 0) t).1 := by
    intro r t
    by_cases h : r = 0 <;> simp [ap1302_write_done, h]
  simp only [ap1302_write, err_pending]
  split_ifs <;> exact key _ _

theorem chain_pending (l : List (Nat × Nat)) (s : ap1302_dev) (e : Int) (he : e ≠ 0) :
    ap1302_write_chain s l e = (l.map (fun _ => (e, s)), e, s) := by
  induction l with
  | nil => rfl
  | cons w l ih => simp [ap1302_write_chain, write_pending s w.1 w.2 e he, ih]

theorem chain_append (l1 l2 : List (Nat × Nat)) : ∀ (s : ap1302_dev) (e : Int),
    ap1302_write_chain s (l1 ++ l2) e
      = ((ap1302_write_chain s l1 e).1
          ++ (ap1302_write_chain (ap1302_write_chain s l1 e).2.2 l2
                (ap1302_write_chain s l1 e).2.1).1,
         (ap1302_write_chain (ap1302_write_chain s l1 e).2.2 l2
                (ap1302_write_chain s l1 e).2.1).2) := by
  induction l1 with
  | nil => intro s e; simp [ap1302_write_chain]
  | cons w l ih => intro s e; simp [ap1302_write_chain, ih]

theorem chain_zero_acc (l : List (Nat × Nat)) : ∀ (s : ap1302_dev),
    (∀ x ∈ (ap1302_write_chain s l 0).1, x.1 = 0) → (ap1302_write_chain s l 0).2.1 = 0 := by
  induction l with
  | nil => intro s _; rfl
  | cons w l ih =>
    intro s h
    have h0 : (ap1302_write s w.1 w.2 (some 0)).1 = 0 := by
      have := h ((ap1302_write s w.1 w.2 (some 0)).1, (ap1302_write s w.1 w.2 (some 0)).2.2)
        (by simp [ap1302_write_chain])
      simpa using this
    have hacc : (ap1302_write s w.1 w.2 (some 0)).2.1.getD 0 = 0 := by
      rw [write_clear_acc, h0]; rfl
    simp only [ap1302_write_chain, hacc] at h ⊢
    exact ih _ (fun x hx => h x (List.mem_cons_of_mem _ hx))

theorem write_zero_valid (s : ap1302_dev) (reg val : Nat) (hreg : reg < 2 ^ 32)
    (h : (ap1302_write s reg val (some 0)).1 = 0) :
    (AP1302_REG_SIZE reg = 2 ∨ AP1302_REG_SIZE reg = 4) ∧
    (AP1302_REG_PAGE reg = 0 ∨ AP1302_REG_PAGE reg = s.reg_page ∨ 0 ≤ (s.bus s.seq).ret) := by
  have hsz2 := adv_reg_size reg hreg
  have hE : EINVAL ≠ 0 := by decide
  constructor
  · by_contra hc
    push_neg at hc
    obtain ⟨h2, h4⟩ := hc
    by_cases h0 : AP1302_REG_PAGE reg = 0
    · simp [ap1302_write, __ap1302_write, ap1302_write_done, err_pending, h0, h2, h4, hE] at h
    · by_cases hp : s.reg_page = AP1302_REG_PAGE reg
      · simp [ap1302_write, __ap1302_write, ap1302_write_done, err_pending, h0, h2, h4, hE, hp,
          hsz2] at h
      · by_cases hneg : (s.bus s.seq).ret < 0
        · simp [ap1302_write, write_advanced_base, regmap_write, ap1302_write_done, err_pending,
            h0, hp, hneg] at h
          omega
        · simp [ap1302_write, __ap1302_write, regmap_write, ap1302_write_done, err_pending,
            h0, hp, hneg, h2, h4, hE, hsz2, advanced_base_size, advanced_base_addr] at h
  · by_cases h0 : AP1302_REG_PAGE reg = 0
    · exact Or.inl h0
    · by_cases hp : s.reg_page = AP1302_REG_PAGE reg
      · exact Or.inr (Or.inl hp.symm)
      · by_cases hneg : (s.bus s.seq).ret < 0
        · simp [ap1302_write, write_advanced_base, regmap_write, ap1302_write_done, err_pending,
            h0, hp, hneg] at h
          omega
        · exact Or.inr (Or.inr (by omega))

/-- C4: writes chained on one error accumulator that starts at 0. While no
write has failed the accumulator is 0 and every write is issued: its data
transaction is the last transaction of the call. If the writes of `pre` all
succeed and the next write `w` fails with error `e`, then the accumulator
ends holding `e` and every later write returns `e` and leaves the session,
its log and `reg_page` included, exactly as the failing write left it. -/
theorem C4_error_accumulator (s : ap1302_dev) (pre post : List (Nat × Nat)) (w : Nat × Nat)
    (hpre : ∀ x ∈ (ap1302_write_chain s pre 0).1, x.1 = 0)
    (hreg : ∀ x ∈ pre, x.1 < 2 ^ 32) :
    (ap1302_write_chain s pre 0).2.1 = 0 ∧
    (∀ p q x, pre = p ++ x :: q →
      (ap1302_write_chain s (p ++ [x]) 0).2.2.log
        = (ap1302_write_chain s p 0).2.2.log
            ++ spec_select (ap1302_write_chain s p 0).2.2.reg_page (Access.write x.1 x.2 true)
            ++ [Event.regmap_write (spec_chan x.1) (spec_data_addr x.1) x.2]) ∧
    ((ap1302_write (ap1302_write_chain s pre 0).2.2 w.1 w.2 (some 0)).1 ≠ 0 →
      ap1302_write_chain s (pre ++ w :: post) 0
        = ((ap1302_write_chain s pre 0).1
            ++ ((ap1302_write (ap1302_write_chain s pre 0).2.2 w.1 w.2 (some 0)).1,
                (ap1302_write (ap1302_write_chain s pre 0).2.2 w.1 w.2 (some 0)).2.2)
              :: post.map (fun _ =>
                ((ap1302_write (ap1302_write_chain s pre 0).2.2 w.1 w.2 (some 0)).1,
                 (ap1302_write (ap1302_write_chain s pre 0).2.2 w.1 w.2 (some 0)).2.2)),
           (ap1302_write (ap1302_write_chain s pre 0).2.2 w.1 w.2 (some 0)).1,
           (ap1302_write (ap1302_write_chain s pre 0).2.2 w.1 w.2 (some 0)).2.2)) := by
  have hacc := chain_zero_acc pre s hpre
  refine ⟨hacc, ?_, ?_⟩
  · intro p q x hpq
    subst hpq
    have hp : ∀ y ∈ (ap1302_write_chain s p 0).1, y.1 = 0 := by
      intro y hy
      apply hpre y
      rw [chain_append]
      exact List.mem_append_left _ hy
    have hpacc := chain_zero_acc p s hp
    have hx : (ap1302_write (ap1302_write_chain s p 0).2.2 x.1 x.2 (some 0)).1 = 0 := by
      have := hpre ((ap1302_write (ap1302_write_chain s p 0).2.2 x.1 x.2 (some 0)).1,
        (ap1302_write (ap1302_write_chain s p 0).2.2 x.1 x.2 (some 0)).2.2)
        (by rw [chain_append, hpacc]; simp [ap1302_write_chain])
      simpa using this
    have hxr : x.1 < 2 ^ 32 := hreg x (by simp)
    obtain ⟨hv, hsel⟩ := write_zero_valid _ x.1 x.2 hxr hx
    have hlog := (valid_access_log (ap1302_write_chain s p 0).2.2 x.1 x.2 (some 0) hxr hv
      (Or.inr rfl) hsel).1
    rw [chain_append, hpacc]
    simp only [ap1302_write_chain]
    rw [hlog, spec_data_addr]
    simp [AP1302_REG_ADV_START]
  · intro hfail
    rw [chain_append, hacc]
    have hacc2 : (ap1302_write (ap1302_write_chain s pre 0).2.2 w.1 w.2 (some 0)).2.1.getD 0
        = (ap1302_write (ap1302_write_chain s pre 0).2.2 w.1 w.2 (some 0)).1 := by
      rw [write_clear_acc]; rfl
    simp only [ap1302_write_chain, hacc2]
    rw [chain_pending post _ _ hfail]

/-- C4 on a chain of three writes whose second write fails with `-5`: the
accumulator ends at `-5` and the third write is not issued. -/
theorem C4_error_accumulator_witness :
    (ap1302_write_chain { bus := fun n => if n = 1 then { ret := -5 } else {} }
        ([(0x02002030, 0x12)] ++ (0x02002000, 1920) :: [(0x02002002, 1080)]) 0).2.1 = -5 ∧
    (ap1302_write_chain { bus := fun n => if n = 1 then { ret := -5 } else {} }
        ([(0x02002030, 0x12)] ++ (0x02002000, 1920) :: [(0x02002002, 1080)]) 0).2.2.log
      = [Event.regmap_write Chan.regmap16 0x2030 0x12,
         Event.regmap_write Chan.regmap16 0x2000 1920] :=
  ⟨(congrArg (fun r => r.2.1)
      ((C4_error_accumulator { bus := fun n => if n = 1 then { ret := -5 } else {} }
        [(0x02002030, 0x12)] [(0x02002002, 1080)] (0x02002000, 1920)
        (by decide) (by decide)).2.2 (by decide))).trans (by decide),
   (congrArg (fun r => r.2.2.log)
      ((C4_error_accumulator { bus := fun n => if n = 1 then { ret := -5 } else {} }
        [(0x02002030, 0x12)] [(0x02002002, 1080)] (0x02002000, 1920)
        (by decide) (by decide)).2.2 (by decide))).trans (by decide)⟩

/-! ## C6: the cached page across a power cycle -/

/-- C6 (as stated, refuted): with `reg_page = 0x840000`, a power cycle
(`ap1302_power_off` or `ap1302_set_power_off`, then `ap1302_power_on`)
leaves `reg_page` at `0x840000`, not at 0, and the first access after it to
`AP1302_ADV_HINF_MIPI_T3`, on page `0x840000`, issues its data read with no
page-select write. -/
theorem C6_counterexample :
    (ap1302_power_on (ap1302_power_off { reg_page := 0x840000 })).2.reg_page = 0x840000 ∧
    (ap1302_power_on (ap1302_set_power_off { reg_page := 0x840000 })).2.reg_page = 0x840000 ∧
    (ap1302_read (ap1302_power_on (ap1302_power_off { reg_page := 0x840000 })).2
        AP1302_ADV_HINF_MIPI_T3).2.2.log
      = [Event.gpiod_set_value Gpio.reset_gpio 1, Event.gpiod_set_value Gpio.reset_gpio 0,
         Event.regmap_read Chan.regmap32 0xe014] := by
  decide

theorem power_off_reg_page (s : ap1302_dev) : (ap1302_power_off s).reg_page = s.reg_page := by
  cases hg : s.pwdn_gpio <;> simp [ap1302_power_off, gpiod_set_value_cansleep, hg]

theorem power_on_reg_page (s : ap1302_dev) : (ap1302_power_on s).2.reg_page = s.reg_page := by
  cases hg : s.pwdn_gpio <;> simp [ap1302_power_on, gpiod_set_value_cansleep, hg]

theorem set_power_off_reg_page (s : ap1302_dev) :
    (ap1302_set_power_off s).reg_page = s.reg_page := by
  simp [ap1302_set_power_off, clk_disable_unprepare, regulator_bulk_disable,
    power_off_reg_page]

/-- C6 (amended): `ap1302_power_off`, `ap1302_set_power_off` and
`ap1302_power_on` leave `reg_page` unchanged, so after a power cycle the
session still holds the page that was active before it, and the first access
of valid width to a reference on that page issues only its data
transaction, with no page-select write. -/
theorem C6_power_cycle_keeps_page (s : ap1302_dev) :
    (ap1302_power_off s).reg_page = s.reg_page ∧
    (ap1302_set_power_off s).reg_page = s.reg_page ∧
    (ap1302_power_on s).2.reg_page = s.reg_page ∧
    (ap1302_power_on (ap1302_power_off s)).2.reg_page = s.reg_page ∧
    (ap1302_power_on (ap1302_set_power_off s)).2.reg_page = s.reg_page ∧
    (∀ reg : Nat, reg < 2 ^ 32 → AP1302_REG_SIZE reg = 2 ∨ AP1302_REG_SIZE reg = 4 →
      AP1302_REG_PAGE reg ≠ 0 → AP1302_REG_PAGE reg = s.reg_page →
      (ap1302_read (ap1302_power_on (ap1302_power_off s)).2 reg).2.2.log
        = (ap1302_power_on (ap1302_power_off s)).2.log
            ++ [Event.regmap_read (spec_chan reg) ((0xE000 + AP1302_REG_ADDR reg) % 0x10000)]) := by
  have h1 : (ap1302_power_on (ap1302_power_off s)).2.reg_page = s.reg_page := by
    rw [power_on_reg_page, power_off_reg_page]
  refine ⟨power_off_reg_page s, set_power_off_reg_page s, power_on_reg_page s, h1,
    by rw [power_on_reg_page, set_power_off_reg_page], ?_⟩
  intro reg hreg hsz h0 hp
  have h := (valid_access_log (ap1302_power_on (ap1302_power_off s)).2 reg 0 none hreg hsz
    (Or.inl rfl) (Or.inr (Or.inl (by rw [h1]; exact hp)))).2.1
  rw [h, h1, if_neg h0]
  simp [spec_select, Access.reg, hp]

/-- C6 (amended) at a session whose active page is `0x840000`. -/
theorem C6_power_cycle_keeps_page_witness :
    (ap1302_read (ap1302_power_on (ap1302_power_off { reg_page := 0x840000 })).2
        AP1302_ADV_HINF_MIPI_T3).2.2.log
      = [Event.gpiod_set_value Gpio.reset_gpio 1, Event.gpiod_set_value Gpio.reset_gpio 0,
         Event.regmap_read Chan.regmap32 0xe014] :=
  ((C6_power_cycle_keeps_page { reg_page := 0x840000 }).2.2.2.2.2 AP1302_ADV_HINF_MIPI_T3
    (by decide) (Or.inr (by decide)) (by decide) (by decide)).trans (by decide)

/-! ## C7: the firmware window -/

theorem fw_blocks_append (a b : Nat) : ∀ (pos : Nat) (buf : List Nat),
    fw_blocks (a + b) pos buf
      = fw_blocks a pos buf
          ++ fw_blocks b (pos + a * AP1302_FW_BLOCK_LEN) (buf.drop (a * AP1302_FW_BLOCK_LEN)) := by
  induction a with
  | zero => intro pos buf; simp [fw_blocks]
  | succ a ih =>
    intro pos buf
    have e : a + 1 + b = (a + b) + 1 := by omega
    rw [e]
    simp only [fw_blocks, ih, List.cons_append, List.drop_drop]
    congr 3 <;> ring_nf

theorem fw_blocks_length (n : Nat) : ∀ (pos : Nat) (buf : List Nat),
    (fw_blocks n pos buf).length = n := by
  induction n with
  | zero => intro pos buf; rfl
  | succ n ih => intro pos buf; simp [fw_blocks, ih]

/-- The block loop on a bus that does not fail: `n` full blocks. -/
theorem fw_block_loop_ok (n : Nat) : ∀ (s : ap1302_dev) (buf : List Nat) (pos : Nat),
    (∀ k, k < n → (s.bus (s.seq + k)).ret = 0) → pos + n * AP1302_FW_BLOCK_LEN < 2 ^ 32 →
    ap1302_write_fw_block_loop n s buf pos
      = (none, buf.drop (n * AP1302_FW_BLOCK_LEN), pos + n * AP1302_FW_BLOCK_LEN,
         { s with seq := s.seq + n, log := s.log ++ fw_blocks n pos buf }) := by
  induction n with
  | zero => intro s buf pos _ _; simp [ap1302_write_fw_block_loop, fw_blocks]
  | succ n ih =>
    intro s buf pos hbus hlt
    have hb : (s.bus s.seq).ret = 0 := hbus 0 (by omega)
    have h1 : u32 (pos % AP1302_FW_WINDOW_SIZE + AP1302_FW_WINDOW_OFFSET)
        = pos % AP1302_FW_WINDOW_SIZE + AP1302_FW_WINDOW_OFFSET := by
      simp only [u32, AP1302_FW_WINDOW_SIZE, AP1302_FW_WINDOW_OFFSET]; omega
    have h2 : u32 (pos + AP1302_FW_BLOCK_LEN) = pos + AP1302_FW_BLOCK_LEN := by
      simp only [u32, AP1302_FW_BLOCK_LEN] at hlt ⊢; omega
    have h3 : pos + AP1302_FW_BLOCK_LEN + n * AP1302_FW_BLOCK_LEN < 2 ^ 32 := by
      simp only [AP1302_FW_BLOCK_LEN] at hlt ⊢; omega
    simp only [ap1302_write_fw_block_loop, regmap_raw_write, hb, h1, h2, ne_eq,
      not_true_eq_false, if_false]
    refine (ih _ _ _ ?_ h3).trans ?_
    · intro k hk
      show (s.bus (s.seq + 1 + k)).ret = 0
      rw [Nat.add_assoc]
      exact hbus (1 + k) (by omega)
    · simp only [fw_blocks, List.drop_drop, List.append_assoc, List.singleton_append]
      have e1 : AP1302_FW_BLOCK_LEN + n * AP1302_FW_BLOCK_LEN
          = (n + 1) * AP1302_FW_BLOCK_LEN := by ring
      have e2 : pos + AP1302_FW_BLOCK_LEN + n * AP1302_FW_BLOCK_LEN
          = pos + (n + 1) * AP1302_FW_BLOCK_LEN := by ring
      have e3 : s.seq + 1 + n = s.seq + (n + 1) := by ring
      rw [e1, e2, e3]

theorem fw_stream_length (pos : Nat) (buf : List Nat) (len : Nat) :
    (fw_stream pos buf len).length
      = len / AP1302_FW_BLOCK_LEN + (if len % AP1302_FW_BLOCK_LEN > 0 then 1 else 0) := by
  by_cases h : len % AP1302_FW_BLOCK_LEN > 0 <;>
    simp [fw_stream, fw_tail, fw_blocks_length, h]

/-- One call of `ap1302_write_fw_block` on a bus that does not fail. -/
theorem fw_block_ok (s : ap1302_dev) (buf : List Nat) (len pos : Nat)
    (hbus : ∀ k, k < (fw_stream pos buf len).length → (s.bus (s.seq + k)).ret = 0)
    (hlt : pos + len < 2 ^ 32) :
    ap1302_write_fw_block s buf len pos
      = (0, pos + len,
         { s with seq := s.seq + (fw_stream pos buf len).length,
                  log := s.log ++ fw_stream pos buf len }) := by
  have hdm := Nat.div_add_mod len AP1302_FW_BLOCK_LEN
  have hl : pos + len / AP1302_FW_BLOCK_LEN * AP1302_FW_BLOCK_LEN < 2 ^ 32 := by
    have : len / AP1302_FW_BLOCK_LEN * AP1302_FW_BLOCK_LEN ≤ len := Nat.div_mul_le_self _ _
    omega
  have hsum : pos + len / AP1302_FW_BLOCK_LEN * AP1302_FW_BLOCK_LEN + len % AP1302_FW_BLOCK_LEN
      = pos + len := by
    simp only [AP1302_FW_BLOCK_LEN] at hdm ⊢; omega
  rw [fw_stream_length] at hbus
  have hb : len % AP1302_FW_BLOCK_LEN > 0 → (s.bus (s.seq + len / AP1302_FW_BLOCK_LEN)).ret = 0 :=
    fun h => hbus _ (by rw [if_pos h]; omega)
  have h1 : u32 ((pos + len / AP1302_FW_BLOCK_LEN * AP1302_FW_BLOCK_LEN) % AP1302_FW_WINDOW_SIZE
        + AP1302_FW_WINDOW_OFFSET)
      = (pos + len / AP1302_FW_BLOCK_LEN * AP1302_FW_BLOCK_LEN) % AP1302_FW_WINDOW_SIZE
        + AP1302_FW_WINDOW_OFFSET := by
    simp only [u32, AP1302_FW_WINDOW_SIZE, AP1302_FW_WINDOW_OFFSET]; omega
  have h2 : u32 (pos + (len / AP1302_FW_BLOCK_LEN * AP1302_FW_BLOCK_LEN
        + len % AP1302_FW_BLOCK_LEN)) = pos + len := by
    rw [← Nat.add_assoc, hsum, u32]; exact Nat.mod_eq_of_lt hlt
  rw [ap1302_write_fw_block, fw_block_loop_ok _ s buf pos (fun k hk => hbus k (by omega)) hl,
    fw_stream_length]
  by_cases h : len % AP1302_FW_BLOCK_LEN > 0
  · simp [regmap_raw_write, hb h, h, h1, h2, fw_stream, fw_tail, Nat.add_assoc]
  · have h0 : len % AP1302_FW_BLOCK_LEN = 0 := by omega
    have h3 : pos + len / AP1302_FW_BLOCK_LEN * AP1302_FW_BLOCK_LEN = pos + len := by
      rw [← hsum, h0]; rfl
    simp [h, h0, h3, fw_stream, fw_tail]

theorem fw_stream_window (pos : Nat) (buf : List Nat) :
    fw_stream pos buf AP1302_FW_WINDOW_SIZE = fw_blocks 4 pos buf := by
  have h1 : AP1302_FW_WINDOW_SIZE / AP1302_FW_BLOCK_LEN = 4 := by decide
  have h2 : AP1302_FW_WINDOW_SIZE % AP1302_FW_BLOCK_LEN = 0 := by decide
  simp [fw_stream, fw_tail, h1, h2]

/-- The window loop on a bus that does not fail: four full blocks per turn. -/
theorem fw_window_loop_ok (m : Nat) : ∀ (s : ap1302_dev) (buf : List Nat) (pos : Nat)
    (ret : Int), (∀ k, k < 4 * m → (s.bus (s.seq + k)).ret = 0) →
    pos + m * AP1302_FW_WINDOW_SIZE < 2 ^ 32 →
    ap1302_write_fw_window_loop m s buf pos ret
      = (false, (if m = 0 then ret else 0), buf.drop (m * AP1302_FW_WINDOW_SIZE),
         pos + m * AP1302_FW_WINDOW_SIZE,
         { s with seq := s.seq + 4 * m, log := s.log ++ fw_blocks (4 * m) pos buf }) := by
  induction m with
  | zero => intro s buf pos ret _ _; simp [ap1302_write_fw_window_loop, fw_blocks]
  | succ m ih =>
    intro s buf pos ret hbus hlt
    have hw : pos + AP1302_FW_WINDOW_SIZE < 2 ^ 32 := by
      simp only [AP1302_FW_WINDOW_SIZE] at hlt ⊢; omega
    have h3 : pos + AP1302_FW_WINDOW_SIZE + m * AP1302_FW_WINDOW_SIZE < 2 ^ 32 := by
      simp only [AP1302_FW_WINDOW_SIZE] at hlt ⊢; omega
    have hbus1 : ∀ k, k < (fw_stream pos buf AP1302_FW_WINDOW_SIZE).length →
        (s.bus (s.seq + k)).ret = 0 := by
      intro k hk
      rw [fw_stream_window, fw_blocks_length] at hk
      exact hbus k (by omega)
    simp only [ap1302_write_fw_window_loop, fw_block_ok s buf _ pos hbus1 hw, ne_eq,
      not_true_eq_false, if_false, fw_stream_window, fw_blocks_length]
    refine (ih _ _ _ _ ?_ h3).trans ?_
    · intro k hk
      show (s.bus (s.seq + 4 + k)).ret = 0
      rw [Nat.add_assoc]
      exact hbus (4 + k) (by omega)
    · have e0 : 4 * (m + 1) = 4 + 4 * m := by ring
      have e1 : (4 : Nat) * AP1302_FW_BLOCK_LEN = AP1302_FW_WINDOW_SIZE := by decide
      have e2 : AP1302_FW_WINDOW_SIZE + m * AP1302_FW_WINDOW_SIZE
          = (m + 1) * AP1302_FW_WINDOW_SIZE := by ring
      have e3 : pos + AP1302_FW_WINDOW_SIZE + m * AP1302_FW_WINDOW_SIZE
          = pos + (m + 1) * AP1302_FW_WINDOW_SIZE := by ring
      have e4 : s.seq + 4 + 4 * m = s.seq + (4 + 4 * m) := by ring
      rw [e0, fw_blocks_append 4 (4 * m) pos buf, e1]
      simp only [List.drop_drop, List.append_assoc, e2, e3, e4, Nat.add_one_ne_zero, if_false,
        ite_self]

theorem fw_stream_split (pos : Nat) (buf : List Nat) (len : Nat) :
    fw_stream pos buf len
      = fw_blocks (4 * (len / AP1302_FW_WINDOW_SIZE)) pos buf
          ++ fw_stream (pos + len / AP1302_FW_WINDOW_SIZE * AP1302_FW_WINDOW_SIZE)
              (buf.drop (len / AP1302_FW_WINDOW_SIZE * AP1302_FW_WINDOW_SIZE))
              (len % AP1302_FW_WINDOW_SIZE) := by
  have e1 : len / AP1302_FW_BLOCK_LEN
      = 4 * (len / AP1302_FW_WINDOW_SIZE)
        + len % AP1302_FW_WINDOW_SIZE / AP1302_FW_BLOCK_LEN := by
    simp only [AP1302_FW_BLOCK_LEN, AP1302_FW_WINDOW_SIZE]; omega
  have e2 : len % AP1302_FW_WINDOW_SIZE % AP1302_FW_BLOCK_LEN = len % AP1302_FW_BLOCK_LEN := by
    simp only [AP1302_FW_BLOCK_LEN, AP1302_FW_WINDOW_SIZE]; omega
  have e3 : 4 * (len / AP1302_FW_WINDOW_SIZE) * AP1302_FW_BLOCK_LEN
      = len / AP1302_FW_WINDOW_SIZE * AP1302_FW_WINDOW_SIZE := by
    simp only [AP1302_FW_BLOCK_LEN, AP1302_FW_WINDOW_SIZE]; omega
  have e4 : len / AP1302_FW_WINDOW_SIZE * AP1302_FW_WINDOW_SIZE
      + len % AP1302_FW_WINDOW_SIZE / AP1302_FW_BLOCK_LEN * AP1302_FW_BLOCK_LEN
      = len / AP1302_FW_BLOCK_LEN * AP1302_FW_BLOCK_LEN := by
    simp only [AP1302_FW_BLOCK_LEN, AP1302_FW_WINDOW_SIZE]; omega
  simp only [fw_stream, fw_tail, e2, List.drop_drop, Nat.add_assoc, e4]
  rw [← List.append_assoc, ← e3, ← fw_blocks_append, ← e1]

/-- The whole of `ap1302_write_fw_window` on a bus that does not fail. -/
theorem fw_window_ok (s : ap1302_dev) (buf : List Nat) (len pos : Nat)
    (hbus : ∀ k, k < (fw_stream pos buf len).length → (s.bus (s.seq + k)).ret = 0)
    (hlt : pos + len < 2 ^ 32) :
    ap1302_write_fw_window s buf len pos
      = ((if len = 0 then s.uninit_ret else 0), pos + len,
         { s with seq := s.seq + (fw_stream pos buf len).length,
                  log := s.log ++ fw_stream pos buf len }) := by
  have hdm := Nat.div_add_mod len AP1302_FW_WINDOW_SIZE
  have hle : len / AP1302_FW_WINDOW_SIZE * AP1302_FW_WINDOW_SIZE ≤ len :=
    Nat.div_mul_le_self _ _
  have hl : pos + len / AP1302_FW_WINDOW_SIZE * AP1302_FW_WINDOW_SIZE < 2 ^ 32 := by omega
  have hsum : pos + len / AP1302_FW_WINDOW_SIZE * AP1302_FW_WINDOW_SIZE
      + len % AP1302_FW_WINDOW_SIZE = pos + len := by
    simp only [AP1302_FW_WINDOW_SIZE] at hdm ⊢; omega
  have hlen := congrArg List.length (fw_stream_split pos buf len)
  rw [List.length_append, fw_blocks_length] at hlen
  rw [ap1302_write_fw_window,
    fw_window_loop_ok _ s buf pos _ (fun k hk => hbus k (by omega)) hl]
  by_cases h : len % AP1302_FW_WINDOW_SIZE > 0
  · have hne : len ≠ 0 := by
      intro h0; rw [h0] at h; simp at h
    simp only [h, if_true, hne, if_false]
    refine (fw_block_ok _ _ _ _ ?_ (by rw [hsum]; exact hlt)).trans ?_
    · intro k hk
      show (s.bus (s.seq + 4 * (len / AP1302_FW_WINDOW_SIZE) + k)).ret = 0
      rw [Nat.add_assoc]
      exact hbus _ (by omega)
    · rw [hsum, fw_stream_split pos buf len]
      simp [fw_blocks_length, Nat.add_assoc]
  · have h0 : len % AP1302_FW_WINDOW_SIZE = 0 := by omega
    have h3 : pos + len / AP1302_FW_WINDOW_SIZE * AP1302_FW_WINDOW_SIZE = pos + len := by
      rw [← hsum, h0]; rfl
    have h4 : (len / AP1302_FW_WINDOW_SIZE = 0) = (len = 0) := by
      simp only [AP1302_FW_WINDOW_SIZE] at h0 ⊢
      apply propext; constructor <;> intro hh <;> omega
    have h5 : fw_stream (pos + len) (List.drop (len / AP1302_FW_WINDOW_SIZE
        * AP1302_FW_WINDOW_SIZE) buf) 0 = [] := by
      simp [fw_stream, fw_tail, fw_blocks]
    rw [fw_stream_split pos buf len, h0, h3, h5]
    simp [h, h0, h3, h4, fw_blocks_length]

theorem raw_write_pairs_append (l1 l2 : List Event) :
    raw_write_pairs (l1 ++ l2) = raw_write_pairs l1 ++ raw_write_pairs l2 := by
  simp [raw_write_pairs, List.filterMap_append]

theorem raw_write_pairs_blocks (n : Nat) : ∀ (pos : Nat) (buf : List Nat),
    raw_write_pairs (fw_blocks n pos buf)
      = (List.range n).map (fun k =>
          ((pos + k * AP1302_FW_BLOCK_LEN) % AP1302_FW_WINDOW_SIZE + AP1302_FW_WINDOW_OFFSET,
           AP1302_FW_BLOCK_LEN)) := by
  induction n with
  | zero => intro pos buf; simp [fw_blocks, raw_write_pairs]
  | succ n ih =>
    intro pos buf
    have hc : raw_write_pairs (fw_blocks (n + 1) pos buf)
        = (pos % AP1302_FW_WINDOW_SIZE + AP1302_FW_WINDOW_OFFSET, AP1302_FW_BLOCK_LEN)
          :: raw_write_pairs (fw_blocks n (pos + AP1302_FW_BLOCK_LEN)
              (buf.drop AP1302_FW_BLOCK_LEN)) := by
      simp [fw_blocks, raw_write_pairs]
    rw [hc, ih, List.range_succ_eq_map, List.map_cons, List.map_map]
    simp only [Nat.zero_mul, Nat.add_zero, List.cons.injEq, true_and]
    apply List.map_congr_left
    intro k _
    simp only [Function.comp, Nat.succ_eq_add_one]
    congr 2
    ring_nf

theorem raw_write_pairs_stream (buf : List Nat) (L : Nat) :
    raw_write_pairs (fw_stream 0 buf L) = spec_fw_writes L := by
  rw [fw_stream, raw_write_pairs_append, raw_write_pairs_blocks, spec_fw_writes]
  by_cases h : L % AP1302_FW_BLOCK_LEN > 0
  · have h' : L % AP1302_FW_BLOCK_LEN ≠ 0 := by omega
    simp [fw_tail, raw_write_pairs, h, h']
  · have h' : L % AP1302_FW_BLOCK_LEN = 0 := by omega
    simp [fw_tail, raw_write_pairs, h']

theorem spec_fw_writes_length (L : Nat) :
    (spec_fw_writes L).length = (L + AP1302_FW_BLOCK_LEN - 1) / AP1302_FW_BLOCK_LEN := by
  by_cases h : L % AP1302_FW_BLOCK_LEN = 0
  · simp only [spec_fw_writes, h, ne_eq, not_true_eq_false, if_false, List.append_nil,
      List.length_map, List.length_range]
    simp only [AP1302_FW_BLOCK_LEN] at h ⊢; omega
  · simp only [spec_fw_writes, h, ne_eq, not_false_eq_true, if_true, List.length_append,
      List.length_map, List.length_range, List.length_singleton]
    simp only [AP1302_FW_BLOCK_LEN] at h ⊢; omega

theorem spec_fw_writes_in_window (L : Nat) (p : Nat × Nat) (hp : p ∈ spec_fw_writes L) :
    0x8000 ≤ p.1 ∧ p.1 + p.2 - 1 ≤ 0x9FFF ∧ 0 < p.2 ∧ p.2 ≤ AP1302_FW_BLOCK_LEN := by
  simp only [spec_fw_writes, List.mem_append, List.mem_map, List.mem_range] at hp
  rcases hp with ⟨k, _, rfl⟩ | hp
  · simp only [AP1302_FW_BLOCK_LEN, AP1302_FW_WINDOW_SIZE, AP1302_FW_WINDOW_OFFSET]
    omega
  · by_cases h : L % AP1302_FW_BLOCK_LEN = 0
    · simp [h] at hp
    · simp only [h, ne_eq, not_false_eq_true, if_true, List.mem_singleton] at hp
      subst hp
      simp only [AP1302_FW_BLOCK_LEN, AP1302_FW_WINDOW_SIZE, AP1302_FW_WINDOW_OFFSET] at h ⊢
      omega

/-- C7: a firmware body of `L > 0` bytes streamed by `ap1302_write_fw_window`
from cursor 0 on a bus that never fails. The call returns 0 and appends to
the log block writes only, whose `(address, length)` pairs are, in order,
`((k * B) mod W + base, B)` for `k < L / B` followed, when `L mod B` is not
zero, by `((L / B * B) mod W + base, L mod B)`, with `W = 0x2000`,
`B = 0x800`, `base = 0x8000`. There are `ceil (L / B)` writes and each lies
inside the window `[0x8000, 0x9FFF]`. -/
theorem C7_fw_window_stream (s : ap1302_dev) (buf : List Nat) (L : Nat)
    (hL : 0 < L) (h32 : L < 2 ^ 32) (hbus : ∀ k, (s.bus k).ret = 0) :
    (ap1302_write_fw_window s buf L 0).1 = 0 ∧
    (ap1302_write_fw_window s buf L 0).2.2.log = s.log ++ fw_stream 0 buf L ∧
    (fw_stream 0 buf L).length = (spec_fw_writes L).length ∧
    raw_write_pairs ((ap1302_write_fw_window s buf L 0).2.2.log.drop s.log.length)
      = spec_fw_writes L ∧
    spec_fw_writes L
      = (List.range (L / 0x800)).map (fun k => ((k * 0x800) % 0x2000 + 0x8000, 0x800))
        ++ (if L % 0x800 ≠ 0 then [((L / 0x800 * 0x800) % 0x2000 + 0x8000, L % 0x800)] else []) ∧
    (spec_fw_writes L).length = (L + 0x800 - 1) / 0x800 ∧
    (∀ p ∈ spec_fw_writes L, 0x8000 ≤ p.1 ∧ p.1 + p.2 - 1 ≤ 0x9FFF ∧ 0 < p.2) := by
  have hw := fw_window_ok s buf L 0 (fun k _ => hbus _) (by omega)
  have hne : L ≠ 0 := by omega
  refine ⟨by rw [hw]; simp [hne], by rw [hw], ?_, ?_, rfl, spec_fw_writes_length L, ?_⟩
  · rw [fw_stream_length]
    by_cases h : L % AP1302_FW_BLOCK_LEN = 0
    · simp [spec_fw_writes, h]
    · have h' : L % AP1302_FW_BLOCK_LEN > 0 := by omega
      simp [spec_fw_writes, h, h']
  · rw [hw]
    simp only [List.drop_left]
    exact raw_write_pairs_stream buf L
  · intro p hp
    obtain ⟨h1, h2, h3, _⟩ := spec_fw_writes_in_window L p hp
    exact ⟨h1, h2, h3⟩

/-- C7 at a body of `0x2805` bytes: five full blocks, the fifth wrapped back
to the start of the window, and a last write of 5 bytes. -/
theorem C7_fw_window_stream_witness :
    raw_write_pairs ((ap1302_write_fw_window {} (List.replicate 0x2805 0xAB) 0x2805 0).2.2.log.drop
        ({} : ap1302_dev).log.length)
      = [(0x8000, 0x800), (0x8800, 0x800), (0x9000, 0x800), (0x9800, 0x800),
         (0x8000, 0x800), (0x8800, 5)] :=
  (C7_fw_window_stream {} (List.replicate 0x2805 0xAB) 0x2805 (by decide) (by decide)
    (fun _ => rfl)).2.2.2.1.trans (by decide)

/-! ## C8: validation of the firmware blob -/

/-- The body length is the unsigned 32-bit difference of the blob length and
the header length. -/
theorem fw_body_size_eq (size : Nat) :
    fw_body_size size = (size + 2 ^ 32 - FW_HEADER_SIZE) % 2 ^ 32 := by
  simp only [fw_body_size, u32, FW_HEADER_SIZE]; split_ifs <;> omega

theorem fw_body_size_lt (size : Nat) : fw_body_size size < 2 ^ 32 := by
  rw [fw_body_size_eq]; exact Nat.mod_lt _ (by norm_num)

/-- For a blob at least as long as the header, the check of
`ap1302_request_firmware` accepts exactly when `pll_init_size` is at most
the length of the body. -/
theorem firmware_check_long (n pll : Nat) (h4 : 4 ≤ n) (h32 : n < 2 ^ 32 + 4) :
    ap1302_firmware_check n pll = 0 ↔ pll ≤ n - 4 := by
  have hE : EINVAL ≠ 0 := by decide
  have hb : fw_body_size n = n - 4 := by
    rw [fw_body_size_eq]; simp only [FW_HEADER_SIZE]; omega
  by_cases h : pll ≤ n - 4
  · simp [ap1302_firmware_check, hb, h, Nat.not_lt.mpr h]
  · simp [ap1302_firmware_check, hb, h, Nat.lt_of_not_le h, hE]

/-- For a blob shorter than the header the unsigned subtraction wraps, and
the check accepts every 16-bit `pll_init_size`. -/
theorem firmware_check_short (n pll : Nat) (h4 : n < 4) (hp : pll < 2 ^ 16) :
    ap1302_firmware_check n pll = 0 := by
  have hb : fw_body_size n = 2 ^ 32 - 4 + n := by
    rw [fw_body_size_eq]; simp only [FW_HEADER_SIZE]; omega
  have : ¬ fw_body_size n < pll := by rw [hb]; omega
  simp [ap1302_firmware_check, this]

/-- C8 (code defect): a blob of 2 bytes, shorter than the 4-byte header, is
accepted by `ap1302_request_firmware`: the body length `2 - 4` wraps to
`4294967294` as an `unsigned int`, so no `pll_init_size` exceeds it. -/
theorem C8_short_blob_accepted :
    fw_body_size 2 = 4294967294 ∧
    ap1302_firmware_check 2 0 = 0 ∧
    (ap1302_request_firmware { firmware_blob := [0, 0] }).1 = 0 ∧
    (ap1302_request_firmware { firmware_blob := [0, 0] }).2.fw = [0, 0] := by
  decide

/-! ## C9: the retryable error of a load attempt -/

theorem nat_or_eq_zero (a b : Nat) : a ||| b = 0 ↔ a = 0 ∧ b = 0 := by
  constructor
  · intro h
    have ht : ∀ i, (a.testBit i || b.testBit i) = false := fun i => by
      rw [← Nat.testBit_or, h, Nat.zero_testBit]
    constructor <;> apply Nat.eq_of_testBit_eq <;> intro i <;> have := ht i <;> simp_all
  · rintro ⟨rfl, rfl⟩; rfl

theorem lor_eq_zero (a b : Int) : Int.lor a b = 0 ↔ a = 0 ∧ b = 0 := by
  cases a <;> cases b <;> simp [Int.lor]
  exact nat_or_eq_zero _ _

/-- A read of valid width on a bus that does not fail returns 0. -/
theorem read_ok (s : ap1302_dev) (reg : Nat) (hbus : ∀ k, (s.bus k).ret = 0)
    (hreg : reg < 2 ^ 32) (hsz : AP1302_REG_SIZE reg = 2 ∨ AP1302_REG_SIZE reg = 4) :
    (ap1302_read s reg).1 = 0 ∧ (ap1302_read s reg).2.2.bus = s.bus := by
  have hb := hbus s.seq
  have hb1 := hbus (s.seq + 1)
  have hsz2 := adv_reg_size reg hreg
  by_cases h0 : AP1302_REG_PAGE reg = 0 <;> by_cases hp : s.reg_page = AP1302_REG_PAGE reg <;>
    rcases hsz with h | h <;>
    simp [ap1302_read, __ap1302_read, regmap_read, write_advanced_base, regmap_write, h0, hp, h,
      hsz2, hb, hb1]

/-- A write of valid width, without accumulator, on a bus that does not fail
returns 0. -/
theorem write_ok (s : ap1302_dev) (reg val : Nat) (hbus : ∀ k, (s.bus k).ret = 0)
    (hreg : reg < 2 ^ 32) (hsz : AP1302_REG_SIZE reg = 2 ∨ AP1302_REG_SIZE reg = 4) :
    (ap1302_write s reg val none).1 = 0 ∧ (ap1302_write s reg val none).2.2.bus = s.bus := by
  have hb := hbus s.seq
  have hb1 := hbus (s.seq + 1)
  have hsz2 := adv_reg_size reg hreg
  by_cases h0 : AP1302_REG_PAGE reg = 0 <;> by_cases hp : s.reg_page = AP1302_REG_PAGE reg <;>
    rcases hsz with h | h <;>
    simp [ap1302_write, __ap1302_write, ap1302_write_done, err_pending, regmap_write,
      advanced_base_size, advanced_base_addr, h0, hp, h, hsz2, hb, hb1]

/-- On a bus that does not fail the MIPI timing adjustment returns 0. -/
theorem set_mipi_t3_clk_ok (s : ap1302_dev) (hbus : ∀ k, (s.bus k).ret = 0) :
    (ap1302_set_mipi_t3_clk s).1 = 0 := by
  have hr := read_ok s AP1302_ADV_HINF_MIPI_T3 hbus (by decide) (Or.inr (by decide))
  have hw := write_ok (ap1302_read s AP1302_ADV_HINF_MIPI_T3).2.2 AP1302_ADV_HINF_MIPI_T3
    (mipi_t3_update (ap1302_read s AP1302_ADV_HINF_MIPI_T3).2.1)
    (by rw [hr.2]; exact hbus) (by decide) (Or.inr (by decide))
  simp [ap1302_set_mipi_t3_clk, hr.1, hw.1]

theorem bootdata_stage_write (s : ap1302_dev) :
    ap1302_write s AP1302_BOOTDATA_STAGE 0xffff none
      = ((s.bus s.seq).ret, none,
         { s with seq := s.seq + 1,
                  log := s.log ++ [Event.regmap_write Chan.regmap16 0x6002 0xffff] }) := by
  have b1 : AP1302_REG_PAGE AP1302_BOOTDATA_STAGE = 0 := by decide
  have b2 : AP1302_REG_SIZE AP1302_BOOTDATA_STAGE = 2 := by decide
  have b3 : AP1302_REG_ADDR AP1302_BOOTDATA_STAGE = 0x6002 := by decide
  simp [ap1302_write, __ap1302_write, ap1302_write_done, err_pending, regmap_write, b1, b2, b3]

theorem sip_checksum_read (s : ap1302_dev) :
    ap1302_read s AP1302_SIP_CHECKSUM
      = ((s.bus s.seq).ret,
         (if (s.bus s.seq).ret = 0 then (s.bus s.seq).val % 2 ^ 16 else 0),
         { s with seq := s.seq + 1,
                  log := s.log ++ [Event.regmap_read Chan.regmap16 0x6134] }) := by
  have c1 : AP1302_REG_PAGE AP1302_SIP_CHECKSUM = 0 := by decide
  have c2 : AP1302_REG_SIZE AP1302_SIP_CHECKSUM = 2 := by decide
  have c3 : AP1302_REG_ADDR AP1302_SIP_CHECKSUM = 0x6134 := by decide
  simp [ap1302_read, __ap1302_read, regmap_read, c1, c2, c3, Chan.val_bits]

/-- A load attempt whose streaming writes, `BOOTDATA_STAGE` write and
`SIP_CHECKSUM` read all succeed: the result is decided by the checksum. -/
theorem load_firmware_checked (s : ap1302_dev) (hL : 0 < fw_body_size s.fw.length)
    (hstream : ∀ k, k < fw_stream_count s → (s.bus (s.seq + k)).ret = 0)
    (hboot : (s.bus (s.seq + fw_stream_count s)).ret = 0)
    (hsum : (s.bus (s.seq + fw_stream_count s + 1)).ret = 0) :
    ap1302_load_firmware s
      = (if (s.bus (s.seq + fw_stream_count s + 1)).val % 2 ^ 16 ≠ 0xffff then
          (-EAGAIN,
           { s with seq := s.seq + fw_stream_count s + 1 + 1,
                    log := s.log
                      ++ fw_stream 0 (s.fw.drop FW_HEADER_SIZE) (fw_body_size s.fw.length)
                      ++ [Event.regmap_write Chan.regmap16 0x6002 0xffff]
                      ++ [Event.regmap_read Chan.regmap16 0x6134] })
        else
          ap1302_set_mipi_t3_clk
           { s with seq := s.seq + fw_stream_count s + 1 + 1,
                    log := s.log
                      ++ fw_stream 0 (s.fw.drop FW_HEADER_SIZE) (fw_body_size s.fw.length)
                      ++ [Event.regmap_write Chan.regmap16 0x6002 0xffff]
                      ++ [Event.regmap_read Chan.regmap16 0x6134] }) := by
  have h32 : 0 + fw_body_size s.fw.length < 2 ^ 32 := by
    have := fw_body_size_lt s.fw.length; omega
  have hne : fw_body_size s.fw.length ≠ 0 := by omega
  have hw := fw_window_ok s (s.fw.drop FW_HEADER_SIZE) (fw_body_size s.fw.length) 0 hstream h32
  have hl : Int.lor 0 0 = 0 := by decide
  unfold fw_stream_count at hboot hsum ⊢
  rw [if_neg hne] at hw
  rw [ap1302_load_firmware]
  dsimp only
  rw [hw]
  dsimp only
  rw [if_neg (by decide : ¬ ((0 : Int) ≠ 0))]
  rw [bootdata_stage_write, sip_checksum_read]
  dsimp only
  rw [hboot, hsum, hl, if_neg (by decide : ¬ ((0 : Int) ≠ 0)), if_pos (rfl : (0 : Int) = 0)]

/-- The block loop when its write number `j` is the first that fails: the
loop returns the code of that write, which is its last bus transaction. -/
theorem fw_block_loop_fail (n : Nat) : ∀ (s : ap1302_dev) (buf : List Nat) (pos j : Nat),
    j < n → (∀ k, k < j → (s.bus (s.seq + k)).ret = 0) → (s.bus (s.seq + j)).ret ≠ 0 →
    (ap1302_write_fw_block_loop n s buf pos).1 = some (s.bus (s.seq + j)).ret ∧
    (ap1302_write_fw_block_loop n s buf pos).2.2.2.seq = s.seq + j + 1 ∧
    (ap1302_write_fw_block_loop n s buf pos).2.2.2.bus = s.bus := by
  induction n with
  | zero => intro s buf pos j hj; omega
  | succ n ih =>
    intro s buf pos j hj hok hfail
    rw [ap1302_write_fw_block_loop]
    cases j with
    | zero =>
      have hf : (regmap_raw_write s Chan.regmap16
          (u32 (pos % AP1302_FW_WINDOW_SIZE + AP1302_FW_WINDOW_OFFSET)) buf
          AP1302_FW_BLOCK_LEN).1 ≠ 0 := hfail
      rw [if_pos hf]
      exact ⟨rfl, rfl, rfl⟩
    | succ j =>
      have h0 : (s.bus s.seq).ret = 0 := hok 0 (by omega)
      have hf : ¬ (regmap_raw_write s Chan.regmap16
          (u32 (pos % AP1302_FW_WINDOW_SIZE + AP1302_FW_WINDOW_OFFSET)) buf
          AP1302_FW_BLOCK_LEN).1 ≠ 0 := fun h => h h0
      rw [if_neg hf]
      have e : s.seq + (j + 1) = s.seq + 1 + j := by omega
      have := ih (regmap_raw_write s Chan.regmap16
          (u32 (pos % AP1302_FW_WINDOW_SIZE + AP1302_FW_WINDOW_OFFSET)) buf
          AP1302_FW_BLOCK_LEN).2 (buf.drop AP1302_FW_BLOCK_LEN)
          (u32 (pos + AP1302_FW_BLOCK_LEN)) j (by omega)
          (fun k hk => by
            show (s.bus (s.seq + 1 + k)).ret = 0
            rw [Nat.add_assoc]; exact hok (1 + k) (by omega))
          (by
            show (s.bus (s.seq + 1 + j)).ret ≠ 0
            rw [← e]; exact hfail)
      rw [e]
      refine ⟨this.1, ?_, this.2.2⟩
      rw [this.2.1]
      rfl

/-- One call of `ap1302_write_fw_block` when its write number `j` is the
first that fails. -/
theorem fw_block_fail (s : ap1302_dev) (buf : List Nat) (len pos j : Nat)
    (hj : j < (fw_stream pos buf len).length)
    (hok : ∀ k, k < j → (s.bus (s.seq + k)).ret = 0) (hfail : (s.bus (s.seq + j)).ret ≠ 0)
    (hlt : pos + len < 2 ^ 32) :
    (ap1302_write_fw_block s buf len pos).1 = (s.bus (s.seq + j)).ret ∧
    (ap1302_write_fw_block s buf len pos).2.2.seq = s.seq + j + 1 ∧
    (ap1302_write_fw_block s buf len pos).2.2.bus = s.bus := by
  rw [fw_stream_length] at hj
  by_cases c : j < len / AP1302_FW_BLOCK_LEN
  · have h := fw_block_loop_fail _ s buf pos j c hok hfail
    rw [ap1302_write_fw_block]
    dsimp only
    generalize ap1302_write_fw_block_loop (len / AP1302_FW_BLOCK_LEN) s buf pos = r at h
    obtain ⟨r1, r2, r3, r4⟩ := r
    obtain ⟨h1, h2, h3⟩ := h
    simp only at h1 h2 h3
    subst h1
    exact ⟨rfl, h2, h3⟩
  · have hrem : len % AP1302_FW_BLOCK_LEN > 0 := by
      by_contra hc
      rw [if_neg hc] at hj
      omega
    rw [if_pos hrem] at hj
    have hjn : j = len / AP1302_FW_BLOCK_LEN := by omega
    subst hjn
    have hl : pos + len / AP1302_FW_BLOCK_LEN * AP1302_FW_BLOCK_LEN < 2 ^ 32 := by
      have : len / AP1302_FW_BLOCK_LEN * AP1302_FW_BLOCK_LEN ≤ len := Nat.div_mul_le_self _ _
      omega
    rw [ap1302_write_fw_block, fw_block_loop_ok _ s buf pos hok hl]
    dsimp only
    rw [if_pos hrem]
    have hf : (regmap_raw_write
        { s with seq := s.seq + len / AP1302_FW_BLOCK_LEN,
                 log := s.log ++ fw_blocks (len / AP1302_FW_BLOCK_LEN) pos buf } Chan.regmap16
        (u32 ((pos + len / AP1302_FW_BLOCK_LEN * AP1302_FW_BLOCK_LEN) % AP1302_FW_WINDOW_SIZE
          + AP1302_FW_WINDOW_OFFSET))
        (buf.drop (len / AP1302_FW_BLOCK_LEN * AP1302_FW_BLOCK_LEN))
        (len % AP1302_FW_BLOCK_LEN)).1 ≠ 0 := hfail
    rw [if_pos hf]
    exact ⟨rfl, rfl, rfl⟩

/-- The window loop when its write number `j` is the first that fails. -/
theorem fw_window_loop_fail (m : Nat) : ∀ (s : ap1302_dev) (buf : List Nat) (pos : Nat)
    (ret : Int) (j : Nat), j < 4 * m → (∀ k, k < j → (s.bus (s.seq + k)).ret = 0) →
    (s.bus (s.seq + j)).ret ≠ 0 → pos + m * AP1302_FW_WINDOW_SIZE < 2 ^ 32 →
    (ap1302_write_fw_window_loop m s buf pos ret).1 = true ∧
    (ap1302_write_fw_window_loop m s buf pos ret).2.1 = (s.bus (s.seq + j)).ret ∧
    (ap1302_write_fw_window_loop m s buf pos ret).2.2.2.2.seq = s.seq + j + 1 ∧
    (ap1302_write_fw_window_loop m s buf pos ret).2.2.2.2.bus = s.bus := by
  induction m with
  | zero => intro s buf pos ret j hj; omega
  | succ m ih =>
    intro s buf pos ret j hj hok hfail hlt
    have hw : pos + AP1302_FW_WINDOW_SIZE < 2 ^ 32 := by
      simp only [AP1302_FW_WINDOW_SIZE] at hlt ⊢; omega
    have h3 : pos + AP1302_FW_WINDOW_SIZE + m * AP1302_FW_WINDOW_SIZE < 2 ^ 32 := by
      simp only [AP1302_FW_WINDOW_SIZE] at hlt ⊢; omega
    have hlen : (fw_stream pos buf AP1302_FW_WINDOW_SIZE).length = 4 := by
      rw [fw_stream_window, fw_blocks_length]
    rw [ap1302_write_fw_window_loop]
    by_cases c : j < 4
    · have h := fw_block_fail s buf AP1302_FW_WINDOW_SIZE pos j (by rw [hlen]; exact c) hok hfail hw
      have hne : (ap1302_write_fw_block s buf AP1302_FW_WINDOW_SIZE pos).1 ≠ 0 := by
        rw [h.1]; exact hfail
      rw [if_pos hne]
      exact ⟨rfl, h.1, h.2.1, h.2.2⟩
    · have hbus1 : ∀ k, k < (fw_stream pos buf AP1302_FW_WINDOW_SIZE).length →
          (s.bus (s.seq + k)).ret = 0 := by
        intro k hk
        rw [hlen] at hk
        exact hok k (by omega)
      rw [fw_block_ok s buf _ pos hbus1 hw, hlen]
      dsimp only
      rw [if_neg (by decide : ¬ ((0 : Int) ≠ 0))]
      have e : s.seq + j = s.seq + 4 + (j - 4) := by omega
      have := ih { s with seq := s.seq + 4,
                          log := s.log ++ fw_stream pos buf AP1302_FW_WINDOW_SIZE }
        (buf.drop AP1302_FW_WINDOW_SIZE) (pos + AP1302_FW_WINDOW_SIZE) 0 (j - 4) (by omega)
        (fun k hk => by
          show (s.bus (s.seq + 4 + k)).ret = 0
          rw [Nat.add_assoc]; exact hok (4 + k) (by omega))
        (by
          show (s.bus (s.seq + 4 + (j - 4))).ret ≠ 0
          rw [← e]; exact hfail) h3
      rw [e]
      exact ⟨this.1, this.2.1, this.2.2.1, this.2.2.2⟩

/-- The whole of `ap1302_write_fw_window` when its write number `j` is the
first that fails: the code of that write is returned and the write is the
last bus transaction. -/
theorem fw_window_fail (s : ap1302_dev) (buf : List Nat) (len pos j : Nat)
    (hj : j < (fw_stream pos buf len).length)
    (hok : ∀ k, k < j → (s.bus (s.seq + k)).ret = 0) (hfail : (s.bus (s.seq + j)).ret ≠ 0)
    (hlt : pos + len < 2 ^ 32) :
    (ap1302_write_fw_window s buf len pos).1 = (s.bus (s.seq + j)).ret ∧
    (ap1302_write_fw_window s buf len pos).2.2.seq = s.seq + j + 1 ∧
    (ap1302_write_fw_window s buf len pos).2.2.bus = s.bus := by
  have hdm := Nat.div_add_mod len AP1302_FW_WINDOW_SIZE
  have hle : len / AP1302_FW_WINDOW_SIZE * AP1302_FW_WINDOW_SIZE ≤ len :=
    Nat.div_mul_le_self _ _
  have hl : pos + len / AP1302_FW_WINDOW_SIZE * AP1302_FW_WINDOW_SIZE < 2 ^ 32 := by omega
  have hsum : pos + len / AP1302_FW_WINDOW_SIZE * AP1302_FW_WINDOW_SIZE
      + len % AP1302_FW_WINDOW_SIZE = pos + len := by
    simp only [AP1302_FW_WINDOW_SIZE] at hdm ⊢; omega
  have hlen := congrArg List.length (fw_stream_split pos buf len)
  rw [List.length_append, fw_blocks_length] at hlen
  by_cases c : j < 4 * (len / AP1302_FW_WINDOW_SIZE)
  · have h := fw_window_loop_fail _ s buf pos s.uninit_ret j c hok hfail hl
    rw [ap1302_write_fw_window]
    generalize ap1302_write_fw_window_loop (len / AP1302_FW_WINDOW_SIZE) s buf pos s.uninit_ret
      = r at h
    obtain ⟨r1, r2, r3, r4, r5⟩ := r
    obtain ⟨h1, h2, h3, h4⟩ := h
    simp only at h1 h2 h3 h4
    subst h1
    exact ⟨h2, h3, h4⟩
  · rw [ap1302_write_fw_window,
      fw_window_loop_ok _ s buf pos _ (fun k hk => hok k (by omega)) hl]
    dsimp only
    have hrem : len % AP1302_FW_WINDOW_SIZE > 0 := by
      by_contra hc
      have h0 : len % AP1302_FW_WINDOW_SIZE = 0 := by omega
      rw [h0] at hlen
      have : (fw_stream (pos + len / AP1302_FW_WINDOW_SIZE * AP1302_FW_WINDOW_SIZE)
          (buf.drop (len / AP1302_FW_WINDOW_SIZE * AP1302_FW_WINDOW_SIZE)) 0).length = 0 := by
        simp [fw_stream, fw_tail, fw_blocks]
      omega
    rw [if_pos hrem]
    have e : s.seq + j = s.seq + 4 * (len / AP1302_FW_WINDOW_SIZE)
        + (j - 4 * (len / AP1302_FW_WINDOW_SIZE)) := by omega
    have := fw_block_fail
      { s with seq := s.seq + 4 * (len / AP1302_FW_WINDOW_SIZE),
               log := s.log ++ fw_blocks (4 * (len / AP1302_FW_WINDOW_SIZE)) pos buf }
      (buf.drop (len / AP1302_FW_WINDOW_SIZE * AP1302_FW_WINDOW_SIZE))
      (len % AP1302_FW_WINDOW_SIZE)
      (pos + len / AP1302_FW_WINDOW_SIZE * AP1302_FW_WINDOW_SIZE)
      (j - 4 * (len / AP1302_FW_WINDOW_SIZE)) (by omega)
      (fun k hk => by
        show (s.bus (s.seq + 4 * (len / AP1302_FW_WINDOW_SIZE) + k)).ret = 0
        rw [Nat.add_assoc]; exact hok _ (by omega))
      (by
        show (s.bus (s.seq + 4 * (len / AP1302_FW_WINDOW_SIZE)
          + (j - 4 * (len / AP1302_FW_WINDOW_SIZE)))).ret ≠ 0
        rw [← e]; exact hfail)
      (by rw [hsum]; exact hlt)
    rw [e]
    refine ⟨this.1, ?_, this.2.2⟩
    rw [this.2.1]


/-- A load attempt whose streaming returns 0, every streaming write having
succeeded: the `BOOTDATA_STAGE` write and the `SIP_CHECKSUM` read are both
issued, and the result is the bitwise or of their codes when that is not 0,
else it is decided by the checksum. For a blob without a body the streaming
returns the indeterminate value `uninit_ret`, here 0. -/
theorem load_firmware_streamed (s : ap1302_dev)
    (hS : fw_body_size s.fw.length = 0 → s.uninit_ret = 0)
    (hstream : ∀ k, k < fw_stream_count s → (s.bus (s.seq + k)).ret = 0) :
    ap1302_load_firmware s
      = (if Int.lor (s.bus (s.seq + fw_stream_count s)).ret
            (s.bus (s.seq + fw_stream_count s + 1)).ret ≠ 0 then
          (Int.lor (s.bus (s.seq + fw_stream_count s)).ret
            (s.bus (s.seq + fw_stream_count s + 1)).ret, fw_loaded_session s)
        else if (if (s.bus (s.seq + fw_stream_count s + 1)).ret = 0 then
            (s.bus (s.seq + fw_stream_count s + 1)).val % 2 ^ 16 else 0) ≠ 0xffff then
          (-EAGAIN, fw_loaded_session s)
        else ap1302_set_mipi_t3_clk (fw_loaded_session s)) := by
  have h32 : 0 + fw_body_size s.fw.length < 2 ^ 32 := by
    have := fw_body_size_lt s.fw.length; omega
  have hw := fw_window_ok s (s.fw.drop FW_HEADER_SIZE) (fw_body_size s.fw.length) 0 hstream h32
  have hz : (if fw_body_size s.fw.length = 0 then s.uninit_ret else 0) = 0 := by
    by_cases h0 : fw_body_size s.fw.length = 0
    · rw [if_pos h0]; exact hS h0
    · rw [if_neg h0]
  unfold fw_loaded_session fw_stream_count
  rw [hz] at hw
  rw [ap1302_load_firmware]
  dsimp only
  rw [hw]
  dsimp only
  rw [if_neg (by decide : ¬ ((0 : Int) ≠ 0))]
  rw [bootdata_stage_write, sip_checksum_read]

/-- A load attempt on a blob without a body, when the indeterminate value
`uninit_ret` that `ap1302_write_fw_window` returns is not 0: the value is
returned and no bus transaction is issued. -/
theorem load_firmware_empty (s : ap1302_dev) (h0 : fw_body_size s.fw.length = 0)
    (hu : s.uninit_ret ≠ 0) :
    (ap1302_load_firmware s).1 = s.uninit_ret ∧
    (ap1302_load_firmware s).2.log = s.log ∧ (ap1302_load_firmware s).2.seq = s.seq := by
  have hlen : (fw_stream 0 (s.fw.drop FW_HEADER_SIZE) (fw_body_size s.fw.length)).length = 0 := by
    rw [h0]; simp [fw_stream, fw_tail, fw_blocks]
  have hnil := List.eq_nil_of_length_eq_zero hlen
  have hw := fw_window_ok s (s.fw.drop FW_HEADER_SIZE) (fw_body_size s.fw.length) 0
    (fun k hk => by rw [hlen] at hk; omega) (by rw [h0]; decide)
  rw [if_pos h0, hlen, hnil] at hw
  rw [ap1302_load_firmware]
  dsimp only
  rw [hw]
  dsimp only
  rw [if_pos hu]
  exact ⟨rfl, List.append_nil _, rfl⟩

/-- A load attempt whose streaming write number `j` is the first that fails:
the code of that write is returned, and the write is the last bus
transaction of the attempt. -/
theorem load_firmware_stream_failure (s : ap1302_dev) (j : Nat) (hj : j < fw_stream_count s)
    (hok : ∀ k, k < j → (s.bus (s.seq + k)).ret = 0) (hfail : (s.bus (s.seq + j)).ret ≠ 0) :
    (ap1302_load_firmware s).1 = (s.bus (s.seq + j)).ret ∧
    (ap1302_load_firmware s).2.seq = s.seq + j + 1 := by
  have h32 : 0 + fw_body_size s.fw.length < 2 ^ 32 := by
    have := fw_body_size_lt s.fw.length; omega
  have h := fw_window_fail s (s.fw.drop FW_HEADER_SIZE) (fw_body_size s.fw.length) 0 j hj hok
    hfail h32
  have hne : (ap1302_write_fw_window s (s.fw.drop FW_HEADER_SIZE)
      (fw_body_size s.fw.length) 0).1 ≠ 0 := by
    rw [h.1]; exact hfail
  rw [ap1302_load_firmware]
  dsimp only
  rw [if_pos hne]
  exact ⟨h.1, h.2.1⟩


/-- C9 (amended): the result of `ap1302_load_firmware`, for every firmware
blob and every bus behaviour, where a failing transaction may return any
code but 0. For a blob of the length of the header, `ap1302_write_fw_window`
returns its local `ret` without having written it; if that indeterminate
value is not 0, it is returned and no bus transaction is issued. In every
other case: if a streaming write fails, the code of the first one that fails
is returned and that write is the last bus transaction. Otherwise the
`BOOTDATA_STAGE` write and the `SIP_CHECKSUM` read are both issued, and if
the bitwise or of their two codes is not 0 it is returned. Otherwise, if the
checksum read differs from `0xFFFF`, `-EAGAIN` is returned and the checksum
read is the last bus transaction; else the result is that of
`ap1302_set_mipi_t3_clk`. So `-EAGAIN` is returned exactly when one of these
four values is `-EAGAIN`, and on a bus none of whose transactions fails
exactly when the checksum read differs from `0xFFFF`. -/
theorem C9_checksum_mismatch_retryable (s : ap1302_dev) :
    (fw_body_size s.fw.length = 0 → s.uninit_ret ≠ 0 →
      (ap1302_load_firmware s).1 = s.uninit_ret ∧
      (ap1302_load_firmware s).2.log = s.log ∧ (ap1302_load_firmware s).2.seq = s.seq) ∧
    ((fw_body_size s.fw.length = 0 → s.uninit_ret = 0) →
      ((∀ k, k < fw_stream_count s → (s.bus (s.seq + k)).ret = 0) →
        (s.bus (s.seq + fw_stream_count s)).ret = 0 →
        (s.bus (s.seq + fw_stream_count s + 1)).ret = 0 →
        (s.bus (s.seq + fw_stream_count s + 1)).val % 2 ^ 16 ≠ 0xffff →
        (ap1302_load_firmware s).1 = -EAGAIN ∧
        (ap1302_load_firmware s).2.log
          = s.log ++ fw_stream 0 (s.fw.drop FW_HEADER_SIZE) (fw_body_size s.fw.length)
              ++ [Event.regmap_write Chan.regmap16 0x6002 0xffff]
              ++ [Event.regmap_read Chan.regmap16 0x6134] ∧
        (ap1302_load_firmware s).2.seq = s.seq + fw_stream_count s + 2) ∧
      (∀ j, j < fw_stream_count s → (∀ k, k < j → (s.bus (s.seq + k)).ret = 0) →
        (s.bus (s.seq + j)).ret ≠ 0 →
        (ap1302_load_firmware s).1 = (s.bus (s.seq + j)).ret ∧
        (ap1302_load_firmware s).2.seq = s.seq + j + 1) ∧
      ((∀ k, k < fw_stream_count s → (s.bus (s.seq + k)).ret = 0) →
        Int.lor (s.bus (s.seq + fw_stream_count s)).ret
          (s.bus (s.seq + fw_stream_count s + 1)).ret ≠ 0 →
        ap1302_load_firmware s
          = (Int.lor (s.bus (s.seq + fw_stream_count s)).ret
              (s.bus (s.seq + fw_stream_count s + 1)).ret, fw_loaded_session s)) ∧
      ((∀ k, k < fw_stream_count s → (s.bus (s.seq + k)).ret = 0) →
        (s.bus (s.seq + fw_stream_count s)).ret = 0 →
        (s.bus (s.seq + fw_stream_count s + 1)).ret = 0 →
        (s.bus (s.seq + fw_stream_count s + 1)).val % 2 ^ 16 = 0xffff →
        ap1302_load_firmware s = ap1302_set_mipi_t3_clk (fw_loaded_session s)) ∧
      ((ap1302_load_firmware s).1 = -EAGAIN ↔
        ((∃ j, j < fw_stream_count s ∧ (∀ k, k < j → (s.bus (s.seq + k)).ret = 0) ∧
            (s.bus (s.seq + j)).ret = -EAGAIN) ∨
         ((∀ k, k < fw_stream_count s → (s.bus (s.seq + k)).ret = 0) ∧
            Int.lor (s.bus (s.seq + fw_stream_count s)).ret
              (s.bus (s.seq + fw_stream_count s + 1)).ret = -EAGAIN) ∨
         ((∀ k, k < fw_stream_count s → (s.bus (s.seq + k)).ret = 0) ∧
            (s.bus (s.seq + fw_stream_count s)).ret = 0 ∧
            (s.bus (s.seq + fw_stream_count s + 1)).ret = 0 ∧
            (s.bus (s.seq + fw_stream_count s + 1)).val % 2 ^ 16 ≠ 0xffff) ∨
         ((∀ k, k < fw_stream_count s → (s.bus (s.seq + k)).ret = 0) ∧
            (s.bus (s.seq + fw_stream_count s)).ret = 0 ∧
            (s.bus (s.seq + fw_stream_count s + 1)).ret = 0 ∧
            (s.bus (s.seq + fw_stream_count s + 1)).val % 2 ^ 16 = 0xffff ∧
            (ap1302_set_mipi_t3_clk (fw_loaded_session s)).1 = -EAGAIN))) ∧
      ((∀ k, (s.bus k).ret = 0) →
        ((ap1302_load_firmware s).1 = -EAGAIN ↔
          (s.bus (s.seq + fw_stream_count s + 1)).val % 2 ^ 16 ≠ 0xffff))) := by
  refine ⟨load_firmware_empty s, ?_⟩
  intro hS
  have hA : -EAGAIN ≠ (0 : Int) := by decide
  have hl0 : Int.lor 0 0 = 0 := by decide
  -- the three cases of a load attempt whose streaming writes succeed
  have hfailc : (∀ k, k < fw_stream_count s → (s.bus (s.seq + k)).ret = 0) →
      Int.lor (s.bus (s.seq + fw_stream_count s)).ret
        (s.bus (s.seq + fw_stream_count s + 1)).ret ≠ 0 →
      ap1302_load_firmware s
        = (Int.lor (s.bus (s.seq + fw_stream_count s)).ret
            (s.bus (s.seq + fw_stream_count s + 1)).ret, fw_loaded_session s) := by
    intro hstream hne
    rw [load_firmware_streamed s hS hstream, if_pos hne]
  have hmis : (∀ k, k < fw_stream_count s → (s.bus (s.seq + k)).ret = 0) →
      (s.bus (s.seq + fw_stream_count s)).ret = 0 →
      (s.bus (s.seq + fw_stream_count s + 1)).ret = 0 →
      (s.bus (s.seq + fw_stream_count s + 1)).val % 2 ^ 16 ≠ 0xffff →
      ap1302_load_firmware s = (-EAGAIN, fw_loaded_session s) := by
    intro hstream hboot hsum hcrc
    rw [load_firmware_streamed s hS hstream, hboot, hsum, hl0,
      if_neg (by decide : ¬ ((0 : Int) ≠ 0)), if_pos (rfl : (0 : Int) = 0), if_pos hcrc]
  have hmatch : (∀ k, k < fw_stream_count s → (s.bus (s.seq + k)).ret = 0) →
      (s.bus (s.seq + fw_stream_count s)).ret = 0 →
      (s.bus (s.seq + fw_stream_count s + 1)).ret = 0 →
      (s.bus (s.seq + fw_stream_count s + 1)).val % 2 ^ 16 = 0xffff →
      ap1302_load_firmware s = ap1302_set_mipi_t3_clk (fw_loaded_session s) := by
    intro hstream hboot hsum hcrc
    rw [load_firmware_streamed s hS hstream, hboot, hsum, hl0,
      if_neg (by decide : ¬ ((0 : Int) ≠ 0)), if_pos (rfl : (0 : Int) = 0),
      if_neg (fun h => h hcrc)]
  have hstreamf : ∀ j, j < fw_stream_count s → (∀ k, k < j → (s.bus (s.seq + k)).ret = 0) →
      (s.bus (s.seq + j)).ret ≠ 0 →
      (ap1302_load_firmware s).1 = (s.bus (s.seq + j)).ret ∧
      (ap1302_load_firmware s).2.seq = s.seq + j + 1 :=
    fun j hj hok hfail => load_firmware_stream_failure s j hj hok hfail
  refine ⟨?_, hstreamf, hfailc, hmatch, ?_, ?_⟩
  · intro hstream hboot hsum hcrc
    rw [hmis hstream hboot hsum hcrc]
    exact ⟨rfl, rfl, rfl⟩
  · constructor
    · intro h
      by_cases hall : ∀ k, k < fw_stream_count s → (s.bus (s.seq + k)).ret = 0
      · right
        by_cases hl : Int.lor (s.bus (s.seq + fw_stream_count s)).ret
            (s.bus (s.seq + fw_stream_count s + 1)).ret ≠ 0
        · left
          rw [hfailc hall hl] at h
          exact ⟨hall, h⟩
        · right
          have hz := (lor_eq_zero _ _).mp (not_not.mp hl)
          by_cases hcrc : (s.bus (s.seq + fw_stream_count s + 1)).val % 2 ^ 16 ≠ 0xffff
          · left
            exact ⟨hall, hz.1, hz.2, hcrc⟩
          · right
            have hcrc' := not_not.mp hcrc
            rw [hmatch hall hz.1 hz.2 hcrc'] at h
            exact ⟨hall, hz.1, hz.2, hcrc', h⟩
      · left
        have hex : ∃ k, k < fw_stream_count s ∧ (s.bus (s.seq + k)).ret ≠ 0 := by
          by_contra hc
          apply hall
          intro k hk
          by_contra hk0
          exact hc ⟨k, hk, hk0⟩
        have hj := Nat.find_spec hex
        have hmin : ∀ k, k < Nat.find hex → (s.bus (s.seq + k)).ret = 0 := by
          intro k hk
          by_contra hk0
          exact Nat.find_min hex hk ⟨lt_trans hk hj.1, hk0⟩
        have hr := hstreamf (Nat.find hex) hj.1 hmin hj.2
        rw [hr.1] at h
        exact ⟨Nat.find hex, hj.1, hmin, h⟩
    · rintro (⟨j, hj, hok, hE⟩ | ⟨hall, hE⟩ | ⟨hall, hb, hc, hcrc⟩ | ⟨hall, hb, hc, hcrc, hE⟩)
      · have hr := hstreamf j hj hok (by rw [hE]; exact hA)
        rw [hr.1, hE]
      · rw [hfailc hall (by rw [hE]; exact hA)]
        exact hE
      · rw [hmis hall hb hc hcrc]
      · rw [hmatch hall hb hc hcrc]
        exact hE
  · intro hbus
    have hm : (ap1302_set_mipi_t3_clk (fw_loaded_session s)).1 = 0 :=
      set_mipi_t3_clk_ok _ hbus
    by_cases hcrc : (s.bus (s.seq + fw_stream_count s + 1)).val % 2 ^ 16 ≠ 0xffff
    · rw [hmis (fun k _ => hbus _) (hbus _) (hbus _) hcrc]
      exact ⟨fun _ => hcrc, fun _ => rfl⟩
    · rw [hmatch (fun k _ => hbus _) (hbus _) (hbus _) (not_not.mp hcrc)]
      refine ⟨fun h => ?_, fun h => absurd h hcrc⟩
      rw [hm] at h
      exact absurd h (by decide)

/-- C9 (amended) at a blob with a one-byte body on a bus that does not fail
and reads the checksum `0x1234`. -/
theorem C9_checksum_mismatch_retryable_witness :
    (ap1302_load_firmware { fw := [0, 0, 0, 0, 0xAA], bus := fun _ => { val := 0x1234 } }).1
      = -EAGAIN :=
  (((C9_checksum_mismatch_retryable
      { fw := [0, 0, 0, 0, 0xAA], bus := fun _ => { val := 0x1234 } }).2
    (fun h => absurd h (by decide))).1 (fun _ _ => rfl) rfl rfl (by decide)).1

/-- C9 (as stated, refuted): a load attempt whose only streaming write fails
with the bus error `-11` returns `-11`, which is `-EAGAIN`, although the
streaming did not succeed and no checksum was read; and a load attempt whose
`BOOTDATA_STAGE` write fails with `-27` and whose checksum read fails with
`-15` returns their bitwise or, again `-EAGAIN`. -/
theorem C9_counterexample :
    (ap1302_load_firmware { fw := [0, 0, 0, 0, 0xAA], bus := fun _ => { ret := -11 } }).1
      = -EAGAIN ∧
    (ap1302_load_firmware { fw := [0, 0, 0, 0, 0xAA], bus := fun _ => { ret := -11 } }).2.log
      = [Event.regmap_raw_write Chan.regmap16 0x8000 [0xAA] 1] ∧
    (ap1302_load_firmware
      { fw := [0, 0, 0, 0, 0xAA],
        bus := fun n => if n = 1 then { ret := -27 } else if n = 2 then { ret := -15 }
          else {} }).1 = -EAGAIN := by
  decide

/-! ## C10: the boot retry loop -/

theorem bus_only_refl (s : ap1302_dev) : bus_only s s := ⟨rfl, rfl⟩

theorem bus_only_trans {s t u : ap1302_dev} (h1 : bus_only s t) (h2 : bus_only t u) :
    bus_only s u := ⟨h2.1.trans h1.1, h2.2.trans h1.2⟩

theorem regmap_write_bus_only (s : ap1302_dev) (c : Chan) (addr val : Nat) :
    bus_only s (regmap_write s c addr val).2 := by
  simp [bus_only, regmap_write, power_log, List.filter_append, is_bus]

theorem regmap_read_bus_only (s : ap1302_dev) (c : Chan) (addr : Nat) :
    bus_only s (regmap_read s c addr).2.2 := by
  simp [bus_only, regmap_read, power_log, List.filter_append, is_bus]

theorem regmap_raw_write_bus_only (s : ap1302_dev) (c : Chan) (addr : Nat) (buf : List Nat)
    (len : Nat) : bus_only s (regmap_raw_write s c addr buf len).2 := by
  simp [bus_only, regmap_raw_write, power_log, List.filter_append, is_bus]

theorem inner_write_bus_only (s : ap1302_dev) (reg val : Nat) :
    bus_only s (__ap1302_write s reg val).2 := by
  unfold __ap1302_write
  dsimp only
  split_ifs
  · exact regmap_write_bus_only _ _ _ _
  · exact regmap_write_bus_only _ _ _ _
  · exact bus_only_refl s

theorem inner_read_bus_only (s : ap1302_dev) (reg : Nat) :
    bus_only s (__ap1302_read s reg).2.2 := by
  unfold __ap1302_read
  dsimp only
  split_ifs
  · exact regmap_read_bus_only _ _ _
  · exact regmap_read_bus_only _ _ _
  · exact bus_only_refl s

theorem write_bus_only (s : ap1302_dev) (reg val : Nat) (err : Option Int) :
    bus_only s (ap1302_write s reg val err).2.2 := by
  have hsel := inner_write_bus_only s AP1302_ADVANCED_BASE (AP1302_REG_PAGE reg)
  have hset : bus_only s
      { (__ap1302_write s AP1302_ADVANCED_BASE (AP1302_REG_PAGE reg)).2 with
        reg_page := AP1302_REG_PAGE reg } := ⟨hsel.1, hsel.2⟩
  have hdata := bus_only_trans hset (inner_write_bus_only _ (adv_reg reg) val)
  unfold ap1302_write
  dsimp only [ap1302_write_done]
  by_cases hpend : err_pending err = true
  · rw [if_pos hpend]; exact bus_only_refl s
  · rw [if_neg hpend]
    by_cases h0 : AP1302_REG_PAGE reg ≠ 0
    · rw [if_pos h0]
      by_cases hp : s.reg_page ≠ AP1302_REG_PAGE reg
      · rw [if_pos hp]
        by_cases hneg : (__ap1302_write s AP1302_ADVANCED_BASE (AP1302_REG_PAGE reg)).1 < 0
        · rw [if_pos hneg]; exact hsel
        · rw [if_neg hneg]; exact hdata
      · rw [if_neg hp]; exact inner_write_bus_only s (adv_reg reg) val
    · rw [if_neg h0]; exact inner_write_bus_only s reg val

theorem read_bus_only (s : ap1302_dev) (reg : Nat) :
    bus_only s (ap1302_read s reg).2.2 := by
  have hsel := inner_write_bus_only s AP1302_ADVANCED_BASE (AP1302_REG_PAGE reg)
  have hset : bus_only s
      { (__ap1302_write s AP1302_ADVANCED_BASE (AP1302_REG_PAGE reg)).2 with
        reg_page := AP1302_REG_PAGE reg } := ⟨hsel.1, hsel.2⟩
  have hdata := bus_only_trans hset (inner_read_bus_only _ (adv_reg reg))
  unfold ap1302_read
  dsimp only
  by_cases h0 : AP1302_REG_PAGE reg ≠ 0
  · rw [if_pos h0]
    by_cases hp : s.reg_page ≠ AP1302_REG_PAGE reg
    · rw [if_pos hp]
      by_cases hneg : (__ap1302_write s AP1302_ADVANCED_BASE (AP1302_REG_PAGE reg)).1 < 0
      · rw [if_pos hneg]; exact hsel
      · rw [if_neg hneg]; exact hdata
    · rw [if_neg hp]; exact inner_read_bus_only s (adv_reg reg)
  · rw [if_neg h0]; exact inner_read_bus_only s reg

theorem detect_chip_bus_only (s : ap1302_dev) : bus_only s (ap1302_detect_chip s).2 := by
  have h1 := read_bus_only s AP1302_CHIP_VERSION
  have h2 := bus_only_trans h1 (read_bus_only (ap1302_read s AP1302_CHIP_VERSION).2.2
    AP1302_CHIP_REV)
  unfold ap1302_detect_chip
  dsimp only
  by_cases c1 : (ap1302_read s AP1302_CHIP_VERSION).1 ≠ 0
  · rw [if_pos c1]; exact h1
  · rw [if_neg c1]
    by_cases c2 : (ap1302_read (ap1302_read s AP1302_CHIP_VERSION).2.2 AP1302_CHIP_REV).1 ≠ 0
    · rw [if_pos c2]; exact h2
    · rw [if_neg c2]
      by_cases c3 : (ap1302_read s AP1302_CHIP_VERSION).2.1 ≠ AP1302_CHIP_ID
      · rw [if_pos c3]; exact h2
      · rw [if_neg c3]; exact h2

theorem set_mipi_t3_clk_bus_only (s : ap1302_dev) :
    bus_only s (ap1302_set_mipi_t3_clk s).2 := by
  have h1 := read_bus_only s AP1302_ADV_HINF_MIPI_T3
  unfold ap1302_set_mipi_t3_clk
  dsimp only
  by_cases c1 : (ap1302_read s AP1302_ADV_HINF_MIPI_T3).1 ≠ 0
  · rw [if_pos c1]; exact h1
  · rw [if_neg c1]; exact bus_only_trans h1 (write_bus_only _ _ _ _)

theorem fw_block_loop_bus_only (n : Nat) : ∀ (s : ap1302_dev) (buf : List Nat) (pos : Nat),
    bus_only s (ap1302_write_fw_block_loop n s buf pos).2.2.2 := by
  induction n with
  | zero => intro s buf pos; exact bus_only_refl s
  | succ n ih =>
    intro s buf pos
    have hw := regmap_raw_write_bus_only s Chan.regmap16
      (u32 (pos % AP1302_FW_WINDOW_SIZE + AP1302_FW_WINDOW_OFFSET)) buf AP1302_FW_BLOCK_LEN
    unfold ap1302_write_fw_block_loop
    dsimp only
    by_cases c : (regmap_raw_write s Chan.regmap16
        (u32 (pos % AP1302_FW_WINDOW_SIZE + AP1302_FW_WINDOW_OFFSET)) buf
        AP1302_FW_BLOCK_LEN).1 ≠ 0
    · rw [if_pos c]; exact hw
    · rw [if_neg c]; exact bus_only_trans hw (ih _ _ _)

theorem fw_block_bus_only (s : ap1302_dev) (buf : List Nat) (len pos : Nat) :
    bus_only s (ap1302_write_fw_block s buf len pos).2.2 := by
  have h := fw_block_loop_bus_only (len / AP1302_FW_BLOCK_LEN) s buf pos
  unfold ap1302_write_fw_block
  dsimp only
  rcases hl : ap1302_write_fw_block_loop (len / AP1302_FW_BLOCK_LEN) s buf pos with ⟨o, b, p, t⟩
  rw [hl] at h
  cases o with
  | some r => exact h
  | none =>
    dsimp only
    by_cases c : len % AP1302_FW_BLOCK_LEN > 0
    · rw [if_pos c]
      have hw := regmap_raw_write_bus_only t Chan.regmap16
        (u32 (p % AP1302_FW_WINDOW_SIZE + AP1302_FW_WINDOW_OFFSET)) b
        (len % AP1302_FW_BLOCK_LEN)
      by_cases c2 : (regmap_raw_write t Chan.regmap16
          (u32 (p % AP1302_FW_WINDOW_SIZE + AP1302_FW_WINDOW_OFFSET)) b
          (len % AP1302_FW_BLOCK_LEN)).1 ≠ 0
      · rw [if_pos c2]; exact bus_only_trans h hw
      · rw [if_neg c2]; exact bus_only_trans h hw
    · rw [if_neg c]; exact h

theorem fw_window_loop_bus_only (n : Nat) : ∀ (s : ap1302_dev) (buf : List Nat) (pos : Nat)
    (ret : Int), bus_only s (ap1302_write_fw_window_loop n s buf pos ret).2.2.2.2 := by
  induction n with
  | zero => intro s buf pos ret; exact bus_only_refl s
  | succ n ih =>
    intro s buf pos ret
    have hb := fw_block_bus_only s buf AP1302_FW_WINDOW_SIZE pos
    unfold ap1302_write_fw_window_loop
    dsimp only
    by_cases c : (ap1302_write_fw_block s buf AP1302_FW_WINDOW_SIZE pos).1 ≠ 0
    · rw [if_pos c]; exact hb
    · rw [if_neg c]; exact bus_only_trans hb (ih _ _ _ _)

theorem fw_window_bus_only (s : ap1302_dev) (buf : List Nat) (len pos : Nat) :
    bus_only s (ap1302_write_fw_window s buf len pos).2.2 := by
  have h := fw_window_loop_bus_only (len / AP1302_FW_WINDOW_SIZE) s buf pos s.uninit_ret
  unfold ap1302_write_fw_window
  dsimp only
  rcases hl : ap1302_write_fw_window_loop (len / AP1302_FW_WINDOW_SIZE) s buf pos s.uninit_ret
    with ⟨e, r, b, p, t⟩
  rw [hl] at h
  cases e with
  | true => exact h
  | false =>
    dsimp only
    by_cases c : len % AP1302_FW_WINDOW_SIZE > 0
    · rw [if_pos c]; exact bus_only_trans h (fw_block_bus_only _ _ _ _)
    · rw [if_neg c]; exact h

theorem bus_only_ite {s : ap1302_dev} {c : Prop} [Decidable c] {a b : Int × ap1302_dev}
    (ha : bus_only s a.2) (hb : bus_only s b.2) : bus_only s (if c then a else b).2 := by
  by_cases h : c
  · rw [if_pos h]; exact ha
  · rw [if_neg h]; exact hb

theorem load_firmware_bus_only (s : ap1302_dev) :
    bus_only s (ap1302_load_firmware s).2 := by
  have h1 := fw_window_bus_only s (s.fw.drop FW_HEADER_SIZE) (fw_body_size s.fw.length) 0
  have h2 := bus_only_trans h1 (write_bus_only _ AP1302_BOOTDATA_STAGE 0xffff none)
  have h3 := bus_only_trans h2 (read_bus_only _ AP1302_SIP_CHECKSUM)
  have h4 := bus_only_trans h3 (set_mipi_t3_clk_bus_only _)
  unfold ap1302_load_firmware
  dsimp only
  exact bus_only_ite h1 (bus_only_ite h3 (bus_only_ite h3 h4))

theorem power_on_log (s : ap1302_dev) :
    (ap1302_power_on s).1 = 0 ∧
    power_log (ap1302_power_on s).2.log = power_log s.log ++ power_on_events s.pwdn_gpio ∧
    (ap1302_power_on s).2.pwdn_gpio = s.pwdn_gpio := by
  cases hg : s.pwdn_gpio <;>
    simp [ap1302_power_on, gpiod_set_value_cansleep, power_on_events, power_log,
      List.filter_append, is_bus, hg]

theorem power_off_log (s : ap1302_dev) :
    power_log (ap1302_power_off s).log = power_log s.log ++ power_off_events s.pwdn_gpio ∧
    (ap1302_power_off s).pwdn_gpio = s.pwdn_gpio := by
  cases hg : s.pwdn_gpio <;>
    simp [ap1302_power_off, gpiod_set_value_cansleep, power_off_events, power_log,
      List.filter_append, is_bus, hg]

theorem retry_step_log (s : ap1302_dev) :
    power_log (retry_step s).log
      = power_log s.log ++ (power_on_events s.pwdn_gpio ++ power_off_events s.pwdn_gpio) ∧
    (retry_step s).pwdn_gpio = s.pwdn_gpio := by
  have h1 := power_on_log s
  have h2 := detect_chip_bus_only (ap1302_power_on s).2
  have h3 := load_firmware_bus_only (attempt_dev s)
  have h4 := power_off_log (ap1302_load_firmware (attempt_dev s)).2
  unfold attempt_dev at h3 h4
  unfold retry_step attempt_dev
  rw [h4.1, h4.2, h3.1, h3.2, h2.1, h2.2, h1.2.1, h1.2.2, List.append_assoc]
  exact ⟨rfl, rfl⟩

theorem attempt_start_log (k : Nat) : ∀ (s : ap1302_dev),
    power_log (attempt_start k s).log = power_log s.log ++ power_cycles k s.pwdn_gpio ∧
    (attempt_start k s).pwdn_gpio = s.pwdn_gpio := by
  induction k with
  | zero => intro s; simp [attempt_start, power_cycles]
  | succ k ih =>
    intro s
    have h1 := retry_step_log s
    have h2 := ih (retry_step s)
    simp only [attempt_start, power_cycles]
    rw [h2.1, h2.2, h1.1, h1.2, List.append_assoc]
    exact ⟨rfl, rfl⟩

theorem request_firmware_log (s : ap1302_dev) :
    power_log (ap1302_request_firmware s).2.log = power_log s.log ++ [Event.request_firmware] ∧
    (ap1302_request_firmware s).2.pwdn_gpio = s.pwdn_gpio := by
  unfold ap1302_request_firmware
  simp only [request_firmware]
  split_ifs <;> simp [power_log, List.filter_append, is_bus] at *

theorem set_power_on_log (s : ap1302_dev) (h : (ap1302_set_power_on s).1 = 0) :
    power_log (ap1302_set_power_on s).2.log
      = power_log s.log ++ [Event.clk_prepare_enable, Event.regulator_bulk_enable]
          ++ power_on_events s.pwdn_gpio ∧
    (ap1302_set_power_on s).2.pwdn_gpio = s.pwdn_gpio := by
  by_cases h1 : s.clk_ret = 0
  · by_cases h2 : s.regulator_ret = 0
    · simp only [ap1302_set_power_on, clk_prepare_enable, regulator_bulk_enable,
        ap1302_init_slave_id, h1, h2, ne_eq, not_true_eq_false, if_false]
      rw [(power_on_log _).2.1, (power_on_log _).2.2]
      simp [power_log, List.filter_append, is_bus]
    · simp [ap1302_set_power_on, clk_prepare_enable, regulator_bulk_enable, h1, h2] at h
  · simp [ap1302_set_power_on, clk_prepare_enable, h1] at h

/-- The retry loop when the first `k` load attempts end in `-EAGAIN` and
attempt `k + 1` succeeds: the loop is left by `break` with `retries = k`. -/
theorem hw_init_loop_retry (k : Nat) : ∀ (fuel retries : Nat) (ret : Int) (s : ap1302_dev),
    k < fuel →
    (∀ i, i ≤ k → (ap1302_detect_chip (ap1302_power_on (attempt_start i s)).2).1 = 0) →
    (∀ i, i < k → (ap1302_load_firmware (attempt_dev (attempt_start i s))).1 = -EAGAIN) →
    (ap1302_load_firmware (attempt_dev (attempt_start k s))).1 = 0 →
    ap1302_hw_init_loop fuel retries ret s
      = ⟨false, retries + k, 0, (ap1302_load_firmware (attempt_dev (attempt_start k s))).2⟩ := by
  induction k with
  | zero =>
    intro fuel retries ret s hf hdet _ hok
    obtain ⟨f, rfl⟩ : ∃ f, fuel = f + 1 := ⟨fuel - 1, by omega⟩
    have hd := hdet 0 (Nat.le_refl 0)
    simp only [attempt_start] at hd hok
    have hok' : (ap1302_load_firmware (ap1302_detect_chip (ap1302_power_on s).2).2).1 = 0 := hok
    simp [ap1302_hw_init_loop, (power_on_log s).1, hd, hok', attempt_start, attempt_dev]
  | succ k ih =>
    intro fuel retries ret s hf hdet hagain hok
    obtain ⟨f, rfl⟩ : ∃ f, fuel = f + 1 := ⟨fuel - 1, by omega⟩
    have hd := hdet 0 (Nat.zero_le _)
    have ha : (ap1302_load_firmware (ap1302_detect_chip (ap1302_power_on s).2).2).1 = -EAGAIN :=
      hagain 0 (Nat.succ_pos k)
    have hE : -EAGAIN ≠ (0 : Int) := by decide
    simp only [attempt_start] at hd
    have hrec := ih f (retries + 1) (-EAGAIN) (retry_step s) (by omega)
      (fun i hi => hdet (i + 1) (by omega)) (fun i hi => hagain (i + 1) (by omega)) hok
    simp only [ap1302_hw_init_loop, (power_on_log s).1, hd, ha, hE, lt_self_iff_false,
      if_false, ne_eq, not_true_eq_false]
    have e : retries + 1 + k = retries + (k + 1) := by omega
    rw [e] at hrec
    exact hrec

theorem power_cycles_count (k : Nat) (pwdn : Bool) :
    (power_cycles k pwdn).count (Event.gpiod_set_value Gpio.reset_gpio 1) = k ∧
    (power_cycles k pwdn).count (Event.gpiod_set_value Gpio.reset_gpio 0) = k ∧
    (power_cycles k pwdn).count Event.regulator_bulk_disable = 0 ∧
    (power_cycles k pwdn).count Event.clk_disable_unprepare = 0 ∧
    (power_cycles k pwdn).count Event.release_firmware = 0 := by
  induction k with
  | zero => simp [power_cycles]
  | succ k ih =>
    obtain ⟨h1, h2, h3, h4, h5⟩ := ih
    cases pwdn <;>
      simp [power_cycles, power_on_events, power_off_events, List.count_cons, h1, h2, h3, h4, h5]
        at *

/-- C10: in `ap1302_hw_init`, if the firmware request, the power-on and the
chip detection of every attempt succeed, and `ap1302_load_firmware` returns
`-EAGAIN` on the first `k` attempts and 0 on attempt `k + 1`, with
`k < MAX_FW_LOAD_RETRIES = 3`, then `ap1302_hw_init` returns 0. The retry
loop is left by `break` with `retries = k`, so the session returned is that
of load attempt `k + 1`, reached through `k` turns of power on, detection,
load and power off. Its actions other than bus transactions are those of
`spec_boot_trace`: `k` assertions of reset (power off), each followed by a
power on, and no regulator or clock disable, that is, no
`ap1302_set_power_off`. -/
theorem C10_hw_init_retry (s : ap1302_dev) (k : Nat) (hk : k < MAX_FW_LOAD_RETRIES)
    (hreq : (ap1302_request_firmware s).1 = 0)
    (hpow : (ap1302_set_power_on (ap1302_request_firmware s).2).1 = 0)
    (hdet : ∀ i, i ≤ k →
      (ap1302_detect_chip (ap1302_power_on (attempt_start i (hw_init_powered s))).2).1 = 0)
    (hagain : ∀ i, i < k →
      (ap1302_load_firmware (attempt_dev (attempt_start i (hw_init_powered s)))).1 = -EAGAIN)
    (hok : (ap1302_load_firmware (attempt_dev (attempt_start k (hw_init_powered s)))).1 = 0) :
    (ap1302_hw_init s).1 = 0 ∧
    (ap1302_hw_init s).2
      = (ap1302_load_firmware (attempt_dev (attempt_start k (hw_init_powered s)))).2 ∧
    (ap1302_hw_init_loop MAX_FW_LOAD_RETRIES 0 0 (hw_init_powered s)).retries = k ∧
    (ap1302_hw_init_loop MAX_FW_LOAD_RETRIES 0 0 (hw_init_powered s)).error_power = false ∧
    power_log (ap1302_hw_init s).2.log = power_log s.log ++ spec_boot_trace k s.pwdn_gpio ∧
    (spec_boot_trace k s.pwdn_gpio).count (Event.gpiod_set_value Gpio.reset_gpio 1) = k ∧
    (spec_boot_trace k s.pwdn_gpio).count (Event.gpiod_set_value Gpio.reset_gpio 0) = k + 2 ∧
    (spec_boot_trace k s.pwdn_gpio).count Event.regulator_bulk_disable = 0 ∧
    (spec_boot_trace k s.pwdn_gpio).count Event.clk_disable_unprepare = 0 ∧
    (spec_boot_trace k s.pwdn_gpio).count Event.release_firmware = 0 := by
  have hloop := fun ret => hw_init_loop_retry k MAX_FW_LOAD_RETRIES 0 ret (hw_init_powered s) hk
    hdet hagain hok
  have hne : k ≠ MAX_FW_LOAD_RETRIES := by omega
  have hinit : ap1302_hw_init s
      = (0, (ap1302_load_firmware (attempt_dev (attempt_start k (hw_init_powered s)))).2) := by
    unfold hw_init_powered at hloop
    simp [ap1302_hw_init, hreq, hpow, hloop, hne, hw_init_powered]
  have hrq := request_firmware_log s
  have hsp := set_power_on_log (ap1302_request_firmware s).2 hpow
  have hs0 : power_log (hw_init_powered s).log
      = power_log s.log ++ [Event.request_firmware]
          ++ [Event.clk_prepare_enable, Event.regulator_bulk_enable]
          ++ power_on_events s.pwdn_gpio ∧
      (hw_init_powered s).pwdn_gpio = s.pwdn_gpio := by
    unfold hw_init_powered
    rw [hsp.1, hsp.2, hrq.1, hrq.2]
    exact ⟨rfl, rfl⟩
  have hat := attempt_start_log k (hw_init_powered s)
  have hpo := power_on_log (attempt_start k (hw_init_powered s))
  have hdc := detect_chip_bus_only (ap1302_power_on (attempt_start k (hw_init_powered s))).2
  have hlf := load_firmware_bus_only (attempt_dev (attempt_start k (hw_init_powered s)))
  obtain ⟨c1, c2, c3, c4, c5⟩ := power_cycles_count k s.pwdn_gpio
  refine ⟨by rw [hinit], by rw [hinit], by rw [hloop 0]; simp, by rw [hloop 0], ?_, ?_, ?_, ?_,
    ?_, ?_⟩
  · rw [hinit]
    unfold attempt_dev at hlf ⊢
    simp only []
    rw [hlf.1, hdc.1, hpo.2.1, hat.1, hat.2, hs0.1, hs0.2, spec_boot_trace]
    simp [List.append_assoc]
  all_goals
    cases hg : s.pwdn_gpio <;>
      simp [spec_boot_trace, power_on_events, List.count_cons, List.count_append, c1, c2, c3, c4,
        c5, hg] at * <;> omega

/-- C10 at `k = 2`: the checksum read returns 0 in the first two attempts
and `0xFFFF` in the third. The boot returns 0 after two power cycles. -/
theorem C10_hw_init_retry_witness :
    (ap1302_hw_init
      { firmware_blob := [0, 0, 0, 0, 0xAA],
        bus := fun n => if n = 14 then { val := 0xffff } else if n % 5 = 0 then { val := 0x265 }
          else {} }).1 = 0 ∧
    power_log (ap1302_hw_init
      { firmware_blob := [0, 0, 0, 0, 0xAA],
        bus := fun n => if n = 14 then { val := 0xffff } else if n % 5 = 0 then { val := 0x265 }
          else {} }).2.log
      = [Event.request_firmware, Event.clk_prepare_enable, Event.regulator_bulk_enable,
         Event.gpiod_set_value Gpio.reset_gpio 0,
         Event.gpiod_set_value Gpio.reset_gpio 0, Event.gpiod_set_value Gpio.reset_gpio 1,
         Event.gpiod_set_value Gpio.reset_gpio 0, Event.gpiod_set_value Gpio.reset_gpio 1,
         Event.gpiod_set_value Gpio.reset_gpio 0] :=
  have h := C10_hw_init_retry
    { firmware_blob := [0, 0, 0, 0, 0xAA],
      bus := fun n => if n = 14 then { val := 0xffff } else if n % 5 = 0 then { val := 0x265 }
        else {} } 2 (by decide) (by decide) (by decide)
    (by intro i hi; interval_cases i <;> decide)
    (by intro i hi; interval_cases i <;> decide)
    (by decide)
  ⟨h.1, h.2.2.2.2.1.trans (by decide)⟩

/-! ## C11: a boot that is given up -/

/-- The retry loop when every one of its `fuel` turns ends in `-EAGAIN`: the
loop runs out with `retries` advanced by `fuel`, after the power off of the
last turn. -/
theorem hw_init_loop_exhaust (fuel : Nat) : ∀ (retries : Nat) (ret : Int) (s : ap1302_dev),
    (∀ i, i < fuel → (ap1302_detect_chip (ap1302_power_on (attempt_start i s)).2).1 = 0) →
    (∀ i, i < fuel → (ap1302_load_firmware (attempt_dev (attempt_start i s))).1 = -EAGAIN) →
    ap1302_hw_init_loop fuel retries ret s
      = ⟨false, retries + fuel, (if fuel = 0 then ret else -EAGAIN), attempt_start fuel s⟩ := by
  induction fuel with
  | zero => intro retries ret s _ _; simp [ap1302_hw_init_loop, attempt_start]
  | succ f ih =>
    intro retries ret s hdet hagain
    have hd := hdet 0 (Nat.succ_pos f)
    have ha : (ap1302_load_firmware (ap1302_detect_chip (ap1302_power_on s).2).2).1 = -EAGAIN :=
      hagain 0 (Nat.succ_pos f)
    have hE : -EAGAIN ≠ (0 : Int) := by decide
    simp only [attempt_start] at hd
    have hrec := ih (retries + 1) (-EAGAIN) (retry_step s)
      (fun i hi => hdet (i + 1) (by omega)) (fun i hi => hagain (i + 1) (by omega))
    simp only [ap1302_hw_init_loop, (power_on_log s).1, hd, ha, hE, lt_self_iff_false,
      if_false, ne_eq, not_true_eq_false]
    have e : retries + 1 + f = retries + (f + 1) := by omega
    rw [e] at hrec
    have e2 : (if f = 0 then -EAGAIN else -EAGAIN) = -EAGAIN := by split_ifs <;> rfl
    rw [e2] at hrec
    simp only [Nat.succ_ne_zero, if_false, attempt_start]
    exact hrec

/-- The retry loop when the first `k` load attempts end in `-EAGAIN` and
attempt `k + 1` fails with another error `e`: the loop is left through
`error_power` with `ret = e`. -/
theorem hw_init_loop_fatal (k : Nat) : ∀ (fuel retries : Nat) (ret : Int) (s : ap1302_dev)
    (e : Int), k < fuel →
    (∀ i, i ≤ k → (ap1302_detect_chip (ap1302_power_on (attempt_start i s)).2).1 = 0) →
    (∀ i, i < k → (ap1302_load_firmware (attempt_dev (attempt_start i s))).1 = -EAGAIN) →
    (ap1302_load_firmware (attempt_dev (attempt_start k s))).1 = e → e ≠ 0 → e ≠ -EAGAIN →
    ap1302_hw_init_loop fuel retries ret s
      = ⟨true, retries + k, e, (ap1302_load_firmware (attempt_dev (attempt_start k s))).2⟩ := by
  induction k with
  | zero =>
    intro fuel retries ret s e hf hdet _ hl h0 hA
    obtain ⟨f, rfl⟩ : ∃ f, fuel = f + 1 := ⟨fuel - 1, by omega⟩
    have hd := hdet 0 (Nat.le_refl 0)
    simp only [attempt_start] at hd hl
    have hl' : (ap1302_load_firmware (ap1302_detect_chip (ap1302_power_on s).2).2).1 = e := hl
    simp [ap1302_hw_init_loop, (power_on_log s).1, hd, hl', h0, hA, attempt_start, attempt_dev]
  | succ k ih =>
    intro fuel retries ret s e hf hdet hagain hl h0 hA
    obtain ⟨f, rfl⟩ : ∃ f, fuel = f + 1 := ⟨fuel - 1, by omega⟩
    have hd := hdet 0 (Nat.zero_le _)
    have ha : (ap1302_load_firmware (ap1302_detect_chip (ap1302_power_on s).2).2).1 = -EAGAIN :=
      hagain 0 (Nat.succ_pos k)
    have hE : -EAGAIN ≠ (0 : Int) := by decide
    simp only [attempt_start] at hd
    have hrec := ih f (retries + 1) (-EAGAIN) (retry_step s) e (by omega)
      (fun i hi => hdet (i + 1) (by omega)) (fun i hi => hagain (i + 1) (by omega)) hl h0 hA
    simp only [ap1302_hw_init_loop, (power_on_log s).1, hd, ha, hE, lt_self_iff_false,
      if_false, ne_eq, not_true_eq_false]
    have e1 : retries + 1 + k = retries + (k + 1) := by omega
    rw [e1] at hrec
    exact hrec

theorem set_power_off_log (s : ap1302_dev) :
    power_log (release_firmware (ap1302_set_power_off s)).log
      = power_log s.log ++ power_off_events s.pwdn_gpio
          ++ [Event.regulator_bulk_disable, Event.clk_disable_unprepare,
              Event.release_firmware] ∧
    (release_firmware (ap1302_set_power_off s)).streaming = false := by
  have h := power_off_log s
  constructor
  · show power_log ((ap1302_power_off s).log ++ [Event.regulator_bulk_disable]
        ++ [Event.clk_disable_unprepare] ++ [Event.release_firmware]) = _
    simp only [power_log, List.filter_append] at h ⊢
    rw [h.1]
    simp [is_bus]
  · rfl

theorem hw_init_powered_log (s : ap1302_dev)
    (hpow : (ap1302_set_power_on (ap1302_request_firmware s).2).1 = 0) :
    power_log (hw_init_powered s).log
      = power_log s.log ++ [Event.request_firmware]
          ++ [Event.clk_prepare_enable, Event.regulator_bulk_enable]
          ++ power_on_events s.pwdn_gpio ∧
    (hw_init_powered s).pwdn_gpio = s.pwdn_gpio := by
  have hrq := request_firmware_log s
  have hsp := set_power_on_log (ap1302_request_firmware s).2 hpow
  unfold hw_init_powered
  rw [hsp.1, hsp.2, hrq.1, hrq.2]
  exact ⟨rfl, rfl⟩

/-- C11: in `ap1302_hw_init`, with the firmware request and the power-on
succeeding. (1) If the chip detection succeeds and `ap1302_load_firmware`
returns `-EAGAIN` in all `MAX_FW_LOAD_RETRIES = 3` attempts, the boot returns
`-ETIMEDOUT`: the loop runs out with `retries = 3`, the session returned is
that after the third power off followed by `ap1302_set_power_off` and the
release of the firmware, so there is no fourth attempt, and its actions other
than bus transactions are those of `spec_abort_trace 3`: they end with the
power off, the disabling of regulators and clock, and the release;
`streaming` is false. (2) If the first `i < 3` attempts return `-EAGAIN` and
attempt `i + 1` returns an error `e` that is neither 0 nor `-EAGAIN`, the
boot returns `e`, the loop is left through `error_power` after `i` retries,
and the session is that of the failed load followed by
`ap1302_set_power_off` and the release, with `streaming` false. -/
theorem C11_hw_init_gives_up (s : ap1302_dev)
    (hreq : (ap1302_request_firmware s).1 = 0)
    (hpow : (ap1302_set_power_on (ap1302_request_firmware s).2).1 = 0) :
    ((∀ i, i < MAX_FW_LOAD_RETRIES →
        (ap1302_detect_chip (ap1302_power_on (attempt_start i (hw_init_powered s))).2).1 = 0) →
     (∀ i, i < MAX_FW_LOAD_RETRIES →
        (ap1302_load_firmware (attempt_dev (attempt_start i (hw_init_powered s)))).1
          = -EAGAIN) →
     (ap1302_hw_init s).1 = -ETIMEDOUT ∧
     (ap1302_hw_init s).2 = release_firmware (ap1302_set_power_off
        (attempt_start MAX_FW_LOAD_RETRIES (hw_init_powered s))) ∧
     (ap1302_hw_init_loop MAX_FW_LOAD_RETRIES 0 0 (hw_init_powered s)).retries
        = MAX_FW_LOAD_RETRIES ∧
     power_log (ap1302_hw_init s).2.log
        = power_log s.log ++ spec_abort_trace MAX_FW_LOAD_RETRIES s.pwdn_gpio false ∧
     (ap1302_hw_init s).2.streaming = false) ∧
    (∀ (i : Nat) (e : Int), i < MAX_FW_LOAD_RETRIES →
     (∀ j, j ≤ i →
        (ap1302_detect_chip (ap1302_power_on (attempt_start j (hw_init_powered s))).2).1 = 0) →
     (∀ j, j < i →
        (ap1302_load_firmware (attempt_dev (attempt_start j (hw_init_powered s)))).1
          = -EAGAIN) →
     (ap1302_load_firmware (attempt_dev (attempt_start i (hw_init_powered s)))).1 = e →
     e ≠ 0 → e ≠ -EAGAIN →
     (ap1302_hw_init s).1 = e ∧
     (ap1302_hw_init s).2 = release_firmware (ap1302_set_power_off
        (ap1302_load_firmware (attempt_dev (attempt_start i (hw_init_powered s)))).2) ∧
     (ap1302_hw_init_loop MAX_FW_LOAD_RETRIES 0 0 (hw_init_powered s)).retries = i ∧
     (ap1302_hw_init_loop MAX_FW_LOAD_RETRIES 0 0 (hw_init_powered s)).error_power = true ∧
     power_log (ap1302_hw_init s).2.log
        = power_log s.log ++ spec_abort_trace i s.pwdn_gpio true ∧
     (ap1302_hw_init s).2.streaming = false) := by
  have hs0 := hw_init_powered_log s hpow
  constructor
  · intro hdet hagain
    have hloop := fun ret => hw_init_loop_exhaust MAX_FW_LOAD_RETRIES 0 ret (hw_init_powered s)
      hdet hagain
    have hinit : ap1302_hw_init s = (-ETIMEDOUT, release_firmware (ap1302_set_power_off
        (attempt_start MAX_FW_LOAD_RETRIES (hw_init_powered s)))) := by
      unfold hw_init_powered at hloop
      simp [ap1302_hw_init, hreq, hpow, hloop, hw_init_powered]
    have hat := attempt_start_log MAX_FW_LOAD_RETRIES (hw_init_powered s)
    have hoff := set_power_off_log (attempt_start MAX_FW_LOAD_RETRIES (hw_init_powered s))
    refine ⟨by rw [hinit], by rw [hinit], by rw [hloop 0]; simp, ?_, by rw [hinit]; exact hoff.2⟩
    rw [hinit]
    simp only []
    rw [hoff.1, hat.1, hat.2, hs0.1, hs0.2, spec_abort_trace]
    simp [List.append_assoc]
  · intro i e hi hdet hagain hl h0 hA
    have hloop := fun ret => hw_init_loop_fatal i MAX_FW_LOAD_RETRIES 0 ret (hw_init_powered s) e
      hi hdet hagain hl h0 hA
    have hinit : ap1302_hw_init s = (e, release_firmware (ap1302_set_power_off
        (ap1302_load_firmware (attempt_dev (attempt_start i (hw_init_powered s)))).2)) := by
      unfold hw_init_powered at hloop
      simp [ap1302_hw_init, hreq, hpow, hloop, hw_init_powered]
    have hat := attempt_start_log i (hw_init_powered s)
    have hpo := power_on_log (attempt_start i (hw_init_powered s))
    have hdc := detect_chip_bus_only (ap1302_power_on (attempt_start i (hw_init_powered s))).2
    have hlf := load_firmware_bus_only (attempt_dev (attempt_start i (hw_init_powered s)))
    have hoff := set_power_off_log
      (ap1302_load_firmware (attempt_dev (attempt_start i (hw_init_powered s)))).2
    refine ⟨by rw [hinit], by rw [hinit], by rw [hloop 0]; simp, by rw [hloop 0], ?_,
      by rw [hinit]; exact hoff.2⟩
    rw [hinit]
    simp only []
    unfold attempt_dev at hlf hoff ⊢
    rw [hoff.1, hlf.1, hlf.2, hdc.1, hdc.2, hpo.2.1, hpo.2.2, hat.1, hat.2, hs0.1, hs0.2,
      spec_abort_trace]
    simp [List.append_assoc]

/-- C11 on two boots. In the first the checksum read returns 0 in all three
attempts: the boot returns `-ETIMEDOUT` after three power cycles and a final
`ap1302_set_power_off`. In the second the block write of the second attempt
fails with -5: the boot returns -5 with the device powered off. -/
theorem C11_hw_init_gives_up_witness :
    ((ap1302_hw_init
      { firmware_blob := [0, 0, 0, 0, 0xAA],
        bus := fun n => if n % 5 = 0 then { val := 0x265 } else {} }).1 = -ETIMEDOUT ∧
     power_log (ap1302_hw_init
      { firmware_blob := [0, 0, 0, 0, 0xAA],
        bus := fun n => if n % 5 = 0 then { val := 0x265 } else {} }).2.log
      = [Event.request_firmware, Event.clk_prepare_enable, Event.regulator_bulk_enable,
         Event.gpiod_set_value Gpio.reset_gpio 0,
         Event.gpiod_set_value Gpio.reset_gpio 0, Event.gpiod_set_value Gpio.reset_gpio 1,
         Event.gpiod_set_value Gpio.reset_gpio 0, Event.gpiod_set_value Gpio.reset_gpio 1,
         Event.gpiod_set_value Gpio.reset_gpio 0, Event.gpiod_set_value Gpio.reset_gpio 1,
         Event.gpiod_set_value Gpio.reset_gpio 1,
         Event.regulator_bulk_disable, Event.clk_disable_unprepare, Event.release_firmware]) ∧
    ((ap1302_hw_init
      { firmware_blob := [0, 0, 0, 0, 0xAA],
        bus := fun n => if n = 7 then { ret := -5 } else if n % 5 = 0 then { val := 0x265 }
          else {} }).1 = -5 ∧
     (ap1302_hw_init
      { firmware_blob := [0, 0, 0, 0, 0xAA],
        bus := fun n => if n = 7 then { ret := -5 } else if n % 5 = 0 then { val := 0x265 }
          else {} }).2.streaming = false) :=
  have h1 := (C11_hw_init_gives_up
    { firmware_blob := [0, 0, 0, 0, 0xAA],
      bus := fun n => if n % 5 = 0 then { val := 0x265 } else {} }
    (by decide) (by decide)).1
    (by intro i hi; simp only [MAX_FW_LOAD_RETRIES] at hi; interval_cases i <;> decide)
    (by intro i hi; simp only [MAX_FW_LOAD_RETRIES] at hi; interval_cases i <;> decide)
  have h2 := (C11_hw_init_gives_up
    { firmware_blob := [0, 0, 0, 0, 0xAA],
      bus := fun n => if n = 7 then { ret := -5 } else if n % 5 = 0 then { val := 0x265 }
        else {} }
    (by decide) (by decide)).2 1 (-5) (by decide)
    (by intro j hj; interval_cases j <;> decide)
    (by intro j hj; interval_cases j; decide)
    (by decide) (by decide) (by decide)
  ⟨⟨h1.1, h1.2.2.2.1.trans (by decide)⟩, ⟨h2.1, h2.2.2.2.2.2⟩⟩

/-! ## C12 and C13: the lookup of a mode by size -/

theorem size_error_eq (m : ap1302_mode_info) (w h : Nat) (h1 : m.hact < 2 ^ 31)
    (h2 : m.vact < 2 ^ 31) (hw : w < 2 ^ 31) (hh : h < 2 ^ 31) :
    size_error m w h = spec_distance m w h := by
  simp only [size_error, abs_s32, u32, spec_distance]
  split_ifs <;> omega

theorem size_error_le (m : ap1302_mode_info) (w h : Nat) : size_error m w h ≤ U32_MAX := by
  simp only [size_error, u32, U32_MAX]
  omega

theorem mode_data_bounds : ∀ m ∈ ap1302_mode_data, m.hact < 2 ^ 31 ∧ m.vact < 2 ^ 31 := by
  decide

theorem mode_data_sizes_distinct : ∀ a ∈ ap1302_mode_data, ∀ b ∈ ap1302_mode_data,
    a.hact = b.hact → a.vact = b.vact → a = b := by
  decide

/-- The loop of `v4l2_find_nearest_size`: either every remaining entry is
skipped and `best` is kept, or the result is a remaining entry of least
error, not above `min_error`. -/
theorem find_nearest_loop_spec (w h : Nat) : ∀ (l : List ap1302_mode_info) (me : Nat)
    (best : Option ap1302_mode_info),
    (v4l2_find_nearest_size_loop l w h me best = best ∧ ∀ m ∈ l, me < size_error m w h) ∨
    (∃ m ∈ l, v4l2_find_nearest_size_loop l w h me best = some m ∧ size_error m w h ≤ me ∧
      ∀ m' ∈ l, size_error m w h ≤ size_error m' w h) := by
  intro l
  induction l with
  | nil => intro me best; left; exact ⟨rfl, by simp⟩
  | cons a rest ih =>
    intro me best
    rw [v4l2_find_nearest_size_loop]
    by_cases c1 : size_error a w h > me
    · rw [if_pos c1]
      rcases ih me best with ⟨e, hall⟩ | ⟨m, hm, e, hle, hmin⟩
      · left
        refine ⟨e, ?_⟩
        intro m hm
        rcases List.mem_cons.mp hm with rfl | hm
        · exact c1
        · exact hall m hm
      · right
        refine ⟨m, List.mem_cons_of_mem _ hm, e, hle, ?_⟩
        intro m' hm'
        rcases List.mem_cons.mp hm' with rfl | hm'
        · omega
        · exact hmin m' hm'
    · rw [if_neg c1]
      by_cases c2 : size_error a w h = 0
      · rw [if_pos c2]
        right
        refine ⟨a, List.mem_cons_self _ _, rfl, by omega, ?_⟩
        intro m' _
        omega
      · rw [if_neg c2]
        right
        rcases ih (size_error a w h) (some a) with ⟨e, hall⟩ | ⟨m, hm, e, hle, hmin⟩
        · refine ⟨a, List.mem_cons_self _ _, e, by omega, ?_⟩
          intro m' hm'
          rcases List.mem_cons.mp hm' with rfl | hm'
          · exact Nat.le_refl _
          · exact Nat.le_of_lt (hall m' hm')
        · refine ⟨m, List.mem_cons_of_mem _ hm, e, by omega, ?_⟩
          intro m' hm'
          rcases List.mem_cons.mp hm' with rfl | hm'
          · exact hle
          · exact hmin m' hm'

/-- On the catalog, `v4l2_find_nearest_size` never returns NULL: it returns
an entry of least error. -/
theorem find_nearest_some (w h : Nat) :
    ∃ m ∈ ap1302_mode_data, v4l2_find_nearest_size ap1302_mode_data w h = some m ∧
      ∀ m' ∈ ap1302_mode_data, size_error m w h ≤ size_error m' w h := by
  rcases find_nearest_loop_spec w h ap1302_mode_data U32_MAX none with ⟨_, hall⟩ | ⟨m, hm, e, _, hmin⟩
  · exfalso
    have h0 := hall (ap1302_mode_entry AP1302_MODE_4K_3840_2160) (by decide)
    have h1 := size_error_le (ap1302_mode_entry AP1302_MODE_4K_3840_2160) w h
    omega
  · exact ⟨m, hm, e, hmin⟩

/-- On the catalog, `v4l2_find_nearest_size` returns an entry of least
Manhattan distance to a requested size of non-negative `int` values. -/
theorem find_nearest_spec (w h : Nat) (hw : w < 2 ^ 31) (hh : h < 2 ^ 31) :
    ∃ m ∈ ap1302_mode_data, v4l2_find_nearest_size ap1302_mode_data w h = some m ∧
      ∀ m' ∈ ap1302_mode_data, spec_distance m w h ≤ spec_distance m' w h := by
  obtain ⟨m, hm, e, hmin⟩ := find_nearest_some w h
  refine ⟨m, hm, e, ?_⟩
  intro m' hm'
  have b := mode_data_bounds m hm
  have b' := mode_data_bounds m' hm'
  rw [← size_error_eq m w h b.1 b.2 hw hh, ← size_error_eq m' w h b'.1 b'.2 hw hh]
  exact hmin m' hm'

theorem spec_distance_zero (m : ap1302_mode_info) (w h : Nat) :
    spec_distance m w h = 0 ↔ m.hact = w ∧ m.vact = h := by
  simp only [spec_distance]
  omega

theorem find_mode_eq (s : ap1302_dev) (fr w h : Nat) (nearest : Bool) :
    ap1302_find_mode s fr w h nearest
      = match v4l2_find_nearest_size ap1302_mode_data w h with
        | none => none
        | some mode =>
          if nearest = false ∧ (mode.hact ≠ u32 w ∨ mode.vact ≠ u32 h) then none
          else some mode := rfl

/-- With `nearest` set, `ap1302_find_mode` returns the entry
`v4l2_find_nearest_size` selects. -/
theorem find_mode_nearest (s : ap1302_dev) (fr w h : Nat) (m : ap1302_mode_info)
    (e : v4l2_find_nearest_size ap1302_mode_data w h = some m) :
    ap1302_find_mode s fr w h true = some m := by
  rw [find_mode_eq, e]
  simp

/-- For a size that is that of a catalog entry, both kinds of lookup return
that entry. -/
theorem find_mode_of_mem (s : ap1302_dev) (fr : Nat) (nearest : Bool) (m0 : ap1302_mode_info)
    (h0 : m0 ∈ ap1302_mode_data) :
    ap1302_find_mode s fr m0.hact m0.vact nearest = some m0 := by
  have b := mode_data_bounds m0 h0
  obtain ⟨m, hm, e, hmin⟩ := find_nearest_spec m0.hact m0.vact b.1 b.2
  have hz : spec_distance m m0.hact m0.vact = 0 := by
    have h1 := hmin m0 h0
    have h2 := (spec_distance_zero m0 m0.hact m0.vact).mpr ⟨rfl, rfl⟩
    omega
  have hz' := (spec_distance_zero m m0.hact m0.vact).mp hz
  have hmm : m = m0 := mode_data_sizes_distinct m hm m0 h0 hz'.1 hz'.2
  subst hmm
  have u1 : u32 m.hact = m.hact := by simp only [u32]; omega
  have u2 : u32 m.vact = m.vact := by simp only [u32]; omega
  rw [find_mode_eq, e]
  simp [u1, u2]

/-- C12: `ap1302_find_mode` with `nearest = false`, for every requested size
(the two `int` arguments, given by their 32-bit patterns) and every session
and frame-rate argument, returns an entry exactly when the catalog
`ap1302_mode_data` has an entry with `(hact, vact) = (width, height)`, and
then exactly that entry; it returns NULL when there is none. For
(1920, 1080) it returns the 1080P entry and for (1921, 1081) it returns
NULL. -/
theorem C12_find_mode_exact (s : ap1302_dev) (fr w h : Nat) (hw : w < 2 ^ 32)
    (hh : h < 2 ^ 32) :
    (∀ m, ap1302_find_mode s fr w h false = some m
      ↔ (m ∈ ap1302_mode_data ∧ m.hact = w ∧ m.vact = h)) ∧
    (ap1302_find_mode s fr w h false = none
      ↔ ∀ m ∈ ap1302_mode_data, ¬ (m.hact = w ∧ m.vact = h)) ∧
    ap1302_find_mode s fr 1920 1080 false
      = some (ap1302_mode_entry AP1302_MODE_1080P_1920_1080) ∧
    ap1302_find_mode s fr 1921 1081 false = none := by
  have hiff : ∀ m, ap1302_find_mode s fr w h false = some m
      ↔ (m ∈ ap1302_mode_data ∧ m.hact = w ∧ m.vact = h) := by
    intro m
    constructor
    · intro hf
      obtain ⟨m1, hm1, e, _⟩ := find_nearest_some w h
      have u1 : u32 w = w := by simp only [u32]; omega
      have u2 : u32 h = h := by simp only [u32]; omega
      rw [find_mode_eq, e, u1, u2] at hf
      by_cases c : m1.hact = w ∧ m1.vact = h
      · have hf' : some m1 = some m := by simpa [c.1, c.2] using hf
        have hm : m1 = m := Option.some.inj hf'
        subst hm
        exact ⟨hm1, c⟩
      · exfalso
        have : (True ∧ (m1.hact ≠ w ∨ m1.vact ≠ h)) := ⟨trivial, by omega⟩
        simp only [] at hf
        rw [if_pos this] at hf
        exact Option.noConfusion hf
    · rintro ⟨hm, rfl, rfl⟩
      exact find_mode_of_mem s fr false m hm
  refine ⟨hiff, ?_, ?_, ?_⟩
  · constructor
    · intro hn m hm hc
      have := (hiff m).mpr ⟨hm, hc⟩
      rw [hn] at this
      exact Option.noConfusion this
    · intro hall
      cases hf : ap1302_find_mode s fr w h false with
      | none => rfl
      | some m =>
        have := (hiff m).mp hf
        exact absurd this.2 (hall m this.1)
  · rw [find_mode_eq]; decide
  · rw [find_mode_eq]; decide

/-- C12 at the size (1280, 720): the lookup returns the 720P entry. -/
theorem C12_find_mode_exact_witness :
    ap1302_find_mode {} AP1302_30_FPS 1280 720 false
      = some (ap1302_mode_entry AP1302_MODE_720P_1280_720) :=
  ((C12_find_mode_exact {} AP1302_30_FPS 1280 720 (by decide) (by decide)).1
    (ap1302_mode_entry AP1302_MODE_720P_1280_720)).mpr (by decide)

theorem mode_data_max : ∀ m ∈ ap1302_mode_data, m.hact ≤ 3840 ∧ m.vact ≤ 2160 := by
  decide

/-- The error of `v4l2_find_nearest_size` is the Manhattan distance to the
requested `int` values when these are more than the largest catalog size
above the least `int`. -/
theorem size_error_eq_int (m : ap1302_mode_info) (w h : Nat) (h1 : m.hact ≤ 3840)
    (h2 : m.vact ≤ 2160) (lw : 3840 - 2 ^ 31 < s32 w) (lh : 2160 - 2 ^ 31 < s32 h) :
    size_error m w h = spec_distance_int m (s32 w) (s32 h) := by
  simp only [size_error, abs_s32, u32, spec_distance_int, s32] at *
  split_ifs at * <;> omega

/-- C13 (amended): `ap1302_find_mode` with `nearest = true` never returns
NULL, for every requested size (the two `int` arguments, given by their
32-bit patterns): it returns a catalog entry, and that entry minimises over
the ten entries of the catalog the 32-bit error
`abs(hact - width) + abs(vact - height)` that `v4l2_find_nearest_size`
computes. For a size of non-negative `int` values (patterns below `2 ^ 31`)
that entry minimises the Manhattan distance `|hact - width| + |vact - height|`,
and an entry whose size is the requested one is the entry returned when there
is one. More generally, for `int` values above `3840 - 2 ^ 31` (width) and
`2160 - 2 ^ 31` (height), negative ones included, the entry minimises the
Manhattan distance to these `int` values. For (1921, 1081) it returns the
1080P entry. -/
theorem C13_find_mode_nearest (s : ap1302_dev) (fr w h : Nat) :
    (∃ m, ap1302_find_mode s fr w h true = some m ∧ m ∈ ap1302_mode_data ∧
      (∀ m' ∈ ap1302_mode_data, size_error m w h ≤ size_error m' w h) ∧
      (w < 2 ^ 31 → h < 2 ^ 31 →
        (∀ m' ∈ ap1302_mode_data, spec_distance m w h ≤ spec_distance m' w h) ∧
        (∀ m0 ∈ ap1302_mode_data, m0.hact = w → m0.vact = h → m = m0)) ∧
      (3840 - 2 ^ 31 < s32 w → 2160 - 2 ^ 31 < s32 h →
        ∀ m' ∈ ap1302_mode_data,
          spec_distance_int m (s32 w) (s32 h) ≤ spec_distance_int m' (s32 w) (s32 h))) ∧
    ap1302_mode_data.length = 10 ∧
    ap1302_find_mode s fr 1921 1081 true
      = some (ap1302_mode_entry AP1302_MODE_1080P_1920_1080) := by
  refine ⟨?_, by decide, by rw [find_mode_eq]; decide⟩
  obtain ⟨m, hm, e, hmin0⟩ := find_nearest_some w h
  refine ⟨m, find_mode_nearest s fr w h m e, hm, hmin0, ?_, ?_⟩
  · intro hw hh
    obtain ⟨m1, _, e1, hmin⟩ := find_nearest_spec w h hw hh
    have hmm : m1 = m := Option.some.inj (e1.symm.trans e)
    subst hmm
    refine ⟨hmin, ?_⟩
    intro m0 hm0 e1 e2
    have hz : spec_distance m1 w h = 0 := by
      have h1 := hmin m0 hm0
      have h2 := (spec_distance_zero m0 w h).mpr ⟨e1, e2⟩
      omega
    have hz' := (spec_distance_zero m1 w h).mp hz
    exact mode_data_sizes_distinct m1 hm m0 hm0 (hz'.1.trans e1.symm) (hz'.2.trans e2.symm)
  · intro lw lh m' hm'
    have b := mode_data_max m hm
    have b' := mode_data_max m' hm'
    rw [← size_error_eq_int m w h b.1 b.2 lw lh, ← size_error_eq_int m' w h b'.1 b'.2 lw lh]
    exact hmin0 m' hm'

/-- C13 (amended) at the size (2000, 1000): the lookup returns the 1080P
entry, at distance 160, the least of the catalog. -/
theorem C13_find_mode_nearest_witness :
    ap1302_find_mode {} AP1302_30_FPS 2000 1000 true
      = some (ap1302_mode_entry AP1302_MODE_1080P_1920_1080) ∧
    ∃ m, ap1302_find_mode {} AP1302_30_FPS 2000 1000 true = some m ∧
      ∀ m' ∈ ap1302_mode_data, spec_distance m 2000 1000 ≤ spec_distance m' 2000 1000 :=
  have h := (C13_find_mode_nearest {} AP1302_30_FPS 2000 1000).1
  ⟨by decide, h.elim fun m hm => ⟨m, hm.1, (hm.2.2.2.1 (by decide) (by decide)).1⟩⟩

/-- C13 (as stated, refuted): the minimisation does not hold for every pair
of 32-bit values. For the width and height `2 ^ 32 - 1`, which
`ap1302_try_fmt_internal` passes on from a format of that `u32` size, the
lookup returns the QCIF entry although the 4K entry is nearer to
`(2 ^ 32 - 1, 2 ^ 32 - 1)`: the values arrive as the `int` -1. For the
width and height `2 ^ 31`, the `int` value `-2 ^ 31`, the lookup returns the
4K entry although the QCIF entry is nearer to `(-2 ^ 31, -2 ^ 31)`: the
subtraction `hact - width` wraps. So the claim fails whether the requested
values are read as unsigned or as `int`. -/
theorem C13_counterexample :
    ap1302_find_mode {} AP1302_30_FPS 4294967295 4294967295 true
      = some (ap1302_mode_entry AP1302_MODE_QCIF_176_144) ∧
    spec_distance (ap1302_mode_entry AP1302_MODE_4K_3840_2160) 4294967295 4294967295
      < spec_distance (ap1302_mode_entry AP1302_MODE_QCIF_176_144) 4294967295 4294967295 ∧
    ap1302_find_mode {} AP1302_30_FPS 2147483648 2147483648 true
      = some (ap1302_mode_entry AP1302_MODE_4K_3840_2160) ∧
    s32 2147483648 = -2147483648 ∧
    spec_distance_int (ap1302_mode_entry AP1302_MODE_QCIF_176_144) (s32 2147483648) (s32 2147483648)
      < spec_distance_int (ap1302_mode_entry AP1302_MODE_4K_3840_2160) (s32 2147483648)
          (s32 2147483648) := by
  refine ⟨by rw [find_mode_eq]; decide, by decide, by rw [find_mode_eq]; decide, by decide,
    by decide⟩

/-! ## C14: the legal frame rates of a mode -/

theorem check_valid_mode_bus (s1 s2 : ap1302_dev) (m : ap1302_mode_info) (rate : Nat)
    (h : m.id ≠ AP1302_MODE_1080P_1920_1080) :
    ap1302_check_valid_mode s1 m rate = ap1302_check_valid_mode s2 m rate := by
  unfold ap1302_check_valid_mode
  rw [if_neg h, if_neg h]

theorem mode_data_id_1080P : ∀ m ∈ ap1302_mode_data,
    m ≠ ap1302_mode_entry AP1302_MODE_1080P_1920_1080 → m.id ≠ AP1302_MODE_1080P_1920_1080 := by
  decide

theorem check_valid_mode_4K (s : ap1302_dev) (m : ap1302_mode_info) (rate : Nat)
    (h : m.id = 9) :
    ap1302_check_valid_mode s m rate = if rate ≠ AP1302_30_FPS then -EINVAL else 0 := by
  simp [ap1302_check_valid_mode, h, AP1302_MODE_QCIF_176_144, AP1302_MODE_QVGA_320_240,
    AP1302_MODE_NTSC_720_480, AP1302_MODE_PAL_720_576, AP1302_MODE_XGA_1024_768,
    AP1302_MODE_720P_1280_720, AP1302_MODE_VGA_640_480, AP1302_MODE_1080P_1920_1080,
    AP1302_MODE_QSXGA_2592_1944, AP1302_MODE_4K_3840_2160]

theorem check_valid_mode_1080P (s : ap1302_dev) (m : ap1302_mode_info) (rate : Nat)
    (h : m.id = 7) :
    ap1302_check_valid_mode s m rate
      = if s.bus_type = V4L2_MBUS_CSI2_DPHY then
          (if rate ≠ AP1302_15_FPS ∧ rate ≠ AP1302_30_FPS then -EINVAL else 0)
        else (if rate ≠ AP1302_15_FPS then -EINVAL else 0) := by
  simp [ap1302_check_valid_mode, h, AP1302_MODE_QCIF_176_144, AP1302_MODE_QVGA_320_240,
    AP1302_MODE_NTSC_720_480, AP1302_MODE_PAL_720_576, AP1302_MODE_XGA_1024_768,
    AP1302_MODE_720P_1280_720, AP1302_MODE_VGA_640_480, AP1302_MODE_1080P_1920_1080,
    AP1302_MODE_QSXGA_2592_1944, AP1302_MODE_4K_3840_2160]

/-- C14: `ap1302_check_valid_mode` on the 4K entry returns 0 exactly for the
class `AP1302_30_FPS`, for every session (so every bus type) and every
frame-rate value, and returns `-EINVAL` for every other value, the classes
8, 15 and 60 fps among them. Its result depends on the session, through the
bus type, for exactly one catalog entry, the 1080P one: there the classes 15
and 30 are accepted on CSI-2 D-PHY and only 15 on any other bus type, and
every rejected value gives `-EINVAL`. -/
theorem C14_check_valid_mode :
    (∀ (s : ap1302_dev) (rate : Nat),
      ap1302_check_valid_mode s (ap1302_mode_entry AP1302_MODE_4K_3840_2160) rate = 0
        ↔ rate = AP1302_30_FPS) ∧
    (∀ (s : ap1302_dev) (rate : Nat), rate ≠ AP1302_30_FPS →
      ap1302_check_valid_mode s (ap1302_mode_entry AP1302_MODE_4K_3840_2160) rate = -EINVAL) ∧
    (∀ (s : ap1302_dev),
      ap1302_check_valid_mode s (ap1302_mode_entry AP1302_MODE_4K_3840_2160) AP1302_08_FPS = -EINVAL ∧
      ap1302_check_valid_mode s (ap1302_mode_entry AP1302_MODE_4K_3840_2160) AP1302_15_FPS = -EINVAL ∧
      ap1302_check_valid_mode s (ap1302_mode_entry AP1302_MODE_4K_3840_2160) AP1302_60_FPS = -EINVAL) ∧
    (∀ m ∈ ap1302_mode_data,
      (∀ (s1 s2 : ap1302_dev) (rate : Nat),
        ap1302_check_valid_mode s1 m rate = ap1302_check_valid_mode s2 m rate)
        ↔ m ≠ ap1302_mode_entry AP1302_MODE_1080P_1920_1080) ∧
    (∀ (s : ap1302_dev) (rate : Nat),
      ap1302_check_valid_mode s (ap1302_mode_entry AP1302_MODE_1080P_1920_1080) rate = 0
        ↔ (if s.bus_type = V4L2_MBUS_CSI2_DPHY then rate = AP1302_15_FPS ∨ rate = AP1302_30_FPS
           else rate = AP1302_15_FPS)) ∧
    (∀ (s : ap1302_dev) (rate : Nat),
      ap1302_check_valid_mode s (ap1302_mode_entry AP1302_MODE_1080P_1920_1080) rate ≠ 0 →
      ap1302_check_valid_mode s (ap1302_mode_entry AP1302_MODE_1080P_1920_1080) rate = -EINVAL) := by
  have hE : -EINVAL ≠ (0 : Int) := by decide
  have h4 : ∀ (s : ap1302_dev) (rate : Nat), rate ≠ AP1302_30_FPS →
      ap1302_check_valid_mode s (ap1302_mode_entry AP1302_MODE_4K_3840_2160) rate = -EINVAL := by
    intro s rate c
    rw [check_valid_mode_4K s _ rate rfl, if_pos c]
  refine ⟨?_, h4, ?_, ?_, ?_, ?_⟩
  · intro s rate
    rw [check_valid_mode_4K s _ rate rfl]
    by_cases c : rate = AP1302_30_FPS
    · simp [c]
    · simp [c, hE]
  · intro s
    exact ⟨h4 s _ (by decide), h4 s _ (by decide), h4 s _ (by decide)⟩
  · intro m hm
    constructor
    · intro hall heq
      subst heq
      have := hall {} { bus_type := 0 } AP1302_30_FPS
      revert this
      decide
    · intro hne s1 s2 rate
      exact check_valid_mode_bus s1 s2 m rate (mode_data_id_1080P m hm hne)
  · intro s rate
    rw [check_valid_mode_1080P s _ rate rfl]
    by_cases cb : s.bus_type = V4L2_MBUS_CSI2_DPHY
    · rw [if_pos cb, if_pos cb]
      by_cases c : rate = AP1302_15_FPS ∨ rate = AP1302_30_FPS
      · rcases c with c | c <;> simp [c]
      · have c' := not_or.mp c
        simp [c'.1, c'.2, hE]
    · rw [if_neg cb, if_neg cb]
      by_cases c : rate = AP1302_15_FPS
      · simp [c]
      · simp [c, hE]
  · intro s rate
    rw [check_valid_mode_1080P s _ rate rfl]
    by_cases cb : s.bus_type = V4L2_MBUS_CSI2_DPHY
    · rw [if_pos cb]
      by_cases c : rate ≠ AP1302_15_FPS ∧ rate ≠ AP1302_30_FPS
      · rw [if_pos c]; intro _; rfl
      · rw [if_neg c]; intro h; exact absurd rfl h
    · rw [if_neg cb]
      by_cases c : rate ≠ AP1302_15_FPS
      · rw [if_pos c]; intro _; rfl
      · rw [if_neg c]; intro h; exact absurd rfl h

/-! ## C15: the pixel rate -/

theorem pixel_rate_table : ∀ m ∈ ap1302_mode_data, ∀ fr, fr < AP1302_NUM_FRAMERATES →
    u64 (u32 (m.vtot * m.htot) * (framerate fr % 2 ^ 64).toNat)
        = m.htot * m.vtot * (framerate fr).toNat ∧
    m.vtot * m.htot < 2 ^ 32 ∧
    m.htot * m.vtot * (framerate fr).toNat < 2 ^ 64 ∧
    m.htot * m.vtot * (framerate fr).toNat ≤ INT_MAX := by
  decide

/-- C15: for a session whose `current_mode` is a catalog entry and whose
`current_fr` is one of the four classes, `ap1302_calc_pixel_rate` is exactly
`htot * vtot * fps`, with `fps` the rate 8, 15, 30 or 60 of the class: the
32-bit product `vtot * htot` does not wrap, nor does the 64-bit product, and
the result is at most `INT_MAX`, so the control `pixel_rate` stores it
unchanged. -/
theorem C15_pixel_rate (s : ap1302_dev) (hm : s.current_mode ∈ ap1302_mode_data)
    (hfr : s.current_fr < AP1302_NUM_FRAMERATES) :
    ap1302_calc_pixel_rate s
      = s.current_mode.htot * s.current_mode.vtot * (framerate s.current_fr).toNat ∧
    s.current_mode.vtot * s.current_mode.htot < 2 ^ 32 ∧
    ap1302_calc_pixel_rate s ≤ INT_MAX ∧
    (__v4l2_ctrl_s_ctrl_int64 s (ap1302_calc_pixel_rate s)).pixel_rate
      = ap1302_calc_pixel_rate s ∧
    ap1302_framerates = [8, 15, 30, 60] := by
  obtain ⟨h1, h2, h3, h4⟩ := pixel_rate_table s.current_mode hm s.current_fr hfr
  have e : ap1302_calc_pixel_rate s
      = s.current_mode.htot * s.current_mode.vtot * (framerate s.current_fr).toNat := h1
  refine ⟨e, h2, by rw [e]; exact h4, ?_, rfl⟩
  show (if ap1302_calc_pixel_rate s ≥ 2 ^ 63 then 0 else min (ap1302_calc_pixel_rate s) INT_MAX)
    = ap1302_calc_pixel_rate s
  rw [e]
  have h5 : ¬ (s.current_mode.htot * s.current_mode.vtot * (framerate s.current_fr).toNat
      ≥ 2 ^ 63) := by
    simp only [INT_MAX] at h4
    omega
  rw [if_neg h5]
  exact Nat.min_eq_left h4

/-- C15 on the session of `ap1302_probe`, 4K at 30 frames per second: the
pixel rate is 3840 * 2160 * 30. -/
theorem C15_pixel_rate_witness :
    ap1302_calc_pixel_rate {} = 3840 * 2160 * 30 ∧ ap1302_calc_pixel_rate {} ≤ INT_MAX :=
  have h := C15_pixel_rate {} (by decide) (by decide)
  ⟨h.1.trans (by decide), h.2.2.1⟩

/-! ## C16: the class of a requested frame interval -/

/-- The loop of `ap1302_try_frame_interval` on a rate between 8 and 60: it
ends with the class `fps_class` of the rate. -/
theorem try_frame_interval_loop_table : ∀ fps : Nat, fps < 61 → 8 ≤ fps →
    ap1302_try_frame_interval_loop ap1302_framerates.length 0 (fps : Int)
        (framerate AP1302_08_FPS) AP1302_08_FPS
      = (framerate (fps_class fps), fps_class fps) ∧
    ∀ c, c < AP1302_NUM_FRAMERATES →
      (framerate (fps_class fps) - (fps : Int)).natAbs ≤ (framerate c - (fps : Int)).natAbs := by
  decide

theorem fps_class_lt (fps : Nat) : fps_class fps < AP1302_NUM_FRAMERATES := by
  unfold fps_class
  split_ifs <;> decide

theorem framerate_class_toNat : ∀ c, c < AP1302_NUM_FRAMERATES →
    ((framerate c).toNat : Int) = framerate c := by
  decide

/-- The result of `ap1302_try_frame_interval` for the size of a catalog
entry: the final lookup succeeds, so the class selected is returned. -/
theorem try_frame_interval_of_mem (s : ap1302_dev) (fi : v4l2_fract) (m : ap1302_mode_info)
    (hm : m ∈ ap1302_mode_data) :
    ap1302_try_frame_interval s fi m.hact m.vact
      = if fi.numerator = 0 then ((AP1302_60_FPS : Int), ⟨1, 60⟩)
        else
          (((ap1302_try_frame_interval_loop ap1302_framerates.length 0
              (clamp_val (DIV_ROUND_CLOSEST fi.denominator fi.numerator) 8 60 : Nat)
              (framerate AP1302_08_FPS) AP1302_08_FPS).2 : Int),
           ⟨1, (ap1302_try_frame_interval_loop ap1302_framerates.length 0
              (clamp_val (DIV_ROUND_CLOSEST fi.denominator fi.numerator) 8 60 : Nat)
              (framerate AP1302_08_FPS) AP1302_08_FPS).1.toNat⟩) := by
  unfold ap1302_try_frame_interval
  dsimp only
  rw [find_mode_of_mem s _ false m hm, find_mode_of_mem s _ false m hm]
  rfl

theorem clamp_val_bounds (v : Nat) : 8 ≤ clamp_val v 8 60 ∧ clamp_val v 8 60 < 61 := by
  simp only [clamp_val]
  omega

/-- C16 (amended): for an interval with a non-zero numerator whose
sum `denominator + numerator / 2` fits 32 bits, and the size of a catalog
entry, `ap1302_try_frame_interval` first rounds the requested rate
`denominator / numerator` to the closest integer and clamps it to the range
8 to 60, giving `R`; it returns the class `fps_class R`, whose rate is the
nearest of 8, 15, 30 and 60 to `R` (the lower class on a tie), and rewrites
the interval to 1 over the rate of that class. -/
theorem C16_try_frame_interval (s : ap1302_dev) (fi : v4l2_fract) (m : ap1302_mode_info)
    (hm : m ∈ ap1302_mode_data) (hn : fi.numerator ≠ 0)
    (hsum : fi.denominator + fi.numerator / 2 < 2 ^ 32) :
    (ap1302_try_frame_interval s fi m.hact m.vact).1
      = fps_class (clamp_val ((fi.denominator + fi.numerator / 2) / fi.numerator) 8 60) ∧
    (ap1302_try_frame_interval s fi m.hact m.vact).2
      = ⟨1, (framerate (fps_class
          (clamp_val ((fi.denominator + fi.numerator / 2) / fi.numerator) 8 60))).toNat⟩ ∧
    (∀ c, c < AP1302_NUM_FRAMERATES →
      (framerate (fps_class (clamp_val ((fi.denominator + fi.numerator / 2) / fi.numerator)
          8 60))
        - (clamp_val ((fi.denominator + fi.numerator / 2) / fi.numerator) 8 60 : Nat)).natAbs
      ≤ (framerate c
        - (clamp_val ((fi.denominator + fi.numerator / 2) / fi.numerator) 8 60 : Nat)).natAbs) := by
  have hd : DIV_ROUND_CLOSEST fi.denominator fi.numerator
      = (fi.denominator + fi.numerator / 2) / fi.numerator := by
    simp only [DIV_ROUND_CLOSEST, u32]
    rw [Nat.mod_eq_of_lt hsum]
  have hb := clamp_val_bounds ((fi.denominator + fi.numerator / 2) / fi.numerator)
  have ht := try_frame_interval_loop_table _ hb.2 hb.1
  rw [try_frame_interval_of_mem s fi m hm, if_neg hn, hd, ht.1]
  exact ⟨rfl, rfl, ht.2⟩

/-- C16 (amended) on the interval 1/25 at the 4K size: the class returned is that of
30 frames per second and the interval becomes 1/30. -/
theorem C16_try_frame_interval_witness :
    ap1302_try_frame_interval {} ⟨1, 25⟩ 3840 2160 = ((AP1302_30_FPS : Int), ⟨1, 30⟩) :=
  have h := C16_try_frame_interval {} ⟨1, 25⟩ (ap1302_mode_entry AP1302_MODE_4K_3840_2160)
    (by decide) (by decide) (by decide)
  Prod.ext (h.1.trans (by decide)) (h.2.1.trans (by decide))

/-- C16 (as stated, refuted): for the interval 5/227, a rate of 45.4 frames per
second, the class returned is that of 30 although 60 is strictly nearer to
the requested rate: the rate is rounded to 45 first. For the interval
2/4294967295 the rounding wraps on 32 bits and the class returned is that of
8, although the requested rate is above 60. -/
theorem C16_counterexample :
    ap1302_try_frame_interval {} ⟨5, 227⟩ 3840 2160 = ((AP1302_30_FPS : Int), ⟨1, 30⟩) ∧
    spec_rate_error ⟨5, 227⟩ 60 < spec_rate_error ⟨5, 227⟩ 30 ∧
    ap1302_try_frame_interval {} ⟨2, 4294967295⟩ 3840 2160 = ((AP1302_08_FPS : Int), ⟨1, 8⟩) ∧
    spec_rate_error ⟨2, 4294967295⟩ 60 < spec_rate_error ⟨2, 4294967295⟩ 8 := by
  decide

/-! ## C17: a request with numerator 0 -/

theorem check_valid_mode_60 (s : ap1302_dev) (mode : ap1302_mode_info) :
    ap1302_check_valid_mode s mode AP1302_60_FPS = -EINVAL := by
  simp [ap1302_check_valid_mode, AP1302_60_FPS, AP1302_15_FPS, AP1302_30_FPS, AP1302_08_FPS]

/-- C17 (amended): for the size of every catalog entry, a request
with numerator 0 is resolved by `ap1302_try_frame_interval` to the class
`AP1302_60_FPS` and the interval 1/60, whatever the mode: neither the mode
nor `ap1302_check_valid_mode` is consulted, and that class is one
`ap1302_check_valid_mode` accepts for no mode. -/
theorem C17_zero_numerator (s : ap1302_dev) (fi : v4l2_fract) (m : ap1302_mode_info)
    (hm : m ∈ ap1302_mode_data) (hn : fi.numerator = 0) :
    ap1302_try_frame_interval s fi m.hact m.vact = ((AP1302_60_FPS : Int), ⟨1, 60⟩) ∧
    ∀ mode, ap1302_check_valid_mode s mode AP1302_60_FPS = -EINVAL := by
  rw [try_frame_interval_of_mem s fi m hm, if_pos hn]
  exact ⟨rfl, check_valid_mode_60 s⟩

/-- C17 (amended) on the 4K size with the interval 0/1. -/
theorem C17_zero_numerator_witness :
    ap1302_try_frame_interval {} ⟨0, 1⟩ 3840 2160 = ((AP1302_60_FPS : Int), ⟨1, 60⟩) :=
  (C17_zero_numerator {} ⟨0, 1⟩ (ap1302_mode_entry AP1302_MODE_4K_3840_2160) (by decide) rfl).1

/-- C17 (as stated, refuted): for the 4K size a request with numerator 0 is
resolved to the class of 60 frames per second and the interval 1/60, not to
the class of 30, the only one `ap1302_check_valid_mode` accepts for the 4K
mode: the class returned is rejected by it. -/
theorem C17_counterexample :
    ap1302_try_frame_interval {} ⟨0, 1⟩ 3840 2160 = ((AP1302_60_FPS : Int), ⟨1, 60⟩) ∧
    ap1302_check_valid_mode {} (ap1302_mode_entry AP1302_MODE_4K_3840_2160) AP1302_60_FPS
      = -EINVAL ∧
    ap1302_check_valid_mode {} (ap1302_mode_entry AP1302_MODE_4K_3840_2160) AP1302_30_FPS = 0 := by
  decide

/-! ## C18: committing a frame interval -/

/-- For the size of a catalog entry `ap1302_try_frame_interval` returns a
class, never an error. -/
theorem try_frame_interval_class (s : ap1302_dev) (fi : v4l2_fract) (m : ap1302_mode_info)
    (hm : m ∈ ap1302_mode_data) :
    ∃ rate : Nat, (ap1302_try_frame_interval s fi m.hact m.vact).1 = (rate : Int) := by
  rw [try_frame_interval_of_mem s fi m hm]
  by_cases hn : fi.numerator = 0
  · rw [if_pos hn]; exact ⟨AP1302_60_FPS, rfl⟩
  · rw [if_neg hn]; exact ⟨_, rfl⟩

/-- C18 (amended): for a session that is not streaming and whose
`current_mode` is a catalog entry, `ap1302_s_frame_interval` on pad 0 returns
0 for every requested interval and hands back the interval
`ap1302_try_frame_interval` resolves it to. When the class resolved differs
from `current_fr` it is committed, with that interval, the same
`current_mode` and `pending_mode_change = true`; otherwise the session is
unchanged. `ap1302_check_valid_mode` plays no part: the class is committed
whether or not it is legal for the current mode. -/
theorem C18_s_frame_interval_commits (s : ap1302_dev) (fi : v4l2_subdev_frame_interval)
    (hs : s.streaming = false) (hm : s.current_mode ∈ ap1302_mode_data) (hp : fi.pad = 0) :
    0 ≤ (ap1302_try_frame_interval s fi.interval s.current_mode.hact s.current_mode.vact).1 ∧
    (ap1302_s_frame_interval s fi).1 = 0 ∧
    (ap1302_s_frame_interval s fi).2.2.interval
      = (ap1302_try_frame_interval s fi.interval s.current_mode.hact s.current_mode.vact).2 ∧
    ((ap1302_try_frame_interval s fi.interval s.current_mode.hact s.current_mode.vact).1.toNat
        ≠ s.current_fr →
      (ap1302_s_frame_interval s fi).2.1.current_fr
        = (ap1302_try_frame_interval s fi.interval s.current_mode.hact
            s.current_mode.vact).1.toNat ∧
      (ap1302_s_frame_interval s fi).2.1.frame_interval
        = (ap1302_try_frame_interval s fi.interval s.current_mode.hact s.current_mode.vact).2 ∧
      (ap1302_s_frame_interval s fi).2.1.current_mode = s.current_mode ∧
      (ap1302_s_frame_interval s fi).2.1.pending_mode_change = true) ∧
    ((ap1302_try_frame_interval s fi.interval s.current_mode.hact s.current_mode.vact).1.toNat
        = s.current_fr →
      (ap1302_s_frame_interval s fi).2.1 = s) := by
  obtain ⟨rate, hr⟩ := try_frame_interval_class s fi.interval s.current_mode hm
  have hnn : ¬ (ap1302_try_frame_interval s fi.interval s.current_mode.hact
      s.current_mode.vact).1 < 0 := by rw [hr]; omega
  have hfind : ∀ fr, ap1302_find_mode s fr s.current_mode.hact s.current_mode.vact true
      = some s.current_mode := fun fr => find_mode_of_mem s fr true s.current_mode hm
  have hpad : ¬ fi.pad ≠ 0 := by rw [hp]; exact fun h => h rfl
  have hstr : ¬ s.streaming = true := by rw [hs]; exact Bool.false_ne_true
  have hval : ap1302_s_frame_interval s fi
      = if s.current_mode ≠ s.current_mode ∨
            (ap1302_try_frame_interval s fi.interval s.current_mode.hact
              s.current_mode.vact).1.toNat ≠ s.current_fr then
          (0, __v4l2_ctrl_s_ctrl_int64
              { s with current_fr := (ap1302_try_frame_interval s fi.interval
                          s.current_mode.hact s.current_mode.vact).1.toNat,
                       frame_interval := (ap1302_try_frame_interval s fi.interval
                          s.current_mode.hact s.current_mode.vact).2,
                       current_mode := s.current_mode, pending_mode_change := true }
              (ap1302_calc_pixel_rate
                { s with current_fr := (ap1302_try_frame_interval s fi.interval
                            s.current_mode.hact s.current_mode.vact).1.toNat,
                         frame_interval := (ap1302_try_frame_interval s fi.interval
                            s.current_mode.hact s.current_mode.vact).2,
                         current_mode := s.current_mode, pending_mode_change := true }),
            { fi with interval := (ap1302_try_frame_interval s fi.interval
                s.current_mode.hact s.current_mode.vact).2 })
        else (0, s, { fi with interval := (ap1302_try_frame_interval s fi.interval
                s.current_mode.hact s.current_mode.vact).2 }) := by
    unfold ap1302_s_frame_interval
    rw [if_neg hpad, if_neg hstr]
    dsimp only
    rw [if_neg hnn, hfind]
  refine ⟨by rw [hr]; omega, ?_, ?_, ?_, ?_⟩
  · rw [hval]; split_ifs <;> rfl
  · rw [hval]; split_ifs <;> rfl
  · intro hne
    rw [hval, if_pos (Or.inr hne)]
    exact ⟨rfl, rfl, rfl, rfl⟩
  · intro heq
    rw [hval, if_neg (by simp [heq])]

/-- C18 (amended) on the session of `ap1302_probe` (4K at 30 frames per second) with
the interval 1/30: the call returns 0 and the session is unchanged. -/
theorem C18_s_frame_interval_commits_witness :
    (ap1302_s_frame_interval {} { pad := 0, interval := ⟨1, 30⟩ }).1 = 0 ∧
    (ap1302_s_frame_interval {} { pad := 0, interval := ⟨1, 30⟩ }).2.1.current_fr
      = AP1302_30_FPS :=
  have h := C18_s_frame_interval_commits {} { pad := 0, interval := ⟨1, 30⟩ } rfl (by decide) rfl
  ⟨h.2.1, congrArg ap1302_dev.current_fr (h.2.2.2.2 (by decide))⟩

/-- C18 (as stated, refuted): on the session of `ap1302_probe`, 4K at 30 frames
per second and not streaming, the request 1/15 on pad 0 resolves to the class
of 15, which `ap1302_check_valid_mode` rejects for the 4K mode; yet the call
returns 0 and commits it: `current_fr` becomes the class of 15,
`frame_interval` becomes 1/15 and `pending_mode_change` becomes true. The
pair is rejected only later, by `ap1302_s_stream`, which returns `-EINVAL`
and leaves `streaming` false. -/
theorem C18_counterexample :
    (ap1302_s_frame_interval {} { pad := 0, interval := ⟨1, 15⟩ }).1 = 0 ∧
    (ap1302_s_frame_interval {} { pad := 0, interval := ⟨1, 15⟩ }).2.1.current_fr
      = AP1302_15_FPS ∧
    (ap1302_s_frame_interval {} { pad := 0, interval := ⟨1, 15⟩ }).2.1.frame_interval
      = ⟨1, 15⟩ ∧
    (ap1302_s_frame_interval {} { pad := 0, interval := ⟨1, 15⟩ }).2.1.current_mode
      = ap1302_mode_entry AP1302_MODE_4K_3840_2160 ∧
    (ap1302_s_frame_interval {} { pad := 0, interval := ⟨1, 15⟩ }).2.1.pending_mode_change
      = true ∧
    ({} : ap1302_dev).current_fr = AP1302_30_FPS ∧
    ({} : ap1302_dev).frame_interval = ⟨1, 30⟩ ∧
    ({} : ap1302_dev).pending_mode_change = false ∧
    ap1302_check_valid_mode {} (ap1302_mode_entry AP1302_MODE_4K_3840_2160) AP1302_15_FPS
      = -EINVAL ∧
    (ap1302_s_stream
      (ap1302_s_frame_interval {} { pad := 0, interval := ⟨1, 15⟩ }).2.1 1).1 = -EINVAL ∧
    (ap1302_s_stream
      (ap1302_s_frame_interval {} { pad := 0, interval := ⟨1, 15⟩ }).2.1 1).2.streaming
      = false := by
  decide

/-! ## C19: starting the stream with a pending mode change -/

/-- C20: for every session with `streaming = true`, `ap1302_set_fmt` and
`ap1302_s_frame_interval` on pad 0 return `-EBUSY` for every request and
every try format, and hand back the session, the try format and the request
as they were: no bus transaction is issued (the log and the transaction
count are those of before) and the committed format, `current_mode`,
`current_fr`, `frame_interval`, `pending_mode_change`, `pending_fmt_change`
and `streaming` are unchanged. -/
theorem C20_busy_while_streaming (s : ap1302_dev) (try_fmt : v4l2_mbus_framefmt)
    (format : v4l2_subdev_format) (fi : v4l2_subdev_frame_interval)
    (hs : s.streaming = true) (hp : format.pad = 0) (hq : fi.pad = 0) :
    ap1302_set_fmt s try_fmt format = (-EBUSY, s, try_fmt, format) ∧
    ap1302_s_frame_interval s fi = (-EBUSY, s, fi) ∧
    (ap1302_set_fmt s try_fmt format).2.1.log = s.log ∧
    (ap1302_s_frame_interval s fi).2.1.log = s.log ∧
    (ap1302_set_fmt s try_fmt format).2.1.seq = s.seq ∧
    (ap1302_s_frame_interval s fi).2.1.seq = s.seq := by
  have h1 : ap1302_set_fmt s try_fmt format = (-EBUSY, s, try_fmt, format) := by
    unfold ap1302_set_fmt
    rw [if_neg (by rw [hp]; exact fun h => h rfl), if_pos hs]
  have h2 : ap1302_s_frame_interval s fi = (-EBUSY, s, fi) := by
    unfold ap1302_s_frame_interval
    rw [if_neg (by rw [hq]; exact fun h => h rfl), if_pos hs]
  refine ⟨h1, h2, ?_, ?_, ?_, ?_⟩
  · rw [h1]
  · rw [h2]
  · rw [h1]
  · rw [h2]

/-- C20 on a streaming session: a request for 1920x1080 and a request for
the interval 1/15 are both refused with `-EBUSY`. -/
theorem C20_busy_while_streaming_witness :
    (ap1302_set_fmt { streaming := true } {}
      { which := V4L2_SUBDEV_FORMAT_ACTIVE, format := { width := 1920, height := 1080 } }).1
      = -EBUSY ∧
    (ap1302_s_frame_interval { streaming := true } { interval := ⟨1, 15⟩ }).1 = -EBUSY ∧
    (ap1302_s_frame_interval { streaming := true } { interval := ⟨1, 15⟩ }).2.1.current_fr
      = AP1302_30_FPS :=
  have h := C20_busy_while_streaming { streaming := true } {}
    { which := V4L2_SUBDEV_FORMAT_ACTIVE, format := { width := 1920, height := 1080 } }
    { interval := ⟨1, 15⟩ } rfl rfl rfl
  ⟨congrArg Prod.fst h.1, congrArg Prod.fst h.2.1,
    (congrArg (fun r => r.2.1.current_fr) h.2.1).trans rfl⟩

/-! ## Steps made of register accesses -/

theorem raw_write_payloads_append (l1 l2 : List Event) :
    raw_write_payloads (l1 ++ l2) = raw_write_payloads l1 ++ raw_write_payloads l2 := by
  simp [raw_write_payloads, List.filterMap_append]

theorem reg_step_refl (s : ap1302_dev) : reg_step s s :=
  ⟨s.reg_page, s.seq, [], by simp, rfl⟩

theorem reg_step_trans {s t u : ap1302_dev} (h1 : reg_step s t) (h2 : reg_step t u) :
    reg_step s u := by
  obtain ⟨p1, q1, e1, rfl, hp1⟩ := h1
  obtain ⟨p2, q2, e2, rfl, hp2⟩ := h2
  exact ⟨p2, q2, e1 ++ e2, by simp [List.append_assoc],
    by rw [raw_write_payloads_append, hp1, hp2]; rfl⟩

theorem reg_step_page {s t : ap1302_dev} (h : reg_step s t) (page : Nat) :
    reg_step s { t with reg_page := page } := by
  obtain ⟨p1, q1, e1, rfl, hp1⟩ := h
  exact ⟨page, q1, e1, rfl, hp1⟩

theorem regmap_write_reg_step (s : ap1302_dev) (c : Chan) (addr val : Nat) :
    reg_step s (regmap_write s c addr val).2 :=
  ⟨s.reg_page, s.seq + 1, [Event.regmap_write c addr val], rfl, rfl⟩

theorem regmap_read_reg_step (s : ap1302_dev) (c : Chan) (addr : Nat) :
    reg_step s (regmap_read s c addr).2.2 :=
  ⟨s.reg_page, s.seq + 1, [Event.regmap_read c addr], rfl, rfl⟩

theorem inner_write_reg_step (s : ap1302_dev) (reg val : Nat) :
    reg_step s (__ap1302_write s reg val).2 := by
  unfold __ap1302_write
  dsimp only
  split_ifs
  · exact regmap_write_reg_step _ _ _ _
  · exact regmap_write_reg_step _ _ _ _
  · exact reg_step_refl s

theorem inner_read_reg_step (s : ap1302_dev) (reg : Nat) :
    reg_step s (__ap1302_read s reg).2.2 := by
  unfold __ap1302_read
  dsimp only
  split_ifs
  · exact regmap_read_reg_step _ _ _
  · exact regmap_read_reg_step _ _ _
  · exact reg_step_refl s

theorem write_reg_step (s : ap1302_dev) (reg val : Nat) (err : Option Int) :
    reg_step s (ap1302_write s reg val err).2.2 := by
  have hsel := inner_write_reg_step s AP1302_ADVANCED_BASE (AP1302_REG_PAGE reg)
  have hset := reg_step_page hsel (AP1302_REG_PAGE reg)
  have hdata := reg_step_trans hset (inner_write_reg_step _ (adv_reg reg) val)
  unfold ap1302_write
  dsimp only [ap1302_write_done]
  by_cases hpend : err_pending err = true
  · rw [if_pos hpend]; exact reg_step_refl s
  · rw [if_neg hpend]
    by_cases h0 : AP1302_REG_PAGE reg ≠ 0
    · rw [if_pos h0]
      by_cases hp : s.reg_page ≠ AP1302_REG_PAGE reg
      · rw [if_pos hp]
        by_cases hneg : (__ap1302_write s AP1302_ADVANCED_BASE (AP1302_REG_PAGE reg)).1 < 0
        · rw [if_pos hneg]; exact hsel
        · rw [if_neg hneg]; exact hdata
      · rw [if_neg hp]; exact inner_write_reg_step s (adv_reg reg) val
    · rw [if_neg h0]; exact inner_write_reg_step s reg val

theorem read_reg_step (s : ap1302_dev) (reg : Nat) :
    reg_step s (ap1302_read s reg).2.2 := by
  have hsel := inner_write_reg_step s AP1302_ADVANCED_BASE (AP1302_REG_PAGE reg)
  have hset := reg_step_page hsel (AP1302_REG_PAGE reg)
  have hdata := reg_step_trans hset (inner_read_reg_step _ (adv_reg reg))
  unfold ap1302_read
  dsimp only
  by_cases h0 : AP1302_REG_PAGE reg ≠ 0
  · rw [if_pos h0]
    by_cases hp : s.reg_page ≠ AP1302_REG_PAGE reg
    · rw [if_pos hp]
      by_cases hneg : (__ap1302_write s AP1302_ADVANCED_BASE (AP1302_REG_PAGE reg)).1 < 0
      · rw [if_pos hneg]; exact hsel
      · rw [if_neg hneg]; exact hdata
    · rw [if_neg hp]; exact inner_read_reg_step s (adv_reg reg)
  · rw [if_neg h0]; exact inner_read_reg_step s reg

theorem reg_step_ite {s : ap1302_dev} {c : Prop} [Decidable c] {a b : Int × ap1302_dev}
    (ha : reg_step s a.2) (hb : reg_step s b.2) : reg_step s (if c then a else b).2 := by
  by_cases h : c
  · rw [if_pos h]; exact ha
  · rw [if_neg h]; exact hb

theorem set_mipi_t3_clk_reg_step (s : ap1302_dev) :
    reg_step s (ap1302_set_mipi_t3_clk s).2 := by
  have h1 := read_reg_step s AP1302_ADV_HINF_MIPI_T3
  unfold ap1302_set_mipi_t3_clk
  dsimp only
  exact reg_step_ite h1 (reg_step_trans h1 (write_reg_step _ _ _ _))

theorem set_mode_direct_reg_step (s : ap1302_dev) (mode : ap1302_mode_info) :
    reg_step s (ap1302_set_mode_direct s mode).2 := by
  unfold ap1302_set_mode_direct
  dsimp only
  exact reg_step_ite (reg_step_refl s)
    (reg_step_trans (reg_step_trans (write_reg_step _ _ _ _) (write_reg_step _ _ _ _))
      (write_reg_step _ _ _ _))

theorem set_framefmt_reg_step (s : ap1302_dev) (format : v4l2_mbus_framefmt) :
    reg_step s (ap1302_set_framefmt s format).2 := by
  unfold ap1302_set_framefmt
  dsimp only
  exact reg_step_ite (write_reg_step _ _ _ _) (reg_step_refl s)

/-- `ap1302_set_mode` is a step of register accesses followed by the
recording of the mode as applied. -/
theorem set_mode_reg_step (s : ap1302_dev) :
    ∃ t, reg_step s t ∧
      ap1302_set_mode s = (0, { t with pending_mode_change := false, last_mode := s.current_mode }) := by
  refine ⟨(ap1302_set_mode_direct s s.current_mode).2, set_mode_direct_reg_step s _, ?_⟩
  unfold ap1302_set_mode
  dsimp only
  rw [ite_self]

/-! ## C23: the result of applying the mode -/

/-- C23: `ap1302_set_mode` returns 0 for every session, whatever
`ap1302_set_mode_direct` returned: the result of the three writes is stored
in the local `ret` and dropped. So `ap1302_s_stream` with `enable = 1` and a
pending mode change, on a CSI-2 D-PHY bus, with an accepted pair and no
pending format change, returns 0 and sets `streaming` whatever the bus
does. On a bus whose transactions all fail with -5,
`ap1302_set_mode_direct` returns -5 after the first write, the writes of
width and height are skipped, `ap1302_set_mode` returns 0 and
`ap1302_s_stream` returns 0 with `streaming = true`. -/
theorem C23_set_mode_drops_error (s : ap1302_dev) :
    (ap1302_set_mode s).1 = 0 ∧
    (s.bus_type = V4L2_MBUS_CSI2_DPHY → s.streaming = false → s.pending_mode_change = true →
      ap1302_check_valid_mode s s.current_mode s.current_fr = 0 →
      s.pending_fmt_change = false →
      (ap1302_s_stream s 1).1 = 0 ∧ (ap1302_s_stream s 1).2.streaming = true) ∧
    (ap1302_set_mode_direct { pending_mode_change := true, bus := fun _ => { ret := -5 } }
        (ap1302_mode_entry AP1302_MODE_4K_3840_2160)).1 = -5 ∧
    (ap1302_set_mode { pending_mode_change := true, bus := fun _ => { ret := -5 } }).1 = 0 ∧
    (ap1302_set_mode { pending_mode_change := true, bus := fun _ => { ret := -5 } }).2.log
      = [Event.regmap_write Chan.regmap16 0x2030 0x12] ∧
    (ap1302_s_stream { pending_mode_change := true, bus := fun _ => { ret := -5 } } 1).1 = 0 ∧
    (ap1302_s_stream { pending_mode_change := true, bus := fun _ => { ret := -5 } }
        1).2.streaming = true := by
  refine ⟨rfl, ?_, by decide, by decide, by decide, by decide, by decide⟩
  intro hbus hstr hpend hvalid hfmt
  have hc1 : s.streaming = decide ((1 : Int) = 0) := by rw [hstr]; rfl
  have hc2 : ¬ ap1302_check_valid_mode s s.current_mode s.current_fr ≠ 0 := fun h => h hvalid
  have hc3 : (1 : Int) ≠ 0 ∧ s.pending_mode_change = true := ⟨by decide, hpend⟩
  have hm1 : (ap1302_set_mode s).1 = 0 := rfl
  obtain ⟨t, ⟨pg, sq, ev, ht, _⟩, hsm⟩ := set_mode_reg_step s
  have hm2 : (ap1302_set_mode s).2.pending_fmt_change = s.pending_fmt_change := by
    rw [hsm, ht]
  have hm3 : (ap1302_set_mode s).2.bus_type = s.bus_type := by
    rw [hsm, ht]
  have hc4 : ¬ ((1 : Int) ≠ 0 ∧ (ap1302_set_mode s).2.pending_fmt_change = true) := by
    rw [hm2, hfmt]; exact fun h => Bool.false_ne_true h.2
  have hval : ap1302_s_stream s 1
      = (0, { (ap1302_set_mode s).2 with
                streaming := true,
                stream_flag_writes := (ap1302_set_mode s).2.stream_flag_writes
                  ++ [((ap1302_set_mode s).2.log, true)] }) := by
    unfold ap1302_s_stream
    rw [if_pos hc1]
    dsimp only
    rw [if_neg hc2, if_pos hc3, if_neg (fun h => h hm1)]
    simp only [if_neg hc4]
    simp [ap1302_set_stream_mipi, hm3, hbus]
  rw [hval]
  exact ⟨rfl, rfl⟩

/-- C23 on the session of `ap1302_probe` with a pending mode change and a
bus whose first transaction fails with -5: the stream starts all the same. -/
theorem C23_set_mode_drops_error_witness :
    (ap1302_s_stream
      { pending_mode_change := true,
        bus := fun n => if n = 0 then { ret := -5 } else {} } 1).1 = 0 ∧
    (ap1302_s_stream
      { pending_mode_change := true,
        bus := fun n => if n = 0 then { ret := -5 } else {} } 1).2.streaming = true :=
  (C23_set_mode_drops_error
    { pending_mode_change := true,
      bus := fun n => if n = 0 then { ret := -5 } else {} }).2.1 rfl rfl rfl (by decide) rfl

/-! ## C22: the power reference count -/

theorem reg_step_power {s t : ap1302_dev} (h : reg_step s t) :
    t.power_count = s.power_count ∧ t.set_power_calls = s.set_power_calls := by
  obtain ⟨p, q, e, rfl, _⟩ := h
  exact ⟨rfl, rfl⟩

theorem restore_mode_power (s : ap1302_dev) :
    (ap1302_restore_mode s).2.power_count = s.power_count ∧
    (ap1302_restore_mode s).2.set_power_calls = s.set_power_calls := by
  have hl : ap1302_load_regs s ap1302_mode_init_data = (0, s) := rfl
  obtain ⟨t, ht, hm⟩ := set_mode_reg_step { s with last_mode := ap1302_mode_init_data }
  have hf := reg_step_power (set_framefmt_reg_step
    (ap1302_set_mode { s with last_mode := ap1302_mode_init_data }).2
    (ap1302_set_mode { s with last_mode := ap1302_mode_init_data }).2.fmt)
  have hmp : (ap1302_set_mode { s with last_mode := ap1302_mode_init_data }).2.power_count
        = s.power_count ∧
      (ap1302_set_mode { s with last_mode := ap1302_mode_init_data }).2.set_power_calls
        = s.set_power_calls := by
    have hp := reg_step_power ht
    rw [hm]
    exact ⟨hp.1, hp.2⟩
  have hval : ap1302_restore_mode s
      = ap1302_set_framefmt (ap1302_set_mode { s with last_mode := ap1302_mode_init_data }).2
          (ap1302_set_mode { s with last_mode := ap1302_mode_init_data }).2.fmt := by
    unfold ap1302_restore_mode
    rw [hl]
    dsimp only
    rw [if_neg (by decide : ¬ ((0 : Int) < 0))]
    have h1 : (ap1302_set_mode { s with last_mode := ap1302_mode_init_data }).1 = 0 := rfl
    rw [if_neg (by rw [h1]; decide)]
  rw [hval]
  exact ⟨hf.1.trans hmp.1, hf.2.trans hmp.2⟩

theorem set_power_power (s : ap1302_dev) (powered : Bool) :
    (ap1302_set_power s powered).2.power_count = s.power_count ∧
    (ap1302_set_power s powered).2.set_power_calls = s.set_power_calls ++ [powered] := by
  cases powered with
  | false => exact ⟨rfl, rfl⟩
  | true =>
    have hr := restore_mode_power { s with set_power_calls := s.set_power_calls ++ [true] }
    unfold ap1302_set_power
    simp only [ap1302_set_powerdown_exit, ap1302_set_powerdown_enter, if_true, ne_eq,
      not_true_eq_false, if_false, ite_self]
    split_ifs
    · exact hr
    · exact hr

/-- One request of `ap1302_s_power` when the call of `ap1302_set_power` it
makes, if any, does not fail. -/
theorem s_power_step (s : ap1302_dev) (powered : Int)
    (hok : s.power_count = (if powered = 0 then 1 else 0) →
      (ap1302_set_power s (decide (powered ≠ 0))).1 = 0) :
    (ap1302_s_power s powered).2.power_count
      = s.power_count + (if powered ≠ 0 then 1 else -1) ∧
    (ap1302_s_power s powered).2.set_power_calls
      = s.set_power_calls ++
        (if powered ≠ 0 ∧ s.power_count = 0 then [true]
         else if powered = 0 ∧ s.power_count = 1 then [false] else []) := by
  have hsp := set_power_power s (decide (powered ≠ 0))
  unfold ap1302_s_power
  dsimp only
  by_cases hc : s.power_count = (if powered = 0 then 1 else 0)
  · have hz := hok hc
    rw [if_pos hc, if_neg (fun h => h hz)]
    simp only [v4l2_ctrl_handler_setup]
    by_cases hp : powered = 0
    · rw [if_pos hp] at hc
      have hd : decide (powered ≠ 0) = false := by simp [hp]
      rw [hd] at hsp
      refine ⟨?_, ?_⟩
      · split_ifs <;> simp_all
      · split_ifs <;> simp_all
    · rw [if_neg hp] at hc
      have hd : decide (powered ≠ 0) = true := by simp [hp]
      rw [hd] at hsp
      refine ⟨?_, ?_⟩
      · split_ifs <;> simp_all
      · split_ifs <;> simp_all
  · rw [if_neg hc]
    simp only [v4l2_ctrl_handler_setup, ne_eq, not_true_eq_false, if_false]
    by_cases hp : powered = 0
    · rw [if_pos hp] at hc
      refine ⟨?_, ?_⟩
      · split_ifs <;> simp_all
      · split_ifs <;> simp_all
    · rw [if_neg hp] at hc
      refine ⟨?_, ?_⟩
      · split_ifs <;> simp_all
      · split_ifs <;> simp_all

theorem spec_power_count_cons (powered : Int) (rest : List Int) :
    spec_power_count (powered :: rest)
      = (if powered ≠ 0 then 1 else -1) + spec_power_count rest := by
  by_cases hp : powered = 0
  · simp [spec_power_count, List.filter_cons, hp]; omega
  · simp [spec_power_count, List.filter_cons, hp]; omega

/-- A run of requests none of whose calls of `ap1302_set_power` fails: the
counter moves by the number of on requests minus the number of off requests,
and the calls made are those of the transitions between 0 and 1. -/
theorem s_power_run_spec (reqs : List Int) : ∀ (s : ap1302_dev),
    set_power_never_fails s reqs = true →
    (s_power_run s reqs).power_count = s.power_count + spec_power_count reqs ∧
    (s_power_run s reqs).set_power_calls
      = s.set_power_calls ++ spec_power_calls s.power_count reqs := by
  induction reqs with
  | nil => intro s _; simp [s_power_run, spec_power_count, spec_power_calls]
  | cons powered rest ih =>
    intro s hok
    simp only [set_power_never_fails, Bool.and_eq_true] at hok
    obtain ⟨h1, h2⟩ := hok
    have hstep := s_power_step s powered (by
      intro hc
      rw [if_pos hc] at h1
      exact of_decide_eq_true h1)
    have hrec := ih (ap1302_s_power s powered).2 h2
    rw [s_power_run, hrec.1, hrec.2, hstep.1, hstep.2, spec_power_count_cons, spec_power_calls]
    constructor
    · omega
    · simp [List.append_assoc]

/-- C22: for every sequence of `ap1302_s_power` requests on a session with
`power_count = 0`, when no call of `ap1302_set_power` made on the way fails,
`power_count` after the sequence is the number of on requests minus the
number of off requests, and the calls of `ap1302_set_power` are exactly, in
order, one with `true` for each on request that takes the count from 0 to 1
and one with `false` for each off request that takes it from 1 to 0. -/
theorem C22_power_count (s : ap1302_dev) (reqs : List Int) (h0 : s.power_count = 0)
    (hok : set_power_never_fails s reqs = true) :
    (s_power_run s reqs).power_count = spec_power_count reqs ∧
    (s_power_run s reqs).set_power_calls = s.set_power_calls ++ spec_power_calls 0 reqs := by
  have h := s_power_run_spec reqs s hok
  rw [h0] at h
  exact ⟨h.1.trans (by omega), h.2⟩

/-- C22 on the requests on, on, off and on, on, off, off: the first run
leaves `power_count = 1` after the single call `ap1302_set_power(true)`; the
further off request calls `ap1302_set_power(false)` and leaves 0. -/
theorem C22_power_count_witness :
    ((s_power_run {} [1, 1, 0]).power_count = 1 ∧
     (s_power_run {} [1, 1, 0]).set_power_calls = [true]) ∧
    ((s_power_run {} [1, 1, 0, 0]).power_count = 0 ∧
     (s_power_run {} [1, 1, 0, 0]).set_power_calls = [true, false]) :=
  have h1 := C22_power_count {} [1, 1, 0] rfl (by decide)
  have h2 := C22_power_count {} [1, 1, 0, 0] rfl (by decide)
  ⟨⟨h1.1.trans (by decide), h1.2.trans (by decide)⟩,
   ⟨h2.1.trans (by decide), h2.2.trans (by decide)⟩⟩

/-! ## C24: the bytes streamed and the cursor -/

theorem raw_write_payloads_blocks (n : Nat) : ∀ (pos : Nat) (buf : List Nat),
    raw_write_payloads (fw_blocks n pos buf) = buf.take (n * AP1302_FW_BLOCK_LEN) := by
  induction n with
  | zero => intro pos buf; simp [fw_blocks, raw_write_payloads]
  | succ n ih =>
    intro pos buf
    have hc : raw_write_payloads (fw_blocks (n + 1) pos buf)
        = buf.take AP1302_FW_BLOCK_LEN
          ++ raw_write_payloads (fw_blocks n (pos + AP1302_FW_BLOCK_LEN)
              (buf.drop AP1302_FW_BLOCK_LEN)) := by
      simp [fw_blocks, raw_write_payloads]
    have e : (n + 1) * AP1302_FW_BLOCK_LEN = AP1302_FW_BLOCK_LEN + n * AP1302_FW_BLOCK_LEN := by
      ring
    rw [hc, ih, e, List.take_add]

theorem raw_write_payloads_tail (pos : Nat) (buf : List Nat) (len : Nat) :
    raw_write_payloads (fw_tail pos buf len)
      = (buf.drop (len / AP1302_FW_BLOCK_LEN * AP1302_FW_BLOCK_LEN)).take
          (len % AP1302_FW_BLOCK_LEN) := by
  by_cases h : len % AP1302_FW_BLOCK_LEN > 0
  · simp [fw_tail, raw_write_payloads, h]
  · have h0 : len % AP1302_FW_BLOCK_LEN = 0 := by omega
    simp [fw_tail, raw_write_payloads, h0]

/-- The payloads of the block writes of a stream of `len` bytes, put end to
end, are the first `len` bytes of the buffer. -/
theorem raw_write_payloads_fw_stream (pos : Nat) (buf : List Nat) (len : Nat) :
    raw_write_payloads (fw_stream pos buf len) = buf.take len := by
  have hdm : len / AP1302_FW_BLOCK_LEN * AP1302_FW_BLOCK_LEN + len % AP1302_FW_BLOCK_LEN
      = len := by
    have := Nat.div_add_mod len AP1302_FW_BLOCK_LEN
    rw [Nat.mul_comm] at this
    exact this
  rw [fw_stream, raw_write_payloads_append, raw_write_payloads_blocks, raw_write_payloads_tail,
    ← List.take_add, hdm]

theorem reg_step_payloads {s t : ap1302_dev} (h : reg_step s t) :
    raw_write_payloads t.log = raw_write_payloads s.log := by
  obtain ⟨p, q, e, rfl, he⟩ := h
  show raw_write_payloads (s.log ++ e) = _
  rw [raw_write_payloads_append, he, List.append_nil]

/-- After its streaming call `ap1302_load_firmware` issues register accesses
only: the block writes of a load attempt are those of
`ap1302_write_fw_window`, called at cursor 0 on the bytes after the header. -/
theorem load_firmware_payloads (s : ap1302_dev) :
    raw_write_payloads (ap1302_load_firmware s).2.log
      = raw_write_payloads (ap1302_write_fw_window s (s.fw.drop FW_HEADER_SIZE)
          (fw_body_size s.fw.length) 0).2.2.log := by
  have h2 := write_reg_step (ap1302_write_fw_window s (s.fw.drop FW_HEADER_SIZE)
    (fw_body_size s.fw.length) 0).2.2 AP1302_BOOTDATA_STAGE 0xffff none
  have h3 := reg_step_trans h2 (read_reg_step _ AP1302_SIP_CHECKSUM)
  have h4 := reg_step_trans h3 (set_mipi_t3_clk_reg_step _)
  have key : reg_step (ap1302_write_fw_window s (s.fw.drop FW_HEADER_SIZE)
      (fw_body_size s.fw.length) 0).2.2 (ap1302_load_firmware s).2 := by
    unfold ap1302_load_firmware
    dsimp only
    exact reg_step_ite (reg_step_refl _) (reg_step_ite h3 (reg_step_ite h3 h4))
  exact reg_step_payloads key

/-- C24: when every bus write succeeds and the cursor does not pass
`2 ^ 32`, `ap1302_write_fw_window` on `len` bytes from the cursor `pos`
moves the cursor to `pos + len` and its block writes carry, end to end, the
first `len` bytes of the buffer. Its return value is 0 for `len > 0`; for
`len = 0` no statement assigns the local `ret`, and the value returned is the
indeterminate `uninit_ret`, with no write issued. `ap1302_load_firmware`
calls it at cursor 0 on the bytes after the header: for a blob of at least
4 bytes whose streaming writes succeed, the block writes of the attempt
carry exactly those bytes; for a blob of exactly 4 bytes the attempt returns
`uninit_ret` whenever that is not 0. -/
theorem C24_fw_window_cursor (s : ap1302_dev) (buf : List Nat) (len pos : Nat)
    (hbus : ∀ k, (s.bus k).ret = 0) (hlt : pos + len < 2 ^ 32) :
    (ap1302_write_fw_window s buf len pos).1 = (if len = 0 then s.uninit_ret else 0) ∧
    (ap1302_write_fw_window s buf len pos).2.1 = pos + len ∧
    raw_write_payloads ((ap1302_write_fw_window s buf len pos).2.2.log.drop s.log.length)
      = buf.take len ∧
    (FW_HEADER_SIZE ≤ s.fw.length → s.fw.length < 2 ^ 32 →
      raw_write_payloads (ap1302_load_firmware s).2.log
        = raw_write_payloads s.log ++ s.fw.drop FW_HEADER_SIZE) ∧
    (s.fw.length = FW_HEADER_SIZE → s.uninit_ret ≠ 0 →
      ap1302_load_firmware s = (s.uninit_ret, s)) := by
  have hw := fw_window_ok s buf len pos (fun k _ => hbus _) hlt
  refine ⟨by rw [hw], by rw [hw], ?_, ?_, ?_⟩
  · rw [hw]
    simp only [List.drop_left]
    exact raw_write_payloads_fw_stream pos buf len
  · intro h4 h32
    have hb : fw_body_size s.fw.length = s.fw.length - FW_HEADER_SIZE := by
      simp only [fw_body_size, u32, FW_HEADER_SIZE] at h4 ⊢
      rw [if_pos h4]
      omega
    have hw2 := fw_window_ok s (s.fw.drop FW_HEADER_SIZE) (fw_body_size s.fw.length) 0
      (fun k _ => hbus _) (by rw [hb]; omega)
    rw [load_firmware_payloads, hw2]
    show raw_write_payloads (s.log ++ _) = _
    rw [raw_write_payloads_append, raw_write_payloads_fw_stream, hb]
    congr 1
    apply List.take_of_length_le
    rw [List.length_drop]
  · intro h4 hu
    have hb : fw_body_size s.fw.length = 0 := by
      rw [h4]; decide
    have hw2 := fw_window_ok s (s.fw.drop FW_HEADER_SIZE) 0 0 (fun k _ => hbus _) (by decide)
    unfold ap1302_load_firmware
    dsimp only
    rw [hb, hw2]
    dsimp only
    rw [if_pos rfl, if_pos hu]
    simp [fw_stream, fw_tail, fw_blocks]

/-- C24 on an empty body with the indeterminate value -5, on a bus that does
not fail: `ap1302_write_fw_window` returns -5 and issues no write, and a load
attempt on a blob of exactly 4 bytes returns -5 with no bus transaction. -/
theorem C24_fw_window_cursor_witness :
    (ap1302_write_fw_window { uninit_ret := -5 } [] 0 0).1 = -5 ∧
    (ap1302_write_fw_window { uninit_ret := -5 } [] 0 0).2.2.log = [] ∧
    ap1302_load_firmware { fw := [0, 0, 0, 0], uninit_ret := -5 }
      = (-5, { fw := [0, 0, 0, 0], uninit_ret := -5 }) :=
  have h := C24_fw_window_cursor { uninit_ret := -5 } [] 0 0 (fun _ => rfl) (by decide)
  have h2 := (C24_fw_window_cursor { fw := [0, 0, 0, 0], uninit_ret := -5 } [] 0 0 (fun _ => rfl)
    (by decide)).2.2.2.2 rfl (by decide)
  ⟨h.1.trans (by decide), by decide, h2⟩

/-! ## C25: bus failures at the end of a load attempt -/

theorem ldiff_zero_right (n : Nat) : Nat.ldiff n 0 = n := by
  apply Nat.eq_of_testBit_eq
  intro i
  rw [Nat.testBit_ldiff]
  simp

theorem lor_zero_left (c : Int) : Int.lor 0 c = c := by
  cases c with
  | ofNat n => simp [Int.lor]
  | negSucc n => simp [Int.lor, ldiff_zero_right]

theorem lor_zero_right (c : Int) : Int.lor c 0 = c := by
  cases c with
  | ofNat n => simp [Int.lor]
  | negSucc n => simp [Int.lor, ldiff_zero_right]

/-- A load attempt whose streaming writes succeed and whose `BOOTDATA_STAGE`
write or `SIP_CHECKSUM` read fails: the value returned is the bitwise or of
the two return codes. -/
theorem load_firmware_bus_failure (s : ap1302_dev) (hL : 0 < fw_body_size s.fw.length)
    (hstream : ∀ k, k < fw_stream_count s → (s.bus (s.seq + k)).ret = 0)
    (hfail : Int.lor (s.bus (s.seq + fw_stream_count s)).ret
      (s.bus (s.seq + fw_stream_count s + 1)).ret ≠ 0) :
    (ap1302_load_firmware s).1
      = Int.lor (s.bus (s.seq + fw_stream_count s)).ret
          (s.bus (s.seq + fw_stream_count s + 1)).ret := by
  have h32 : 0 + fw_body_size s.fw.length < 2 ^ 32 := by
    have := fw_body_size_lt s.fw.length; omega
  have hne : fw_body_size s.fw.length ≠ 0 := by omega
  have hw := fw_window_ok s (s.fw.drop FW_HEADER_SIZE) (fw_body_size s.fw.length) 0 hstream h32
  unfold fw_stream_count at hfail ⊢
  rw [if_neg hne] at hw
  rw [ap1302_load_firmware]
  dsimp only
  rw [hw]
  dsimp only
  rw [if_neg (by decide : ¬ ((0 : Int) ≠ 0))]
  rw [bootdata_stage_write, sip_checksum_read]
  dsimp only
  rw [if_pos hfail]

/-- C25 (amended): in a load attempt on a blob longer than its header whose
streaming writes succeed, if the `BOOTDATA_STAGE` write or the
`SIP_CHECKSUM` read fails, `ap1302_load_firmware` returns the bitwise or of
the two return codes, which is not 0. When only one of the two fails that is
the code of the failing transaction; when both fail it can be a code that
neither returned. -/
theorem C25_load_firmware_or (s : ap1302_dev) (hL : 0 < fw_body_size s.fw.length)
    (hstream : ∀ k, k < fw_stream_count s → (s.bus (s.seq + k)).ret = 0)
    (hfail : (s.bus (s.seq + fw_stream_count s)).ret ≠ 0 ∨
      (s.bus (s.seq + fw_stream_count s + 1)).ret ≠ 0) :
    (ap1302_load_firmware s).1
      = Int.lor (s.bus (s.seq + fw_stream_count s)).ret
          (s.bus (s.seq + fw_stream_count s + 1)).ret ∧
    (ap1302_load_firmware s).1 ≠ 0 ∧
    ((s.bus (s.seq + fw_stream_count s + 1)).ret = 0 →
      (ap1302_load_firmware s).1 = (s.bus (s.seq + fw_stream_count s)).ret) ∧
    ((s.bus (s.seq + fw_stream_count s)).ret = 0 →
      (ap1302_load_firmware s).1 = (s.bus (s.seq + fw_stream_count s + 1)).ret) := by
  have hne : Int.lor (s.bus (s.seq + fw_stream_count s)).ret
      (s.bus (s.seq + fw_stream_count s + 1)).ret ≠ 0 := by
    intro h
    have := (lor_eq_zero _ _).mp h
    rcases hfail with h1 | h1
    · exact h1 this.1
    · exact h1 this.2
  have hv := load_firmware_bus_failure s hL hstream hne
  refine ⟨hv, by rw [hv]; exact hne, ?_, ?_⟩
  · intro hc; rw [hv, hc, lor_zero_right]
  · intro hc; rw [hv, hc, lor_zero_left]

/-- C25 (amended) on a blob with a one-byte body whose `BOOTDATA_STAGE`
write succeeds and whose checksum read fails with -5: the attempt returns
-5. -/
theorem C25_load_firmware_or_witness :
    (ap1302_load_firmware
      { fw := [0, 0, 0, 0, 0xAA],
        bus := fun n => if n = 2 then { ret := -5 } else {} }).1 = -5 :=
  (C25_load_firmware_or
    { fw := [0, 0, 0, 0, 0xAA], bus := fun n => if n = 2 then { ret := -5 } else {} }
    (by decide) (by intro k hk; have : k = 0 := Nat.lt_one_iff.mp hk; subst this; rfl)
    (Or.inr (by decide))).2.2.2 rfl

/-- C25 (as stated, refuted): when the `BOOTDATA_STAGE` write fails with -5
and the checksum read fails with -2, the attempt returns -1, a code neither
transaction returned; when they fail with -27 and -15 it returns `-EAGAIN`,
the retryable code, which neither returned. -/
theorem C25_counterexample :
    (ap1302_load_firmware
      { fw := [0, 0, 0, 0, 0xAA],
        bus := fun n => if n = 1 then { ret := -5 } else if n = 2 then { ret := -2 }
          else {} }).1 = -1 ∧
    (ap1302_load_firmware
      { fw := [0, 0, 0, 0, 0xAA],
        bus := fun n => if n = 1 then { ret := -27 } else if n = 2 then { ret := -15 }
          else {} }).1 = -EAGAIN ∧
    -EAGAIN ≠ (-27 : Int) ∧ -EAGAIN ≠ (-15 : Int) := by
  decide

/-! ## C26 and C27: the MIPI timing adjustment -/

theorem and_ff00_shift (v : Nat) : (v &&& 0xFF00) >>> 8 = v / 2 ^ 8 % 2 ^ 8 := by
  apply Nat.eq_of_testBit_eq
  intro i
  have em : (0xFF00 : Nat) = 2 ^ 8 * (2 ^ 8 - 1) + 0 := by norm_num
  rw [Nat.testBit_shiftRight, Nat.testBit_and, em, Nat.testBit_mul_pow_two_add _ (by norm_num),
    Nat.testBit_two_pow_sub_one, Nat.testBit_mod_two_pow, ← Nat.shiftRight_eq_div_pow,
    Nat.testBit_shiftRight]
  by_cases h : i < 8 <;> simp [h]

theorem and_ffff0000 (v : Nat) (hv : v < 2 ^ 32) : v &&& 0xFFFF0000 = 2 ^ 16 * (v / 2 ^ 16) := by
  apply Nat.eq_of_testBit_eq
  intro i
  have em : (0xFFFF0000 : Nat) = 2 ^ 16 * (2 ^ 16 - 1) + 0 := by norm_num
  have e0 : 2 ^ 16 * (v / 2 ^ 16) = 2 ^ 16 * (v / 2 ^ 16) + 0 := by omega
  rw [Nat.testBit_and, em, Nat.testBit_mul_pow_two_add _ (by norm_num), e0,
    Nat.testBit_mul_pow_two_add _ (by norm_num), Nat.testBit_two_pow_sub_one,
    ← Nat.shiftRight_eq_div_pow]
  by_cases h : i < 16
  · simp [h]
  · have h32 : i - 16 < 16 ∨ v.testBit i = false := by
      by_cases h2 : i < 32
      · left; omega
      · right
        apply Nat.testBit_lt_two_pow
        calc v < 2 ^ 32 := hv
          _ ≤ 2 ^ i := Nat.pow_le_pow_right (by norm_num) (by omega)
    have hs : (v >>> 16).testBit (i - 16) = v.testBit i := by
      rw [Nat.testBit_shiftRight]; congr 1; omega
    rcases h32 with h32 | h32 <;> simp [h, h32, hs]

/-- The value `ap1302_set_mipi_t3_clk` writes back, in terms of the three
fields of the value read: the upper half is kept, the two sums are put in
with a bitwise or, without a mask. -/
theorem mipi_t3_update_eq (v : Nat) (hv : v < 2 ^ 32) :
    mipi_t3_update v
      = (2 ^ 16 * (v / 2 ^ 16) ||| (tclk_pre_field v + 1) * 2 ^ 8) ||| (tclk_post_field v + 5) := by
  have h1 : v &&& AP1302_TCLK_POST_MASK = v % 2 ^ 8 :=
    Nat.and_pow_two_sub_one_eq_mod v 8
  have h2 : (v &&& AP1302_TCLK_PRE_MASK) >>> AP1302_TCLK_PRE_SHIFT = v / 2 ^ 8 % 2 ^ 8 :=
    and_ff00_shift v
  have h3 : (v &&& not32 AP1302_TCLK_POST_MASK) &&& not32 AP1302_TCLK_PRE_MASK
      = 2 ^ 16 * (v / 2 ^ 16) := by
    have e : not32 AP1302_TCLK_POST_MASK &&& not32 AP1302_TCLK_PRE_MASK = 0xFFFF0000 := by
      decide
    rw [Nat.and_assoc, e]
    exact and_ffff0000 v hv
  have hp : v % 2 ^ 8 < 2 ^ 8 := Nat.mod_lt _ (by norm_num)
  have hq : v / 2 ^ 8 % 2 ^ 8 < 2 ^ 8 := Nat.mod_lt _ (by norm_num)
  have h4 : u32 (v % 2 ^ 8 + 5) = v % 2 ^ 8 + 5 := by
    simp only [u32]; omega
  have h5 : u32 (v / 2 ^ 8 % 2 ^ 8 + 1) = v / 2 ^ 8 % 2 ^ 8 + 1 := by
    simp only [u32]; omega
  have h6 : u32 ((v / 2 ^ 8 % 2 ^ 8 + 1) <<< AP1302_TCLK_PRE_SHIFT)
      = (v / 2 ^ 8 % 2 ^ 8 + 1) * 2 ^ 8 := by
    have e : AP1302_TCLK_PRE_SHIFT = 8 := rfl
    rw [e, Nat.shiftLeft_eq]
    simp only [u32]; omega
  have h0 : AP1302_TCLK_POST_SHIFT = 0 := rfl
  unfold mipi_t3_update
  dsimp only
  rw [h1, h2, h3, h0, Nat.shiftRight_zero, h4, h5, h6]
  rfl

theorem or_mod_two_pow (a b n : Nat) : (a ||| b) % 2 ^ n = a % 2 ^ n ||| b % 2 ^ n := by
  apply Nat.eq_of_testBit_eq
  intro i
  simp only [Nat.testBit_mod_two_pow, Nat.testBit_or]
  by_cases h : i < n <;> simp [h]

/-- The field Tclk_post of the value written back is that read plus 5,
reduced to 8 bits. -/
theorem mipi_t3_update_post (v : Nat) (hv : v < 2 ^ 32) :
    tclk_post_field (mipi_t3_update v) = (tclk_post_field v + 5) % 2 ^ 8 := by
  rw [mipi_t3_update_eq v hv]
  have e1 : (2 ^ 16 * (v / 2 ^ 16)) % 2 ^ 8 = 0 := by omega
  have e2 : ((tclk_pre_field v + 1) * 2 ^ 8) % 2 ^ 8 = 0 := by omega
  show ((2 ^ 16 * (v / 2 ^ 16) ||| (tclk_pre_field v + 1) * 2 ^ 8) |||
    (tclk_post_field v + 5)) % 2 ^ 8 = _
  rw [or_mod_two_pow, or_mod_two_pow, e1, e2]
  simp

/-- Without a carry, that is with Tclk_post at most `0xFA` and Tclk_pre at
most `0xFE`, the value written back is the value read plus `0x105`. -/
theorem mipi_t3_update_no_carry (v : Nat) (hv : v < 2 ^ 32) (hpost : tclk_post_field v ≤ 0xFA)
    (hpre : tclk_pre_field v ≤ 0xFE) : mipi_t3_update v = v + 0x105 := by
  rw [mipi_t3_update_eq v hv]
  have a1 : (tclk_pre_field v + 1) * 2 ^ 8 < 2 ^ 16 := by omega
  have a2 : tclk_post_field v + 5 < 2 ^ 8 := by omega
  have b1 : 2 ^ 16 * (v / 2 ^ 16) ||| (tclk_pre_field v + 1) * 2 ^ 8
      = 2 ^ 8 * (2 ^ 8 * (v / 2 ^ 16) + (tclk_pre_field v + 1)) := by
    rw [← Nat.mul_add_lt_is_or a1]
    ring
  rw [b1, ← Nat.mul_add_lt_is_or a2]
  simp only [tclk_pre_field, tclk_post_field] at hpost hpre ⊢
  omega

theorem read_val_lt (s : ap1302_dev) (reg : Nat) : (ap1302_read s reg).2.1 < 2 ^ 32 := by
  have hr : ∀ (t : ap1302_dev) (c : Chan) (addr : Nat), (regmap_read t c addr).2.1 < 2 ^ 32 := by
    intro t c addr
    simp only [regmap_read]
    split_ifs
    · cases c
      · exact lt_of_lt_of_le (Nat.mod_lt _ (by simp [Chan.val_bits])) (by simp [Chan.val_bits])
      · exact Nat.mod_lt _ (by simp [Chan.val_bits])
    · norm_num
  have hi : ∀ (t : ap1302_dev) (r : Nat), (__ap1302_read t r).2.1 < 2 ^ 32 := by
    intro t r
    unfold __ap1302_read
    dsimp only
    split_ifs
    · exact hr _ _ _
    · exact hr _ _ _
    · norm_num
  unfold ap1302_read
  dsimp only
  split_ifs
  · norm_num
  · exact hi _ _
  · exact hi _ _
  · exact hi _ _

/-- C26: on a bus that does not fail, `ap1302_set_mipi_t3_clk` returns 0 and
its last bus transaction writes `mipi_t3_update v` to the register, `v`
being the 32-bit value read from it. The field Tclk_post of the value
written is that of `v` plus 5 (reduced to 8 bits), for every `v`: never
that of `v` plus 2, the increment the comment of the code announces. With
Tclk_post at most `0xFA` and Tclk_pre at most `0xFE` the field Tclk_post
written is Tclk_post plus 5 and the field Tclk_pre written is Tclk_pre
plus 1. -/
theorem C26_tclk_post_plus_5 (s : ap1302_dev) (hbus : ∀ k, (s.bus k).ret = 0) :
    (ap1302_set_mipi_t3_clk s).1 = 0 ∧
    (ap1302_set_mipi_t3_clk s).2.log.getLast?
      = some (Event.regmap_write Chan.regmap32 0xe014
          (mipi_t3_update (ap1302_read s AP1302_ADV_HINF_MIPI_T3).2.1)) ∧
    (ap1302_read s AP1302_ADV_HINF_MIPI_T3).2.1 < 2 ^ 32 ∧
    tclk_post_field (mipi_t3_update (ap1302_read s AP1302_ADV_HINF_MIPI_T3).2.1)
      = (tclk_post_field (ap1302_read s AP1302_ADV_HINF_MIPI_T3).2.1 + 5) % 2 ^ 8 ∧
    tclk_post_field (mipi_t3_update (ap1302_read s AP1302_ADV_HINF_MIPI_T3).2.1)
      ≠ (tclk_post_field (ap1302_read s AP1302_ADV_HINF_MIPI_T3).2.1 + 2) % 2 ^ 8 ∧
    (tclk_post_field (ap1302_read s AP1302_ADV_HINF_MIPI_T3).2.1 ≤ 0xFA →
      tclk_pre_field (ap1302_read s AP1302_ADV_HINF_MIPI_T3).2.1 ≤ 0xFE →
      tclk_post_field (mipi_t3_update (ap1302_read s AP1302_ADV_HINF_MIPI_T3).2.1)
        = tclk_post_field (ap1302_read s AP1302_ADV_HINF_MIPI_T3).2.1 + 5 ∧
      tclk_pre_field (mipi_t3_update (ap1302_read s AP1302_ADV_HINF_MIPI_T3).2.1)
        = tclk_pre_field (ap1302_read s AP1302_ADV_HINF_MIPI_T3).2.1 + 1) := by
  have hv := read_val_lt s AP1302_ADV_HINF_MIPI_T3
  have hr := read_ok s AP1302_ADV_HINF_MIPI_T3 hbus (by decide) (Or.inr (by decide))
  have hpost := mipi_t3_update_post _ hv
  have hlog := (valid_access_log (ap1302_read s AP1302_ADV_HINF_MIPI_T3).2.2
    AP1302_ADV_HINF_MIPI_T3 (mipi_t3_update (ap1302_read s AP1302_ADV_HINF_MIPI_T3).2.1) none
    (by decide) (Or.inr (by decide)) (Or.inl rfl)
    (Or.inr (Or.inr (by rw [hr.2, hbus])))).1
  have hval : ap1302_set_mipi_t3_clk s
      = ((ap1302_write (ap1302_read s AP1302_ADV_HINF_MIPI_T3).2.2 AP1302_ADV_HINF_MIPI_T3
            (mipi_t3_update (ap1302_read s AP1302_ADV_HINF_MIPI_T3).2.1) none).1,
         (ap1302_write (ap1302_read s AP1302_ADV_HINF_MIPI_T3).2.2 AP1302_ADV_HINF_MIPI_T3
            (mipi_t3_update (ap1302_read s AP1302_ADV_HINF_MIPI_T3).2.1) none).2.2) := by
    unfold ap1302_set_mipi_t3_clk
    dsimp only
    rw [if_neg (fun h => h hr.1)]
  have ha : (if AP1302_REG_PAGE AP1302_ADV_HINF_MIPI_T3 = 0
        then AP1302_REG_ADDR AP1302_ADV_HINF_MIPI_T3
        else (0xE000 + AP1302_REG_ADDR AP1302_ADV_HINF_MIPI_T3) % 0x10000) = 0xe014 := by
    decide
  have hc : spec_chan AP1302_ADV_HINF_MIPI_T3 = Chan.regmap32 := by decide
  refine ⟨set_mipi_t3_clk_ok s hbus, ?_, hv, hpost, ?_, ?_⟩
  · rw [hval]
    dsimp only
    rw [hlog, ha, hc, List.getLast?_append]
    rfl
  · rw [hpost]
    have : tclk_post_field (ap1302_read s AP1302_ADV_HINF_MIPI_T3).2.1 < 2 ^ 8 :=
      Nat.mod_lt _ (by norm_num)
    omega
  · intro h1 h2
    rw [mipi_t3_update_no_carry _ hv h1 h2]
    simp only [tclk_post_field, tclk_pre_field] at h1 h2 ⊢
    omega

/-- C26 on a device whose register reads `0x1234`: the value written back
is `0x1339`, Tclk_post `0x34 + 5` and Tclk_pre `0x12 + 1`. -/
theorem C26_tclk_post_plus_5_witness :
    (ap1302_set_mipi_t3_clk { bus := fun _ => { val := 0x1234 } }).2.log.getLast?
      = some (Event.regmap_write Chan.regmap32 0xe014 0x1339) :=
  (C26_tclk_post_plus_5 { bus := fun _ => { val := 0x1234 } } (fun _ => rfl)).2.1.trans
    (by decide)

/-! ## C27: the neighbouring fields -/

/-- C27 (amended): the value `ap1302_set_mipi_t3_clk` writes back for a
32-bit value `v` keeps the upper half of `v` and puts the two sums in with a
bitwise or, without a mask. When Tclk_post is at most `0xFA` and Tclk_pre at
most `0xFE` nothing carries: the value written is `v + 0x105`, it agrees with
`v` on bits 31:16 and its field Tclk_pre is that of `v` plus 1. When
Tclk_post is `0xFB` or more the sum carries into bit 8, the lowest bit of
the field Tclk_pre; when Tclk_pre is `0xFF` the sum carries into bit 16. -/
theorem C27_mipi_t3_fields (v : Nat) (hv : v < 2 ^ 32) :
    mipi_t3_update v
      = (2 ^ 16 * (v / 2 ^ 16) ||| (tclk_pre_field v + 1) * 2 ^ 8)
          ||| (tclk_post_field v + 5) ∧
    (tclk_post_field v ≤ 0xFA → tclk_pre_field v ≤ 0xFE →
      mipi_t3_update v = v + 0x105 ∧
      mipi_t3_upper (mipi_t3_update v) = mipi_t3_upper v ∧
      tclk_pre_field (mipi_t3_update v) = tclk_pre_field v + 1) ∧
    (0xFB ≤ tclk_post_field v → (mipi_t3_update v).testBit 8 = true) ∧
    (tclk_pre_field v = 0xFF → (mipi_t3_update v).testBit 16 = true) := by
  have he := mipi_t3_update_eq v hv
  refine ⟨he, ?_, ?_, ?_⟩
  · intro h1 h2
    have hn := mipi_t3_update_no_carry v hv h1 h2
    refine ⟨hn, ?_, ?_⟩
    · rw [hn]
      simp only [mipi_t3_upper, tclk_post_field, tclk_pre_field] at h1 h2 ⊢
      omega
    · rw [hn]
      simp only [tclk_post_field, tclk_pre_field] at h1 h2 ⊢
      omega
  · intro h1
    have hlt : tclk_post_field v < 2 ^ 8 := Nat.mod_lt _ (by norm_num)
    have hb : (tclk_post_field v + 5).testBit 8 = true := by
      generalize tclk_post_field v = p at h1 hlt
      have hp : p < 256 := hlt
      interval_cases p <;> decide
    rw [he, Nat.testBit_or, hb, Bool.or_true]
  · intro h1
    have hb : ((tclk_pre_field v + 1) * 2 ^ 8).testBit 16 = true := by
      rw [h1]; decide
    rw [he, Nat.testBit_or, Nat.testBit_or, hb, Bool.or_true, Bool.true_or]

/-- C27 (amended) at the value `0x00121234`: the value written back is
`0x00121339` and bits 31:16 are kept. -/
theorem C27_mipi_t3_fields_witness :
    mipi_t3_update 0x00121234 = 0x00121339 ∧
    mipi_t3_upper (mipi_t3_update 0x00121234) = 0x12 :=
  have h := (C27_mipi_t3_fields 0x00121234 (by decide)).2.1 (by decide) (by decide)
  ⟨h.1, h.2.1.trans (by decide)⟩

/-- C27 (as stated, refuted): for the value `0xFF00` the value written back
is `0x10005`, which differs from `0xFF00` on bits 31:16, the increment of
Tclk_pre having carried into bit 16; and the values `0x01FB` and `0x0100`,
which have the same field Tclk_pre, are written back with the fields
Tclk_pre 3 and 2, the increment of Tclk_post having carried into bit 8. -/
theorem C27_counterexample :
    mipi_t3_update 0xFF00 = 0x10005 ∧
    mipi_t3_upper (mipi_t3_update 0xFF00) ≠ mipi_t3_upper 0xFF00 ∧
    tclk_pre_field 0x01FB = tclk_pre_field 0x0100 ∧
    tclk_pre_field (mipi_t3_update 0x01FB) = 3 ∧
    tclk_pre_field (mipi_t3_update 0x0100) = 2 := by
  decide

/-! ## C28: the enumeration of frame intervals -/

/-- The result of `ap1302_check_valid_mode` depends on the session only
through the test of the bus type. -/
theorem check_valid_mode_congr (s1 s2 : ap1302_dev) (m : ap1302_mode_info) (rate : Nat)
    (h : s1.bus_type = V4L2_MBUS_CSI2_DPHY ↔ s2.bus_type = V4L2_MBUS_CSI2_DPHY) :
    ap1302_check_valid_mode s1 m rate = ap1302_check_valid_mode s2 m rate := by
  unfold ap1302_check_valid_mode
  by_cases hb : s1.bus_type = V4L2_MBUS_CSI2_DPHY
  · rw [if_pos hb, if_pos (h.mp hb)]
  · rw [if_neg hb, if_neg (fun h2 => hb (h.mpr h2))]

theorem enum_modes_congr (s1 s2 : ap1302_dev)
    (h : s1.bus_type = V4L2_MBUS_CSI2_DPHY ↔ s2.bus_type = V4L2_MBUS_CSI2_DPHY)
    (w ht k i : Nat) : ∀ (l : List ap1302_mode_info) (count : Int),
    ap1302_enum_frame_interval_modes l s1 w ht k i count
      = ap1302_enum_frame_interval_modes l s2 w ht k i count := by
  intro l
  induction l with
  | nil => intro count; rfl
  | cons m rest ih =>
    intro count
    simp only [ap1302_enum_frame_interval_modes, check_valid_mode_congr s1 s2 m i h, ih]

theorem enum_rates_congr (s1 s2 : ap1302_dev)
    (h : s1.bus_type = V4L2_MBUS_CSI2_DPHY ↔ s2.bus_type = V4L2_MBUS_CSI2_DPHY)
    (w ht k : Nat) : ∀ (n i : Nat) (count : Int),
    ap1302_enum_frame_interval_rates n i s1 w ht k count
      = ap1302_enum_frame_interval_rates n i s2 w ht k count := by
  intro n
  induction n with
  | zero => intro i count; rfl
  | succ n ih =>
    intro i count
    simp only [ap1302_enum_frame_interval_rates, enum_modes_congr s1 s2 h, ih]

theorem spec_legal_classes_congr (s1 s2 : ap1302_dev) (m : ap1302_mode_info)
    (h : s1.bus_type = V4L2_MBUS_CSI2_DPHY ↔ s2.bus_type = V4L2_MBUS_CSI2_DPHY) :
    spec_legal_classes s1 m = spec_legal_classes s2 m := by
  unfold spec_legal_classes
  congr 1
  funext i
  rw [check_valid_mode_congr s1 s2 m i h]

/-- The two loops on the size of a catalog entry, on a CSI-2 D-PHY bus and
on another bus: the class found for the index `k` is the `k`-th legal class
of the entry. -/
theorem enum_rates_table : ∀ b ∈ [V4L2_MBUS_CSI2_DPHY, 0], ∀ m ∈ ap1302_mode_data,
    ∀ k, k < AP1302_NUM_FRAMERATES →
    ap1302_enum_frame_interval_rates AP1302_NUM_FRAMERATES 0 { bus_type := b } m.hact m.vact k 0
      = (spec_legal_classes { bus_type := b } m)[k]? := by
  decide

/-- The inner loop on a size that no entry has: `count` is untouched and the
loop runs to its end. -/
theorem enum_modes_no_match (s : ap1302_dev) (w ht k i : Nat) (count : Int)
    (hk : (k : Int) ≠ (count - 1) % 2 ^ 32) : ∀ (l : List ap1302_mode_info),
    (∀ m ∈ l, ¬ (w = m.hact ∧ ht = m.vact)) →
    ap1302_enum_frame_interval_modes l s w ht k i count = (false, count) := by
  intro l
  induction l with
  | nil => intro _; rfl
  | cons m rest ih =>
    intro hno
    have h1 : ¬ (w = m.hact ∧ ht = m.vact ∧ ap1302_check_valid_mode s m i = 0) :=
      fun h => hno m (List.mem_cons_self _ _) ⟨h.1, h.2.1⟩
    rw [ap1302_enum_frame_interval_modes, if_neg h1, if_neg hk]
    exact ih (fun m' hm' => hno m' (List.mem_cons_of_mem _ hm'))

theorem enum_rates_no_match (s : ap1302_dev) (w ht k : Nat) (hk : k < 2 ^ 32 - 1)
    (hno : ∀ m ∈ ap1302_mode_data, ¬ (w = m.hact ∧ ht = m.vact)) : ∀ (n i : Nat),
    ap1302_enum_frame_interval_rates n i s w ht k 0 = none := by
  have hk0 : (k : Int) ≠ (0 - 1) % 2 ^ 32 := by omega
  intro n
  induction n with
  | zero => intro i; rfl
  | succ n ih =>
    intro i
    rw [ap1302_enum_frame_interval_rates, enum_modes_no_match s w ht k i 0 hk0 _ hno]
    exact ih (i + 1)

/-- The loops of `ap1302_enum_frame_interval` on the size of a catalog
entry, for every session. -/
theorem enum_rates_of_mem (s : ap1302_dev) (m : ap1302_mode_info) (hm : m ∈ ap1302_mode_data)
    (k : Nat) (hk : k < AP1302_NUM_FRAMERATES) :
    ap1302_enum_frame_interval_rates AP1302_NUM_FRAMERATES 0 s m.hact m.vact k 0
      = (spec_legal_classes s m)[k]? := by
  by_cases hb : s.bus_type = V4L2_MBUS_CSI2_DPHY
  · have h : s.bus_type = V4L2_MBUS_CSI2_DPHY ↔
        ({ bus_type := V4L2_MBUS_CSI2_DPHY } : ap1302_dev).bus_type = V4L2_MBUS_CSI2_DPHY :=
      ⟨fun _ => rfl, fun _ => hb⟩
    rw [enum_rates_congr s _ h, spec_legal_classes_congr s _ m h]
    exact enum_rates_table V4L2_MBUS_CSI2_DPHY (by decide) m hm k hk
  · have h : s.bus_type = V4L2_MBUS_CSI2_DPHY ↔
        ({ bus_type := 0 } : ap1302_dev).bus_type = V4L2_MBUS_CSI2_DPHY :=
      ⟨fun h => absurd h hb, fun h => absurd h (by decide)⟩
    rw [enum_rates_congr s _ h, spec_legal_classes_congr s _ m h]
    exact enum_rates_table 0 (by decide) m hm k hk

/-- C28: for every session and every request with pad 0, index `k < 4` and
non-zero width, height and code. If the catalog has an entry `m` with
`(hact, vact) = (width, height)`, `ap1302_enum_frame_interval` returns 0 with
the interval 1/f, `f` being the rate of the `k`-th (from 0) of the classes
`ap1302_check_valid_mode` accepts for `m`, taken in increasing order, and it
returns `-EINVAL` when `m` has no more than `k` such classes. If the catalog
has no such entry it returns `-EINVAL`. The rates of the classes increase
with the class, so the rates enumerated for a size are, in increasing order
and without repetition, those of the legal classes. -/
theorem C28_enum_frame_interval (s : ap1302_dev) (fie : v4l2_subdev_frame_interval_enum)
    (hp : fie.pad = 0) (hk : fie.index < AP1302_NUM_FRAMERATES) (hw : fie.width ≠ 0)
    (hh : fie.height ≠ 0) (hc : fie.code ≠ 0) :
    (∀ m ∈ ap1302_mode_data, m.hact = fie.width → m.vact = fie.height →
      (∀ i, (spec_legal_classes s m)[fie.index]? = some i →
        (ap1302_enum_frame_interval s fie).1 = 0 ∧
        (ap1302_enum_frame_interval s fie).2.interval = ⟨1, (framerate i).toNat⟩) ∧
      ((spec_legal_classes s m).length ≤ fie.index →
        (ap1302_enum_frame_interval s fie).1 = -EINVAL)) ∧
    ((∀ m ∈ ap1302_mode_data, ¬ (m.hact = fie.width ∧ m.vact = fie.height)) →
      (ap1302_enum_frame_interval s fie).1 = -EINVAL) ∧
    (∀ m, (spec_legal_classes s m).Sorted (· < ·) ∧
      ∀ i, i ∈ spec_legal_classes s m ↔
        (i < AP1302_NUM_FRAMERATES ∧ ap1302_check_valid_mode s m i = 0)) ∧
    ap1302_framerates.Sorted (· < ·) := by
  have hpad : ¬ fie.pad ≠ 0 := fun h => h hp
  have hidx : ¬ fie.index ≥ AP1302_NUM_FRAMERATES := by omega
  have hz : ¬ (fie.width = 0 ∨ fie.height = 0 ∨ fie.code = 0) := by
    rintro (h | h | h)
    · exact hw h
    · exact hh h
    · exact hc h
  have hval : ap1302_enum_frame_interval s fie
      = match ap1302_enum_frame_interval_rates AP1302_NUM_FRAMERATES 0 s fie.width fie.height
          fie.index 0 with
        | some i => (0, { fie with interval := ⟨1, (framerate i).toNat⟩ })
        | none => (-EINVAL, { fie with interval := { fie.interval with numerator := 1 } }) := by
    unfold ap1302_enum_frame_interval
    rw [if_neg hpad, if_neg hidx, if_neg hz]
  refine ⟨?_, ?_, ?_, by decide⟩
  · intro m hm e1 e2
    have hr := enum_rates_of_mem s m hm fie.index hk
    rw [e1, e2] at hr
    constructor
    · intro i hi
      rw [hval, hr, hi]
      exact ⟨rfl, rfl⟩
    · intro hlen
      rw [hval, hr, List.getElem?_eq_none hlen]
  · intro hno
    have hk2 : fie.index < 2 ^ 32 - 1 := by
      have : AP1302_NUM_FRAMERATES = 4 := rfl
      omega
    rw [hval, enum_rates_no_match s fie.width fie.height fie.index hk2
      (fun m hm h => hno m hm ⟨h.1.symm, h.2.symm⟩)]
  · intro m
    constructor
    · unfold spec_legal_classes
      exact List.Sorted.filter _ (List.sorted_lt_range _)
    · intro i
      simp [spec_legal_classes, List.mem_filter, List.mem_range]

/-- C28 at the 1080P size on a CSI-2 D-PHY bus: index 1 gives the interval
1/30 (the legal classes are those of 15 and 30), index 2 gives `-EINVAL`. -/
theorem C28_enum_frame_interval_witness :
    (ap1302_enum_frame_interval {}
      { index := 1, width := 1920, height := 1080, code := MEDIA_BUS_FMT_UYVY8_1X16 }).1 = 0 ∧
    (ap1302_enum_frame_interval {}
      { index := 1, width := 1920, height := 1080,
        code := MEDIA_BUS_FMT_UYVY8_1X16 }).2.interval = ⟨1, 30⟩ ∧
    (ap1302_enum_frame_interval {}
      { index := 2, width := 1920, height := 1080, code := MEDIA_BUS_FMT_UYVY8_1X16 }).1
      = -EINVAL :=
  have h1 := ((C28_enum_frame_interval {}
    { index := 1, width := 1920, height := 1080, code := MEDIA_BUS_FMT_UYVY8_1X16 }
    rfl (by decide) (by decide) (by decide) (by decide)).1
    (ap1302_mode_entry AP1302_MODE_1080P_1920_1080) (by decide) rfl rfl).1 AP1302_30_FPS
    (by decide)
  have h2 := ((C28_enum_frame_interval {}
    { index := 2, width := 1920, height := 1080, code := MEDIA_BUS_FMT_UYVY8_1X16 }
    rfl (by decide) (by decide) (by decide) (by decide)).1
    (ap1302_mode_entry AP1302_MODE_1080P_1920_1080) (by decide) rfl rfl).2 (by decide)
  ⟨h1.1, h1.2.trans (by decide), h2⟩

/-! ## C29 and C30: what `ap1302_set_fmt` commits -/

/-- The session after a successful `ap1302_set_fmt` on pad 0 of a session
that is not streaming, `mbus_fmt` and `new_mode` being the results of
`ap1302_try_fmt_internal`. -/
theorem set_fmt_success (s : ap1302_dev) (try_fmt : v4l2_mbus_framefmt)
    (format : v4l2_subdev_format) (mbus_fmt : v4l2_mbus_framefmt) (new_mode : ap1302_mode_info)
    (hs : s.streaming = false) (hp : format.pad = 0)
    (ht : ap1302_try_fmt_internal s format.format s.current_fr = some (mbus_fmt, new_mode)) :
    ap1302_set_fmt s try_fmt format
      = (let try_fmt1 := if format.which = V4L2_SUBDEV_FORMAT_TRY then mbus_fmt else try_fmt
         let s1 := if format.which = V4L2_SUBDEV_FORMAT_TRY then s else { s with fmt := mbus_fmt }
         let s2 := if new_mode ≠ s1.current_mode then
           { s1 with current_mode := new_mode, pending_mode_change := true } else s1
         let s3 := if mbus_fmt.code ≠ s2.fmt.code then { s2 with pending_fmt_change := true }
           else s2
         let s4 := __v4l2_ctrl_s_ctrl_int64 s3 (ap1302_calc_pixel_rate s3)
         let s5 := if s4.pending_mode_change ∨ s4.pending_fmt_change then
           { s4 with fmt := mbus_fmt } else s4
         (0, s5, try_fmt1, { format with format := mbus_fmt })) := by
  unfold ap1302_set_fmt
  rw [if_neg (fun h => h hp), if_neg (by rw [hs]; exact Bool.false_ne_true), ht]

/-- C29: after a successful `ap1302_set_fmt` with `which = ACTIVE` on pad 0
of a session that is not streaming, `pending_fmt_change` has the value it
had before the call and the committed format is the normalised request,
whatever its code: the code of the request is compared with
`sensor->fmt.code` after the request has been stored in `sensor->fmt`, so
the two are always equal and the flag is never set. On the session of
`ap1302_probe`, whose code is `MEDIA_BUS_FMT_UYVY8_1X16`, a request for
`MEDIA_BUS_FMT_YUYV8_2X8` at 3840x2160 returns 0, commits the new code and
leaves `pending_fmt_change` false; the following `ap1302_s_stream` with
`enable = 1` starts the stream without any bus transaction, so the
output-format register is not written. -/
theorem C29_set_fmt_active_keeps_flag (s : ap1302_dev) (try_fmt : v4l2_mbus_framefmt)
    (format : v4l2_subdev_format) :
    (s.streaming = false → format.pad = 0 → format.which = V4L2_SUBDEV_FORMAT_ACTIVE →
      ∀ mbus_fmt new_mode,
        ap1302_try_fmt_internal s format.format s.current_fr = some (mbus_fmt, new_mode) →
        (ap1302_set_fmt s try_fmt format).1 = 0 ∧
        (ap1302_set_fmt s try_fmt format).2.1.fmt = mbus_fmt ∧
        (ap1302_set_fmt s try_fmt format).2.1.pending_fmt_change = s.pending_fmt_change) ∧
    (ap1302_set_fmt {} {}
      { which := V4L2_SUBDEV_FORMAT_ACTIVE,
        format := { width := 3840, height := 2160, code := MEDIA_BUS_FMT_YUYV8_2X8 } }).1 = 0 ∧
    (ap1302_set_fmt {} {}
      { which := V4L2_SUBDEV_FORMAT_ACTIVE,
        format := { width := 3840, height := 2160,
                    code := MEDIA_BUS_FMT_YUYV8_2X8 } }).2.1.fmt.code
      = MEDIA_BUS_FMT_YUYV8_2X8 ∧
    ({} : ap1302_dev).fmt.code = MEDIA_BUS_FMT_UYVY8_1X16 ∧
    (ap1302_set_fmt {} {}
      { which := V4L2_SUBDEV_FORMAT_ACTIVE,
        format := { width := 3840, height := 2160,
                    code := MEDIA_BUS_FMT_YUYV8_2X8 } }).2.1.pending_fmt_change = false ∧
    (ap1302_s_stream (ap1302_set_fmt {} {}
      { which := V4L2_SUBDEV_FORMAT_ACTIVE,
        format := { width := 3840, height := 2160,
                    code := MEDIA_BUS_FMT_YUYV8_2X8 } }).2.1 1).1 = 0 ∧
    (ap1302_s_stream (ap1302_set_fmt {} {}
      { which := V4L2_SUBDEV_FORMAT_ACTIVE,
        format := { width := 3840, height := 2160,
                    code := MEDIA_BUS_FMT_YUYV8_2X8 } }).2.1 1).2.streaming = true ∧
    (ap1302_s_stream (ap1302_set_fmt {} {}
      { which := V4L2_SUBDEV_FORMAT_ACTIVE,
        format := { width := 3840, height := 2160,
                    code := MEDIA_BUS_FMT_YUYV8_2X8 } }).2.1 1).2.log = [] := by
  refine ⟨?_, by decide, by decide, by decide, by decide, by decide, by decide, by decide⟩
  intro hs hp hw mbus_fmt new_mode ht
  have hne : ¬ format.which = V4L2_SUBDEV_FORMAT_TRY := by rw [hw]; decide
  rw [set_fmt_success s try_fmt format mbus_fmt new_mode hs hp ht]
  simp only [if_neg hne, __v4l2_ctrl_s_ctrl_int64]
  by_cases hm : new_mode ≠ s.current_mode
  · simp [hm]
  · simp only [hm, if_false, ne_eq, not_true_eq_false]
    by_cases hf : s.pending_mode_change = true ∨ s.pending_fmt_change = true
    · simp [hf]
    · simp [hf]

/-- C29 on the session of `ap1302_probe` with a request for another code at
the same size. -/
theorem C29_set_fmt_active_keeps_flag_witness :
    (ap1302_set_fmt {} {}
      { which := V4L2_SUBDEV_FORMAT_ACTIVE,
        format := { width := 3840, height := 2160,
                    code := MEDIA_BUS_FMT_YUYV8_1X16 } }).2.1.fmt.code
      = MEDIA_BUS_FMT_YUYV8_1X16 ∧
    (ap1302_set_fmt {} {}
      { which := V4L2_SUBDEV_FORMAT_ACTIVE,
        format := { width := 3840, height := 2160,
                    code := MEDIA_BUS_FMT_YUYV8_1X16 } }).2.1.pending_fmt_change = false :=
  have h := (C29_set_fmt_active_keeps_flag {} {}
    { which := V4L2_SUBDEV_FORMAT_ACTIVE,
      format := { width := 3840, height := 2160, code := MEDIA_BUS_FMT_YUYV8_1X16 } }).1
    rfl rfl rfl
    { width := 3840, height := 2160, code := MEDIA_BUS_FMT_YUYV8_1X16,
      colorspace := V4L2_COLORSPACE_SRGB,
      ycbcr_enc := V4L2_MAP_YCBCR_ENC_DEFAULT V4L2_COLORSPACE_SRGB,
      quantization := V4L2_QUANTIZATION_FULL_RANGE,
      xfer_func := V4L2_MAP_XFER_FUNC_DEFAULT V4L2_COLORSPACE_SRGB }
    (ap1302_mode_entry AP1302_MODE_4K_3840_2160) (by decide)
  ⟨(congrArg v4l2_mbus_framefmt.code h.2.1).trans rfl, h.2.2⟩

/-- C30: a successful `ap1302_set_fmt` with `which = TRY` on pad 0 of a
session that is not streaming writes the active session. When the mode found
for the request is not `current_mode` it becomes `current_mode` and
`pending_mode_change` is set; when the normalised code is not that of
`sensor->fmt`, `pending_fmt_change` is set; and in both cases, as whenever a
flag is pending, the normalised request is stored in `sensor->fmt`. On the
session of `ap1302_probe` a try request for 1920x1080 makes the 1080P entry
the current mode, sets `pending_mode_change` and commits the size 1920x1080
to `sensor->fmt`. -/
theorem C30_set_fmt_try_commits (s : ap1302_dev) (try_fmt : v4l2_mbus_framefmt)
    (format : v4l2_subdev_format) :
    (s.streaming = false → format.pad = 0 → format.which = V4L2_SUBDEV_FORMAT_TRY →
      ∀ mbus_fmt new_mode,
        ap1302_try_fmt_internal s format.format s.current_fr = some (mbus_fmt, new_mode) →
        (ap1302_set_fmt s try_fmt format).1 = 0 ∧
        (ap1302_set_fmt s try_fmt format).2.2.1 = mbus_fmt ∧
        (new_mode ≠ s.current_mode →
          (ap1302_set_fmt s try_fmt format).2.1.current_mode = new_mode ∧
          (ap1302_set_fmt s try_fmt format).2.1.pending_mode_change = true ∧
          (ap1302_set_fmt s try_fmt format).2.1.fmt = mbus_fmt) ∧
        (mbus_fmt.code ≠ s.fmt.code →
          (ap1302_set_fmt s try_fmt format).2.1.pending_fmt_change = true ∧
          (ap1302_set_fmt s try_fmt format).2.1.fmt = mbus_fmt) ∧
        ((s.pending_mode_change = true ∨ s.pending_fmt_change = true) →
          (ap1302_set_fmt s try_fmt format).2.1.fmt = mbus_fmt)) ∧
    (ap1302_set_fmt {} {}
      { which := V4L2_SUBDEV_FORMAT_TRY,
        format := { width := 1920, height := 1080, code := MEDIA_BUS_FMT_UYVY8_1X16 } }).1 = 0 ∧
    (ap1302_set_fmt {} {}
      { which := V4L2_SUBDEV_FORMAT_TRY,
        format := { width := 1920, height := 1080,
                    code := MEDIA_BUS_FMT_UYVY8_1X16 } }).2.1.current_mode
      = ap1302_mode_entry AP1302_MODE_1080P_1920_1080 ∧
    ({} : ap1302_dev).current_mode = ap1302_mode_entry AP1302_MODE_4K_3840_2160 ∧
    (ap1302_set_fmt {} {}
      { which := V4L2_SUBDEV_FORMAT_TRY,
        format := { width := 1920, height := 1080,
                    code := MEDIA_BUS_FMT_UYVY8_1X16 } }).2.1.pending_mode_change = true ∧
    (ap1302_set_fmt {} {}
      { which := V4L2_SUBDEV_FORMAT_TRY,
        format := { width := 1920, height := 1080,
                    code := MEDIA_BUS_FMT_UYVY8_1X16 } }).2.1.fmt.width = 1920 ∧
    ({} : ap1302_dev).fmt.width = 3840 := by
  refine ⟨?_, by decide, by decide, by decide, by decide, by decide, by decide⟩
  intro hs hp hw mbus_fmt new_mode ht
  rw [set_fmt_success s try_fmt format mbus_fmt new_mode hs hp ht]
  by_cases hm : new_mode ≠ s.current_mode
  · by_cases hcode : mbus_fmt.code ≠ s.fmt.code
    · simp [hw, hm, hcode, __v4l2_ctrl_s_ctrl_int64]
    · simp [hw, hm, hcode, __v4l2_ctrl_s_ctrl_int64]
  · by_cases hcode : mbus_fmt.code ≠ s.fmt.code
    · simp [hw, hm, hcode, __v4l2_ctrl_s_ctrl_int64]
    · simp [hw, hm, hcode, __v4l2_ctrl_s_ctrl_int64]
      intro hpend
      rw [if_pos hpend]

/-- C30 on the session of `ap1302_probe` with a try request for 1280x720. -/
theorem C30_set_fmt_try_commits_witness :
    (ap1302_set_fmt {} {}
      { which := V4L2_SUBDEV_FORMAT_TRY,
        format := { width := 1280, height := 720,
                    code := MEDIA_BUS_FMT_UYVY8_1X16 } }).2.1.current_mode
      = ap1302_mode_entry AP1302_MODE_720P_1280_720 ∧
    (ap1302_set_fmt {} {}
      { which := V4L2_SUBDEV_FORMAT_TRY,
        format := { width := 1280, height := 720,
                    code := MEDIA_BUS_FMT_UYVY8_1X16 } }).2.1.pending_mode_change = true :=
  have h := ((C30_set_fmt_try_commits {} {}
    { which := V4L2_SUBDEV_FORMAT_TRY,
      format := { width := 1280, height := 720, code := MEDIA_BUS_FMT_UYVY8_1X16 } }).1
    rfl rfl rfl
    { width := 1280, height := 720, code := MEDIA_BUS_FMT_UYVY8_1X16,
      colorspace := V4L2_COLORSPACE_SRGB,
      ycbcr_enc := V4L2_MAP_YCBCR_ENC_DEFAULT V4L2_COLORSPACE_SRGB,
      quantization := V4L2_QUANTIZATION_FULL_RANGE,
      xfer_func := V4L2_MAP_XFER_FUNC_DEFAULT V4L2_COLORSPACE_SRGB }
    (ap1302_mode_entry AP1302_MODE_720P_1280_720) (by decide)).2.2.1 (by decide)
  ⟨h.1, h.2.1⟩

/-! ## C21: stopping the stream -/

theorem reg_step_stream {s t : ap1302_dev} (h : reg_step s t) :
    t.streaming = s.streaming ∧ t.current_mode = s.current_mode ∧
    t.current_fr = s.current_fr ∧ t.bus_type = s.bus_type := by
  obtain ⟨p, q, e, rfl, _⟩ := h
  exact ⟨rfl, rfl, rfl, rfl⟩

theorem set_mode_stream (s : ap1302_dev) :
    (ap1302_set_mode s).2.streaming = s.streaming ∧
    (ap1302_set_mode s).2.current_mode = s.current_mode ∧
    (ap1302_set_mode s).2.current_fr = s.current_fr ∧
    (ap1302_set_mode s).2.bus_type = s.bus_type := by
  obtain ⟨t, ht, hm⟩ := set_mode_reg_step s
  have hp := reg_step_stream ht
  rw [hm]
  exact ⟨hp.1, hp.2.1, hp.2.2.1, hp.2.2.2⟩

theorem set_framefmt_stream (s : ap1302_dev) (format : v4l2_mbus_framefmt) :
    (ap1302_set_framefmt s format).2.streaming = s.streaming ∧
    (ap1302_set_framefmt s format).2.current_mode = s.current_mode ∧
    (ap1302_set_framefmt s format).2.current_fr = s.current_fr ∧
    (ap1302_set_framefmt s format).2.bus_type = s.bus_type :=
  reg_step_stream (set_framefmt_reg_step s format)

theorem restore_mode_stream (s : ap1302_dev) :
    (ap1302_restore_mode s).2.streaming = s.streaming ∧
    (ap1302_restore_mode s).2.current_mode = s.current_mode ∧
    (ap1302_restore_mode s).2.current_fr = s.current_fr ∧
    (ap1302_restore_mode s).2.bus_type = s.bus_type := by
  have hl : ap1302_load_regs s ap1302_mode_init_data = (0, s) := rfl
  have hm := set_mode_stream { s with last_mode := ap1302_mode_init_data }
  have hf := set_framefmt_stream
    (ap1302_set_mode { s with last_mode := ap1302_mode_init_data }).2
    (ap1302_set_mode { s with last_mode := ap1302_mode_init_data }).2.fmt
  have hval : ap1302_restore_mode s
      = ap1302_set_framefmt (ap1302_set_mode { s with last_mode := ap1302_mode_init_data }).2
          (ap1302_set_mode { s with last_mode := ap1302_mode_init_data }).2.fmt := by
    unfold ap1302_restore_mode
    rw [hl]
    dsimp only
    rw [if_neg (by decide : ¬ ((0 : Int) < 0))]
    have h1 : (ap1302_set_mode { s with last_mode := ap1302_mode_init_data }).1 = 0 := rfl
    rw [if_neg (by rw [h1]; decide)]
  rw [hval]
  exact ⟨hf.1.trans hm.1, hf.2.1.trans hm.2.1, hf.2.2.1.trans hm.2.2.1,
    hf.2.2.2.trans hm.2.2.2⟩

/-- `ap1302_set_power` leaves `streaming` as it is or clears it, and does
not write the pair `(current_mode, current_fr)`. -/
theorem set_power_stream (s : ap1302_dev) (powered : Bool) :
    ((ap1302_set_power s powered).2.streaming = s.streaming ∨
      (ap1302_set_power s powered).2.streaming = false) ∧
    (ap1302_set_power s powered).2.current_mode = s.current_mode ∧
    (ap1302_set_power s powered).2.current_fr = s.current_fr ∧
    (ap1302_set_power s powered).2.bus_type = s.bus_type := by
  cases powered with
  | false => exact ⟨Or.inr rfl, rfl, rfl, rfl⟩
  | true =>
    have hr := restore_mode_stream { s with set_power_calls := s.set_power_calls ++ [true] }
    unfold ap1302_set_power
    simp only [ap1302_set_powerdown_exit, ap1302_set_powerdown_enter, if_true, ne_eq,
      not_true_eq_false, if_false, ite_self]
    split_ifs
    · exact ⟨Or.inl hr.1, hr.2.1, hr.2.2.1, hr.2.2.2⟩
    · exact ⟨Or.inr rfl, hr.2.1, hr.2.2.1, hr.2.2.2⟩

/-- `ap1302_s_power` leaves `streaming` as it is or clears it, and does not
write the pair `(current_mode, current_fr)`. -/
theorem s_power_stream (s : ap1302_dev) (powered : Int) :
    ((ap1302_s_power s powered).2.streaming = s.streaming ∨
      (ap1302_s_power s powered).2.streaming = false) ∧
    (ap1302_s_power s powered).2.current_mode = s.current_mode ∧
    (ap1302_s_power s powered).2.current_fr = s.current_fr ∧
    (ap1302_s_power s powered).2.bus_type = s.bus_type := by
  have hsp := set_power_stream s (decide (powered ≠ 0))
  unfold ap1302_s_power
  dsimp only
  by_cases hc : s.power_count = (if powered = 0 then 1 else 0)
  · rw [if_pos hc]
    simp only [v4l2_ctrl_handler_setup]
    split_ifs <;> exact hsp
  · rw [if_neg hc]
    simp only [v4l2_ctrl_handler_setup]
    split_ifs <;> exact ⟨Or.inl rfl, rfl, rfl, rfl⟩

/-- `ap1302_set_fmt` changes nothing in a session that is streaming, and
never sets `streaming`. -/
theorem set_fmt_stream (s : ap1302_dev) (try_fmt : v4l2_mbus_framefmt)
    (format : v4l2_subdev_format) :
    (s.streaming = true → (ap1302_set_fmt s try_fmt format).2.1 = s) ∧
    (ap1302_set_fmt s try_fmt format).2.1.streaming = s.streaming := by
  unfold ap1302_set_fmt
  by_cases hp : format.pad ≠ 0
  · rw [if_pos hp]; exact ⟨fun _ => rfl, rfl⟩
  · rw [if_neg hp]
    by_cases hs : s.streaming = true
    · rw [if_pos hs]; exact ⟨fun _ => rfl, rfl⟩
    · rw [if_neg hs]
      refine ⟨fun h => absurd h hs, ?_⟩
      cases ap1302_try_fmt_internal s format.format s.current_fr with
      | none => rfl
      | some p =>
        obtain ⟨mbus_fmt, new_mode⟩ := p
        dsimp only [__v4l2_ctrl_s_ctrl_int64]
        split_ifs <;> rfl

/-- `ap1302_s_frame_interval` changes nothing in a session that is
streaming, and never sets `streaming`. -/
theorem s_frame_interval_stream (s : ap1302_dev) (fi : v4l2_subdev_frame_interval) :
    (s.streaming = true → (ap1302_s_frame_interval s fi).2.1 = s) ∧
    (ap1302_s_frame_interval s fi).2.1.streaming = s.streaming := by
  unfold ap1302_s_frame_interval
  by_cases hp : fi.pad ≠ 0
  · rw [if_pos hp]; exact ⟨fun _ => rfl, rfl⟩
  · rw [if_neg hp]
    by_cases hs : s.streaming = true
    · rw [if_pos hs]; exact ⟨fun _ => rfl, rfl⟩
    · rw [if_neg hs]
      refine ⟨fun h => absurd h hs, ?_⟩
      dsimp only
      split_ifs
      · rfl
      · cases ap1302_find_mode s
            (ap1302_try_frame_interval s fi.interval s.current_mode.hact
              s.current_mode.vact).1.toNat s.current_mode.hact s.current_mode.vact true with
        | none => rfl
        | some mode1 =>
          dsimp only [__v4l2_ctrl_s_ctrl_int64]
          split_ifs <;> rfl

/-- `ap1302_s_stream` either leaves the session as it is, or has had the
pair `(current_mode, current_fr)` accepted by `ap1302_check_valid_mode` and
does not write the pair. -/
theorem s_stream_frame (s : ap1302_dev) (enable : Int) :
    (ap1302_s_stream s enable).2 = s ∨
    (ap1302_check_valid_mode s s.current_mode s.current_fr = 0 ∧
      (ap1302_s_stream s enable).2.current_mode = s.current_mode ∧
      (ap1302_s_stream s enable).2.current_fr = s.current_fr ∧
      (ap1302_s_stream s enable).2.bus_type = s.bus_type) := by
  unfold ap1302_s_stream
  by_cases hg : s.streaming = decide (enable = 0)
  · rw [if_pos hg]
    dsimp only
    by_cases hc : ap1302_check_valid_mode s s.current_mode s.current_fr ≠ 0
    · rw [if_pos hc]; left; rfl
    · rw [if_neg hc]
      right
      refine ⟨not_not.mp hc, ?_⟩
      have hm : ∀ m : Int × ap1302_dev,
          (if enable ≠ 0 ∧ s.pending_mode_change = true then ap1302_set_mode s else (0, s)) = m →
          m.2.current_mode = s.current_mode ∧ m.2.current_fr = s.current_fr ∧
          m.2.bus_type = s.bus_type := by
        intro m hm
        subst hm
        split_ifs
        · exact (set_mode_stream s).2
        · exact ⟨rfl, rfl, rfl⟩
      generalize hme : (if enable ≠ 0 ∧ s.pending_mode_change = true then ap1302_set_mode s
        else (0, s)) = m
      have hm' := hm m hme
      by_cases h1 : m.1 ≠ 0
      · rw [if_pos h1]; exact hm'
      · rw [if_neg h1]
        have hf : ∀ f : Int × ap1302_dev,
            (if enable ≠ 0 ∧ m.2.pending_fmt_change = true then ap1302_set_framefmt m.2 m.2.fmt
              else (0, m.2)) = f →
            f.2.current_mode = m.2.current_mode ∧ f.2.current_fr = m.2.current_fr ∧
            f.2.bus_type = m.2.bus_type := by
          intro f hf
          subst hf
          split_ifs
          · exact (set_framefmt_stream m.2 m.2.fmt).2
          · exact ⟨rfl, rfl, rfl⟩
        generalize hfe : (if enable ≠ 0 ∧ m.2.pending_fmt_change = true then
          ap1302_set_framefmt m.2 m.2.fmt else (0, m.2)) = f
        have hf' := hf f hfe
        have hfs : f.2.current_mode = s.current_mode ∧ f.2.current_fr = s.current_fr ∧
            f.2.bus_type = s.bus_type :=
          ⟨hf'.1.trans hm'.1, hf'.2.1.trans hm'.2.1, hf'.2.2.trans hm'.2.2⟩
        by_cases h2 : f.1 ≠ 0
        · rw [if_pos h2]; exact hfs
        · rw [if_neg h2]
          simp only [ap1302_set_stream_mipi, ap1302_set_stream_dvp]
          split_ifs <;> exact hfs
  · rw [if_neg hg]; left; rfl

/-- A session whose pair is accepted whenever it is streaming stays so under
every request. -/
theorem request_valid (s : ap1302_dev) (r : subdev_request) (h : stream_pair_valid s) :
    stream_pair_valid (subdev_request.run s r) := by
  have hcongr : ∀ t : ap1302_dev, t.current_mode = s.current_mode → t.current_fr = s.current_fr →
      t.bus_type = s.bus_type →
      ap1302_check_valid_mode t t.current_mode t.current_fr
        = ap1302_check_valid_mode s s.current_mode s.current_fr := by
    intro t h1 h2 h3
    rw [h1, h2]
    exact check_valid_mode_congr t s _ _ (by rw [h3])
  cases r with
  | s_power powered =>
    have hp := s_power_stream s powered
    intro hstr
    show ap1302_check_valid_mode (ap1302_s_power s powered).2
      (ap1302_s_power s powered).2.current_mode (ap1302_s_power s powered).2.current_fr = 0
    have hstr' : (ap1302_s_power s powered).2.streaming = true := hstr
    rw [hcongr _ hp.2.1 hp.2.2.1 hp.2.2.2]
    rcases hp.1 with h1 | h1
    · exact h (h1.symm.trans hstr')
    · rw [h1] at hstr'
      exact absurd hstr' (by decide)
  | s_stream enable =>
    intro hstr
    show ap1302_check_valid_mode (ap1302_s_stream s enable).2
      (ap1302_s_stream s enable).2.current_mode (ap1302_s_stream s enable).2.current_fr = 0
    have hstr' : (ap1302_s_stream s enable).2.streaming = true := hstr
    rcases s_stream_frame s enable with h1 | ⟨hv, h1, h2, h3⟩
    · rw [h1] at hstr' ⊢
      exact h hstr'
    · rw [hcongr _ h1 h2 h3]
      exact hv
  | set_fmt try_fmt format =>
    have hp := set_fmt_stream s try_fmt format
    intro hstr
    have hstr' : (ap1302_set_fmt s try_fmt format).2.1.streaming = true := hstr
    have hs : s.streaming = true := hp.2.symm.trans hstr'
    show ap1302_check_valid_mode (ap1302_set_fmt s try_fmt format).2.1
      (ap1302_set_fmt s try_fmt format).2.1.current_mode
      (ap1302_set_fmt s try_fmt format).2.1.current_fr = 0
    rw [hp.1 hs]
    exact h hs
  | s_frame_interval fi =>
    have hp := s_frame_interval_stream s fi
    intro hstr
    have hstr' : (ap1302_s_frame_interval s fi).2.1.streaming = true := hstr
    have hs : s.streaming = true := hp.2.symm.trans hstr'
    show ap1302_check_valid_mode (ap1302_s_frame_interval s fi).2.1
      (ap1302_s_frame_interval s fi).2.1.current_mode
      (ap1302_s_frame_interval s fi).2.1.current_fr = 0
    rw [hp.1 hs]
    exact h hs

theorem subdev_run_valid (reqs : List subdev_request) : ∀ (s : ap1302_dev),
    stream_pair_valid s → stream_pair_valid (subdev_run s reqs) := by
  induction reqs with
  | nil => intro s h; exact h
  | cons r rest ih =>
    intro s h
    exact ih (subdev_request.run s r) (request_valid s r h)

/-- The stop of a session that is streaming on a CSI-2 D-PHY bus: the result
is that of the validation of the pair; when the pair is accepted, the flag
is cleared and nothing else is done. -/
theorem s_stream_stop (s : ap1302_dev) (hstr : s.streaming = true)
    (hbus : s.bus_type = V4L2_MBUS_CSI2_DPHY) :
    (ap1302_check_valid_mode s s.current_mode s.current_fr = 0 →
      ap1302_s_stream s 0
        = (0, { s with streaming := false,
                       stream_flag_writes := s.stream_flag_writes ++ [(s.log, false)] })) ∧
    (ap1302_check_valid_mode s s.current_mode s.current_fr ≠ 0 →
      ap1302_s_stream s 0 = (ap1302_check_valid_mode s s.current_mode s.current_fr, s)) := by
  have hc1 : s.streaming = decide ((0 : Int) = 0) := by rw [hstr]; rfl
  have hc3 : ¬ ((0 : Int) ≠ 0 ∧ s.pending_mode_change = true) := fun h => h.1 rfl
  have hc4 : ¬ ((0 : Int) ≠ 0 ∧ s.pending_fmt_change = true) := fun h => h.1 rfl
  constructor
  · intro hv
    have hc2 : ¬ ap1302_check_valid_mode s s.current_mode s.current_fr ≠ 0 := fun h => h hv
    unfold ap1302_s_stream
    rw [if_pos hc1]
    dsimp only
    rw [if_neg hc2, if_neg hc3]
    dsimp only
    simp only [if_neg hc4]
    simp [ap1302_set_stream_mipi, hbus]
  · intro hv
    unfold ap1302_s_stream
    rw [if_pos hc1]
    dsimp only
    rw [if_pos hv]

/-- C21: in every session the driver can be in, `ap1302_s_stream` with
`enable = 0` on a streaming session on a CSI-2 D-PHY bus returns 0 and
clears `streaming`. The sessions are those reached from a session that is
not streaming, as `ap1302_probe` leaves it, by any sequence of requests to
`ap1302_s_power`, `ap1302_s_stream`, `ap1302_set_fmt` and
`ap1302_s_frame_interval` with any arguments and on any bus behaviour, these
being the operations that write `streaming`, `current_mode` or
`current_fr`. The stop does call `ap1302_check_valid_mode`, but in such a
session the pair `(current_mode, current_fr)` is accepted whenever
`streaming` is set, so the validation has no part in the result: the stream
was started with this pair, and while it runs `ap1302_set_fmt` and
`ap1302_s_frame_interval` return `-EBUSY`. The stream-disable sequence
`ap1302_set_stream_mipi` issues no bus transaction, the log is unchanged,
and the flag is cleared once, after nothing. -/
theorem C21_s_stream_disable (s0 : ap1302_dev) (reqs : List subdev_request)
    (h0 : s0.streaming = false)
    (hstr : (subdev_run s0 reqs).streaming = true)
    (hbus : (subdev_run s0 reqs).bus_type = V4L2_MBUS_CSI2_DPHY) :
    (ap1302_s_stream (subdev_run s0 reqs) 0).1 = 0 ∧
    (ap1302_s_stream (subdev_run s0 reqs) 0).2.streaming = false ∧
    (ap1302_s_stream (subdev_run s0 reqs) 0).2.log = (subdev_run s0 reqs).log ∧
    ap1302_check_valid_mode (subdev_run s0 reqs) (subdev_run s0 reqs).current_mode
      (subdev_run s0 reqs).current_fr = 0 ∧
    ap1302_s_stream (subdev_run s0 reqs) 0
      = (0, { subdev_run s0 reqs with
                streaming := false,
                stream_flag_writes := (subdev_run s0 reqs).stream_flag_writes
                  ++ [((subdev_run s0 reqs).log, false)] }) := by
  have hinit : stream_pair_valid s0 := by
    intro h
    rw [h0] at h
    exact absurd h (by decide)
  have hv := subdev_run_valid reqs s0 hinit hstr
  have he := (s_stream_stop (subdev_run s0 reqs) hstr hbus).1 hv
  refine ⟨?_, ?_, ?_, hv, he⟩
  · rw [he]
  · rw [he]
  · rw [he]

/-- C21 on the session of `ap1302_probe` after a request to start the
stream: the session is streaming, and the stop returns 0 and clears
`streaming`. -/
theorem C21_s_stream_disable_witness :
    (subdev_run {} [subdev_request.s_stream 1]).streaming = true ∧
    (ap1302_s_stream (subdev_run {} [subdev_request.s_stream 1]) 0).1 = 0 ∧
    (ap1302_s_stream (subdev_run {} [subdev_request.s_stream 1]) 0).2.streaming = false :=
  have h := C21_s_stream_disable {} [subdev_request.s_stream 1] rfl (by decide) (by decide)
  ⟨by decide, h.1, h.2.1⟩

end AP1302
